import Mathlib

/-!
# Sitemap iterators

A shallow embedding of `sitemap/sitemapiterator.go`: the XML sitemap-index iterator, the XML
page iterator, the plain-text page iterator and the construction-time validator shared by the
three, followed by theorems about them.

Conventions of the embedding.

* A Go pointer or interface value that may be nil is an `Option`; `none` is nil.
* A method with a pointer receiver takes the iterator value and returns the updated value next
  to its result.
* The standard-library collaborators (`xml.Decoder`, `bufio.Scanner`, `io.ReadSeeker`) are
  modelled by what they deliver: a decoder by the tokens it has yet to return and the error it
  reports once they are used up, a scanner by the lines it has yet to return, a reader by the
  content it holds and the outcomes of its `Seek` calls.
* The entity types, the raw entry shapes and the URL-parse routines are declared in files of the
  package that are not part of the sources at hand; the types are modelled from the
  specification and the routines are parameters of the definitions that call them.
-/

namespace Sitemap

/-! ## Errors -/

/-- The error value returned by the URL-parse routines of the package. Its method
`UrlParseFailed` tells a hard failure (the location could not be parsed) from a soft anomaly. -/
structure ParseError where
  text : String
  hard : Bool
deriving DecidableEq, Repr

/-- Method `UrlParseFailed()` of the parse error. -/
def ParseError.UrlParseFailed (e : ParseError) : Bool := e.hard

/-- Values of the Go interface `error` met by the iterators. -/
inductive Error where
  /-- The sentinel `io.EOF`. -/
  | EOF
  /-- A value built by `errors.New`. -/
  | New (text : String)
  /-- A failure reported by the XML tokenizer. -/
  | xml (text : String)
  /-- A failure of the underlying stream (read or seek). -/
  | stream (text : String)
  /-- An error of a URL-parse routine, stored in an `error` variable. -/
  | url (e : ParseError)
deriving DecidableEq, Repr

/-- The error synthesised by the XML iterators for a document without matched elements:
`errors.New(fmt.Sprintf("sitemap: xml file was empty of tags."))`. -/
def emptyDocumentError : Error := Error.New "sitemap: xml file was empty of tags."

/-- A parse error stored in a variable of interface type `error`; a nil parse error is stored
as a nil `error`. -/
def asError (e : Option ParseError) : Option Error := e.map Error.url

/-! ## Entities -/

/-- Modelled from the spec: a parsed absolute URL, the result type of `parseURL` (the
declaration is not among the sources). -/
structure URL where
  text : String
deriving DecidableEq, Repr

/-- Modelled from the spec: a `time.Time`, as the distance in nanoseconds from the zero value
`time.Time{}`. -/
structure Time where
  nsec : Int
deriving DecidableEq, Repr

/-- The zero value `time.Time{}`. -/
def Time.zero : Time := ⟨0⟩

/-- The page entity `SitemapURL`, with the fields the plain-text iterator fills in. The priority
is a `float64` in the source; the only priority built here is the literal `1.0`, and the values
are represented by rationals. -/
structure SitemapURL where
  location : Option URL
  last_modified : Time
  change_frequency : String
  priority : Rat
deriving DecidableEq, Repr

/-- Modelled from the spec: the sub-sitemap entity `SitemapIndexURL` (a location and an optional
last-modified instant); its declaration is not among the sources. -/
structure SitemapIndexURL where
  location : Option URL
  last_modified : Time
deriving DecidableEq, Repr

/-- Modelled from the spec: the raw shape `sitemap_index_entry` decoded from one `sitemap`
element, holding unvalidated strings. -/
structure sitemap_index_entry where
  Location : String
  LastModified : String
deriving DecidableEq, Repr

/-- Modelled from the spec: the raw shape `sitemap_url_entry` decoded from one `url` element,
holding unvalidated strings. -/
structure sitemap_url_entry where
  Location : String
  LastModified : String
  ChangeFrequency : String
  Priority : String
deriving DecidableEq, Repr

/-! ## The XML tokenizer -/

/-- An `xml.Name`. -/
structure Name where
  Space : String
  Local : String
deriving DecidableEq, Repr

/-- An `xml.Attr`. -/
structure Attr where
  Name : Name
  Value : String
deriving DecidableEq, Repr

/-- An `xml.Token`. -/
inductive Token where
  | StartElement (Name : Name) (Attr : List Attr)
  | EndElement (Name : Name)
  | CharData (data : String)
  | Comment (data : String)
  | ProcInst (Target : String) (Inst : String)
  | Directive (data : String)
deriving DecidableEq, Repr

/-- What a tokenizer delivers over some input: the tokens, in order, and then the error that
every further `Token()` call reports (`io.EOF` at a clean end of input). -/
structure TokenStream where
  toks : List Token
  fin : Error
deriving DecidableEq, Repr

/-- The state of an `xml.Decoder`: the tokens it has yet to deliver and the error it reports
once they are used up. -/
structure Decoder where
  toks : List Token
  fin : Error
deriving DecidableEq, Repr

/-- The method `Decoder.Token`: the next token with a nil error, or a nil token with the final
error of the stream, which is sticky. -/
def Decoder.Token (d : Decoder) : (Option Sitemap.Token × Option Error) × Decoder :=
  match d.toks with
  | [] => ((none, some d.fin), d)
  | t :: ts => ((some t, none), { d with toks := ts })

/-- The tokens an element decoder reads after a start element: everything up to and including
the end element that closes it, found by counting the nesting `depth`. The result is the tokens
read, the tokens left, and whether the closing end element was reached before the tokens ran
out. -/
def readSubtree : Nat → List Token → List Token × List Token × Bool
  | _, [] => ([], [], false)
  | depth, Token.EndElement n :: ts =>
    match depth with
    | 0 => ([Token.EndElement n], ts, true)
    | d + 1 =>
      let r := readSubtree d ts
      (Token.EndElement n :: r.1, r.2.1, r.2.2)
  | depth, Token.StartElement n a :: ts =>
    let r := readSubtree (depth + 1) ts
    (Token.StartElement n a :: r.1, r.2.1, r.2.2)
  | depth, t :: ts =>
    let r := readSubtree depth ts
    (t :: r.1, r.2.1, r.2.2)

/-- The method `Decoder.DecodeElement(&v, &start)`: reads the subtree of `start` through
`Token()` and fills `v` from it. `unmarshal` is the filling of the raw shape, fixed by the
declaration of that shape. When the tokens run out before the element is closed the error that
`Token()` reported is returned and `v` holds what was filled so far. -/
def Decoder.DecodeElement {Raw : Type} (unmarshal : Sitemap.Token → List Sitemap.Token → Raw)
    (d : Decoder) (start : Sitemap.Token) : Raw × Option Error × Decoder :=
  let r := readSubtree 0 d.toks
  (unmarshal start r.1, (if r.2.2 then none else some d.fin), { d with toks := r.2.1 })

/-! ## The seekable reader -/

/-- Outcome of one `Seek(0, os.SEEK_SET)` call. After a failed call the position of the reader
is whatever the failure left; `resume` is what a tokenizer or scanner created on the reader at
that position delivers. -/
inductive SeekOutcome (α : Type) where
  | ok
  | failed (err : Error) (resume : α)
deriving DecidableEq, Repr

/-- An `io.ReadSeeker` over content of type `α` (a token stream or a line stream): `doc` is what
is delivered from offset 0, `cur` what is delivered from the position the reader was last put
at, and `seeks` the outcomes of the coming `Seek` calls (calls beyond the list succeed). -/
structure ReadSeeker (α : Type) where
  doc : α
  cur : α
  seeks : List (SeekOutcome α)
deriving DecidableEq, Repr

/-- The call `reader.Seek(0, os.SEEK_SET)`, returning its error. -/
def ReadSeeker.Seek {α : Type} (r : ReadSeeker α) : Option Error × ReadSeeker α :=
  match r.seeks with
  | [] => (none, { r with cur := r.doc })
  | SeekOutcome.ok :: rest => (none, { r with cur := r.doc, seeks := rest })
  | SeekOutcome.failed e resume :: rest => (some e, { r with cur := resume, seeks := rest })

/-- The call `xml.NewDecoder(reader)`: a decoder over what the reader delivers from its
position. -/
def NewDecoder (r : ReadSeeker TokenStream) : Decoder := { toks := r.cur.toks, fin := r.cur.fin }

/-! ## The iterator interface and the validator -/

/-- The interface `ItemIterator` over a receiver type `σ`. -/
structure ItemIterator (σ : Type) where
  Next : σ → Bool × σ
  Err : σ → Option Error
  Reset : σ → Option Error × σ

/-- The function `validateNewIterator`: the error it returns and the iterator as it leaves it. -/
def validateNewIterator {σ : Type} (I : ItemIterator σ) (iterator : σ) : Option Error × σ :=
  let p := I.Next iterator
  if !p.1 && (I.Err p.2).isSome then
    let err := I.Err p.2
    let r := I.Reset p.2
    (err, r.2)
  else
    let r := I.Reset p.2
    if r.1.isSome then (r.1, r.2) else (none, r.2)

/-! ## The XML sitemap-index iterator -/

/-- The parts of the package the index iterator calls and that are not among the sources: the
filling of a `sitemap_index_entry` from an element and the method `parseSitemapIndexURL`. -/
structure IndexEnv where
  unmarshal : Token → List Token → sitemap_index_entry
  parseSitemapIndexURL : sitemap_index_entry → Option SitemapIndexURL × Option ParseError

/-- The struct `xmlSitemapIndexIterator`. -/
structure xmlSitemapIndexIterator where
  sitemap_decoder : Decoder
  reader : ReadSeeker TokenStream
  err : Option Error
  item : Option SitemapIndexURL
  check_empty_xml : Bool
deriving DecidableEq, Repr

/-- The loop of `xmlSitemapIndexIterator.Next`, by recursion on the tokens the decoder has yet
to deliver: each round takes one token with `Token()`. -/
def xmlSitemapIndexIterator.NextLoop (env : IndexEnv) (iterator : xmlSitemapIndexIterator) :
    List Token → Bool × xmlSitemapIndexIterator
  | [] =>
    -- `Token()` returns a nil token and the final error
    let err : Option Error := some iterator.sitemap_decoder.fin
    let err := if err = some Error.EOF then none else err
    let err := if iterator.check_empty_xml && err.isNone then some emptyDocumentError else err
    (false, { iterator with
      sitemap_decoder := { iterator.sitemap_decoder with toks := [] }, item := none, err := err })
  | Token.StartElement name attr :: rest =>
    if name.Local = "sitemap" then
      let d := Decoder.DecodeElement env.unmarshal
        { iterator.sitemap_decoder with toks := rest } (Token.StartElement name attr)
      let r := env.parseSitemapIndexURL d.1
      match r.2 with
      | some e =>
        if e.UrlParseFailed then
          (false, { iterator with
            sitemap_decoder := d.2.2, check_empty_xml := false, item := none, err := asError r.2 })
        else
          (true, { iterator with
            sitemap_decoder := d.2.2, check_empty_xml := false, item := r.1, err := asError r.2 })
      | none =>
        (true, { iterator with
          sitemap_decoder := d.2.2, check_empty_xml := false, item := r.1, err := asError r.2 })
    else xmlSitemapIndexIterator.NextLoop env iterator rest
  | _ :: rest => xmlSitemapIndexIterator.NextLoop env iterator rest

/-- The method `xmlSitemapIndexIterator.Next`. -/
def xmlSitemapIndexIterator.Next (env : IndexEnv) (iterator : xmlSitemapIndexIterator) :
    Bool × xmlSitemapIndexIterator :=
  xmlSitemapIndexIterator.NextLoop env iterator iterator.sitemap_decoder.toks

/-- The method `xmlSitemapIndexIterator.Reset`. -/
def xmlSitemapIndexIterator.Reset (iterator : xmlSitemapIndexIterator) :
    Option Error × xmlSitemapIndexIterator :=
  let s := iterator.reader.Seek
  (s.1, { iterator with
    reader := s.2, sitemap_decoder := NewDecoder s.2, check_empty_xml := true,
    err := none, item := none })

/-- The method `xmlSitemapIndexIterator.Err`. -/
def xmlSitemapIndexIterator.Err (iterator : xmlSitemapIndexIterator) : Option Error :=
  iterator.err

/-- The method `xmlSitemapIndexIterator.Item`. -/
def xmlSitemapIndexIterator.Item (iterator : xmlSitemapIndexIterator) : Option SitemapIndexURL :=
  iterator.item

/-- The index iterator as an `ItemIterator`. -/
def xmlSitemapIndexIterator.asItemIterator (env : IndexEnv) :
    ItemIterator xmlSitemapIndexIterator where
  Next := xmlSitemapIndexIterator.Next env
  Err := xmlSitemapIndexIterator.Err
  Reset := xmlSitemapIndexIterator.Reset

/-- The struct literal of `newXmlSitemapIndexIterator`: the iterator over `reader` before the
validator has touched it. -/
def xmlSitemapIndexIterator.literal (reader : ReadSeeker TokenStream) : xmlSitemapIndexIterator :=
  { reader := reader, sitemap_decoder := NewDecoder reader, check_empty_xml := true,
    err := none, item := none }

/-- The constructor `newXmlSitemapIndexIterator`: the iterator (nil on failure) and the error. -/
def newXmlSitemapIndexIterator (env : IndexEnv) (reader : Option (ReadSeeker TokenStream)) :
    Option xmlSitemapIndexIterator × Option Error :=
  match reader with
  | none => (none, some (Error.New "sitemapiterator: reader cannot be nil"))
  | some reader =>
    let iterator := xmlSitemapIndexIterator.literal reader
    let v := validateNewIterator (xmlSitemapIndexIterator.asItemIterator env) iterator
    if v.1.isSome then (none, v.1) else (some v.2, none)

/-! ## The XML page iterator -/

/-- The parts of the package the page iterator calls and that are not among the sources: the
filling of a `sitemap_url_entry` from an element and the method `parseSitemapURL`. -/
structure PageEnv where
  unmarshal : Token → List Token → sitemap_url_entry
  parseSitemapURL : sitemap_url_entry → Option SitemapURL × Option ParseError

/-- The struct `xmlSitemapPageIterator`. -/
structure xmlSitemapPageIterator where
  sitemap_decoder : Decoder
  reader : ReadSeeker TokenStream
  err : Option Error
  item : Option SitemapURL
  check_empty_xml : Bool
deriving DecidableEq, Repr

/-- The loop of `xmlSitemapPageIterator.Next`, by recursion on the tokens the decoder has yet to
deliver: each round takes one token with `Token()`. -/
def xmlSitemapPageIterator.NextLoop (env : PageEnv) (iterator : xmlSitemapPageIterator) :
    List Token → Bool × xmlSitemapPageIterator
  | [] =>
    -- `Token()` returns a nil token and the final error
    let err : Option Error := some iterator.sitemap_decoder.fin
    let err := if err = some Error.EOF then none else err
    let err := if iterator.check_empty_xml && err.isNone then some emptyDocumentError else err
    (false, { iterator with
      sitemap_decoder := { iterator.sitemap_decoder with toks := [] }, item := none, err := err })
  | Token.StartElement name attr :: rest =>
    if name.Local = "url" then
      let d := Decoder.DecodeElement env.unmarshal
        { iterator.sitemap_decoder with toks := rest } (Token.StartElement name attr)
      let r := env.parseSitemapURL d.1
      match r.2 with
      | some e =>
        if e.UrlParseFailed then
          (false, { iterator with
            sitemap_decoder := d.2.2, check_empty_xml := false, item := none, err := asError r.2 })
        else
          (true, { iterator with
            sitemap_decoder := d.2.2, check_empty_xml := false, item := r.1, err := asError r.2 })
      | none =>
        (true, { iterator with
          sitemap_decoder := d.2.2, check_empty_xml := false, item := r.1, err := asError r.2 })
    else xmlSitemapPageIterator.NextLoop env iterator rest
  | _ :: rest => xmlSitemapPageIterator.NextLoop env iterator rest

/-- The method `xmlSitemapPageIterator.Next`. -/
def xmlSitemapPageIterator.Next (env : PageEnv) (iterator : xmlSitemapPageIterator) :
    Bool × xmlSitemapPageIterator :=
  xmlSitemapPageIterator.NextLoop env iterator iterator.sitemap_decoder.toks

/-- The method `xmlSitemapPageIterator.Reset`. -/
def xmlSitemapPageIterator.Reset (iterator : xmlSitemapPageIterator) :
    Option Error × xmlSitemapPageIterator :=
  let s := iterator.reader.Seek
  (s.1, { iterator with
    reader := s.2, sitemap_decoder := NewDecoder s.2, check_empty_xml := true,
    err := none, item := none })

/-- The method `xmlSitemapPageIterator.Err`. -/
def xmlSitemapPageIterator.Err (iterator : xmlSitemapPageIterator) : Option Error :=
  iterator.err

/-- The method `xmlSitemapPageIterator.Item`. -/
def xmlSitemapPageIterator.Item (iterator : xmlSitemapPageIterator) : Option SitemapURL :=
  iterator.item

/-- The page iterator as an `ItemIterator`. -/
def xmlSitemapPageIterator.asItemIterator (env : PageEnv) :
    ItemIterator xmlSitemapPageIterator where
  Next := xmlSitemapPageIterator.Next env
  Err := xmlSitemapPageIterator.Err
  Reset := xmlSitemapPageIterator.Reset

/-- The struct literal of `newXmlSitemapPageIterator`: the iterator over `reader` before the
validator has touched it. -/
def xmlSitemapPageIterator.literal (reader : ReadSeeker TokenStream) : xmlSitemapPageIterator :=
  { reader := reader, sitemap_decoder := NewDecoder reader, check_empty_xml := true,
    err := none, item := none }

/-- The constructor `newXmlSitemapPageIterator`: the iterator (nil on failure) and the error. -/
def newXmlSitemapPageIterator (env : PageEnv) (reader : Option (ReadSeeker TokenStream)) :
    Option xmlSitemapPageIterator × Option Error :=
  match reader with
  | none => (none, some (Error.New "sitemapiterator: reader cannot be nil"))
  | some reader =>
    let iterator := xmlSitemapPageIterator.literal reader
    let v := validateNewIterator (xmlSitemapPageIterator.asItemIterator env) iterator
    if v.1.isSome then (none, v.1) else (some v.2, none)

/-! ## The plain-text page iterator -/

/-- What a line scanner delivers over some input: the lines, in order, and then the error its
`Err()` holds once `Scan()` has returned false (nil at a clean end of input). -/
structure LineStream where
  lines : List String
  fin : Option Error
deriving DecidableEq, Repr

/-- The state of a `bufio.Scanner`: the lines it has yet to deliver, the error it stops with,
the text of the last line scanned and the error recorded so far. -/
structure Scanner where
  lines : List String
  fin : Option Error
  text : String
  err : Option Error
deriving DecidableEq, Repr

/-- The call `bufio.NewScanner(reader)`: a scanner over what the reader delivers from its
position. -/
def NewScanner (r : ReadSeeker LineStream) : Scanner :=
  { lines := r.cur.lines, fin := r.cur.fin, text := "", err := none }

/-- The method `Scanner.Scan`: advances to the next line, or returns false once the lines are
used up, recording the error the scanner stops with. -/
def Scanner.Scan (s : Scanner) : Bool × Scanner :=
  match s.lines with
  | [] => (false, { s with text := "", err := s.fin })
  | l :: ls => (true, { s with lines := ls, text := l })

/-- The method `Scanner.Text`. -/
def Scanner.Text (s : Scanner) : String := s.text

/-- The method `Scanner.Err`: the first error met that is not `io.EOF`. -/
def Scanner.Err (s : Scanner) : Option Error :=
  if s.err = some Error.EOF then none else s.err

/-- The struct `plainSitemapPageIterator`. -/
structure plainSitemapPageIterator where
  sitemap_scanner : Scanner
  reader : ReadSeeker LineStream
  err : Option Error
  item : Option SitemapURL
deriving DecidableEq, Repr

/-- The method `plainSitemapPageIterator.Next`; `parseURL` is the routine of the package, not
among the sources, that parses one line. -/
def plainSitemapPageIterator.Next (parseURL : String → Option URL × Option Error)
    (iterator : plainSitemapPageIterator) : Bool × plainSitemapPageIterator :=
  let s := iterator.sitemap_scanner.Scan
  if !s.1 then
    (false, { iterator with sitemap_scanner := s.2, err := s.2.Err, item := none })
  else
    let p := parseURL s.2.Text
    if p.2.isSome then
      (false, { iterator with sitemap_scanner := s.2, err := p.2, item := none })
    else
      let sitemap_url : SitemapURL :=
        { location := p.1, last_modified := Time.zero, change_frequency := "", priority := 1 }
      (true, { iterator with sitemap_scanner := s.2, item := some sitemap_url })

/-- The method `plainSitemapPageIterator.Reset`. -/
def plainSitemapPageIterator.Reset (iterator : plainSitemapPageIterator) :
    Option Error × plainSitemapPageIterator :=
  let s := iterator.reader.Seek
  (s.1, { iterator with
    reader := s.2, sitemap_scanner := NewScanner s.2, err := none, item := none })

/-- The method `plainSitemapPageIterator.Err`. -/
def plainSitemapPageIterator.Err (iterator : plainSitemapPageIterator) : Option Error :=
  iterator.err

/-- The method `plainSitemapPageIterator.Item`. -/
def plainSitemapPageIterator.Item (iterator : plainSitemapPageIterator) : Option SitemapURL :=
  iterator.item

/-- The plain-text iterator as an `ItemIterator`. -/
def plainSitemapPageIterator.asItemIterator (parseURL : String → Option URL × Option Error) :
    ItemIterator plainSitemapPageIterator where
  Next := plainSitemapPageIterator.Next parseURL
  Err := plainSitemapPageIterator.Err
  Reset := plainSitemapPageIterator.Reset

/-- The struct literal of `newPlainSitemapPageIterator`: the iterator over `reader` before the
validator has touched it. -/
def plainSitemapPageIterator.literal (reader : ReadSeeker LineStream) : plainSitemapPageIterator :=
  { reader := reader, sitemap_scanner := NewScanner reader, err := none, item := none }

/-- The constructor `newPlainSitemapPageIterator`: the iterator (nil on failure) and the
error. -/
def newPlainSitemapPageIterator (parseURL : String → Option URL × Option Error)
    (reader : Option (ReadSeeker LineStream)) :
    Option plainSitemapPageIterator × Option Error :=
  match reader with
  | none => (none, some (Error.New "sitemap: reader cannot be nil"))
  | some reader =>
    let iterator := plainSitemapPageIterator.literal reader
    let v := validateNewIterator (plainSitemapPageIterator.asItemIterator parseURL) iterator
    if v.1.isSome then (none, v.1) else (some v.2, none)

/-! ## Observation of a run -/

/-- What a caller observes of `n` successive `Next` calls: for each call its result, then
`Item()` and `Err()` read right after it. -/
def xmlSitemapIndexIterator.observe (env : IndexEnv) :
    Nat → xmlSitemapIndexIterator → List (Bool × Option SitemapIndexURL × Option Error)
  | 0, _ => []
  | n + 1, iterator =>
    let r := xmlSitemapIndexIterator.Next env iterator
    (r.1, r.2.Item, r.2.Err) :: xmlSitemapIndexIterator.observe env n r.2

/-- What a caller observes of `n` successive `Next` calls: for each call its result, then
`Item()` and `Err()` read right after it. -/
def xmlSitemapPageIterator.observe (env : PageEnv) :
    Nat → xmlSitemapPageIterator → List (Bool × Option SitemapURL × Option Error)
  | 0, _ => []
  | n + 1, iterator =>
    let r := xmlSitemapPageIterator.Next env iterator
    (r.1, r.2.Item, r.2.Err) :: xmlSitemapPageIterator.observe env n r.2

/-- What a caller observes of `n` successive `Next` calls: for each call its result, then
`Item()` and `Err()` read right after it. -/
def plainSitemapPageIterator.observe (parseURL : String → Option URL × Option Error) :
    Nat → plainSitemapPageIterator → List (Bool × Option SitemapURL × Option Error)
  | 0, _ => []
  | n + 1, iterator =>
    let r := plainSitemapPageIterator.Next parseURL iterator
    (r.1, r.2.Item, r.2.Err) :: plainSitemapPageIterator.observe parseURL n r.2

/-- The iterator after `n` successive `Next` calls. -/
def xmlSitemapIndexIterator.after (env : IndexEnv) :
    Nat → xmlSitemapIndexIterator → xmlSitemapIndexIterator
  | 0, iterator => iterator
  | n + 1, iterator =>
    xmlSitemapIndexIterator.after env n (xmlSitemapIndexIterator.Next env iterator).2

/-- The iterator after `n` successive `Next` calls. -/
def xmlSitemapPageIterator.after (env : PageEnv) :
    Nat → xmlSitemapPageIterator → xmlSitemapPageIterator
  | 0, iterator => iterator
  | n + 1, iterator =>
    xmlSitemapPageIterator.after env n (xmlSitemapPageIterator.Next env iterator).2

/-- The iterator after `n` successive `Next` calls. -/
def plainSitemapPageIterator.after (parseURL : String → Option URL × Option Error) :
    Nat → plainSitemapPageIterator → plainSitemapPageIterator
  | 0, iterator => iterator
  | n + 1, iterator =>
    plainSitemapPageIterator.after parseURL n (plainSitemapPageIterator.Next parseURL iterator).2

/-! ## Elements of a document -/

/-- Whether a token is a start element with local name `name`, whatever its namespace. -/
def isStart (name : String) : Token → Bool
  | Token.StartElement n _ => decide (n.Local = name)
  | _ => false

/-- The first start element named `name` among the tokens, with the tokens of its subtree (up
to its end element) and the tokens after it. -/
def firstElement (name : String) : List Token → Option (Token × List Token × List Token)
  | [] => none
  | t :: ts =>
    if isStart name t then some (t, (readSubtree 0 ts).1, (readSubtree 0 ts).2.1)
    else firstElement name ts

/-- The elements named `name` of a token list in document order, each as its start element and
the tokens of its subtree: the first such element, then the elements of what follows its end
element. Start elements named `name` inside the subtree of a listed element are part of that
subtree and not listed. The first argument bounds the number of elements listed. -/
def elementsUpTo (name : String) : Nat → List Token → List (Token × List Token)
  | 0, _ => []
  | n + 1, toks =>
    match firstElement name toks with
    | none => []
    | some e => (e.1, e.2.1) :: elementsUpTo name n e.2.2

/-- The elements named `name` of a token list in document order, outermost ones only. -/
def elements (name : String) (toks : List Token) : List (Token × List Token) :=
  elementsUpTo name toks.length toks

/-- The number of start elements named `name` in a token list, nested ones included. -/
def countStart (name : String) (toks : List Token) : Nat :=
  (toks.filter (isStart name)).length

/-! ## The scanning core shared by the two XML iterators

The two XML iterators run the same loop over different element names and entity types. The
definitions of this section restate that loop once, over the fields the loop reads and writes;
the theorems relate each iterator to it. -/

/-- The fields of an XML iterator that `Next` reads and writes. -/
structure Cursor (Item : Type) where
  toks : List Token
  fin : Error
  flag : Bool
  item : Option Item
  err : Option Error

/-- The error stored by `Next` when `Token()` reports the final error `fin` of the stream while
the empty-document flag is `flag`. -/
def endError (flag : Bool) (fin : Error) : Option Error :=
  if fin = Error.EOF then (if flag then some emptyDocumentError else none) else some fin

/-- Whether a parse result carries a hard error. -/
def isHard : Option ParseError → Bool
  | some e => e.UrlParseFailed
  | none => false

/-- One `Next` call on the fields of the iterator: `decode` turns a start element and the
tokens of its subtree into the result of the parse routine. -/
def Cursor.step {Item : Type} (name : String)
    (decode : Token → List Token → Option Item × Option ParseError) (c : Cursor Item) :
    Bool × Cursor Item :=
  match firstElement name c.toks with
  | none => (false, { c with toks := [], item := none, err := endError c.flag c.fin })
  | some e =>
    let r := decode e.1 e.2.1
    if isHard r.2 then
      (false, { c with toks := e.2.2, flag := false, item := none, err := asError r.2 })
    else
      (true, { c with toks := e.2.2, flag := false, item := r.1, err := asError r.2 })

/-- The observations of `n` successive steps of the core. -/
def Cursor.observe {Item : Type} (name : String)
    (decode : Token → List Token → Option Item × Option ParseError) :
    Nat → Cursor Item → List (Bool × Option Item × Option Error)
  | 0, _ => []
  | n + 1, c =>
    let r := Cursor.step name decode c
    (r.1, r.2.item, r.2.err) :: Cursor.observe name decode n r.2

/-- The core after `n` successive steps. -/
def Cursor.after {Item : Type} (name : String)
    (decode : Token → List Token → Option Item × Option ParseError) :
    Nat → Cursor Item → Cursor Item
  | 0, c => c
  | n + 1, c => Cursor.after name decode n (Cursor.step name decode c).2

/-- The fields of the index iterator that `Next` reads and writes. -/
def xmlSitemapIndexIterator.cursor (iterator : xmlSitemapIndexIterator) :
    Cursor SitemapIndexURL :=
  { toks := iterator.sitemap_decoder.toks, fin := iterator.sitemap_decoder.fin,
    flag := iterator.check_empty_xml, item := iterator.item, err := iterator.err }

/-- The fields of the page iterator that `Next` reads and writes. -/
def xmlSitemapPageIterator.cursor (iterator : xmlSitemapPageIterator) : Cursor SitemapURL :=
  { toks := iterator.sitemap_decoder.toks, fin := iterator.sitemap_decoder.fin,
    flag := iterator.check_empty_xml, item := iterator.item, err := iterator.err }

/-- Decoding and parsing of one `sitemap` element: the raw shape filled from the element, passed
to `parseSitemapIndexURL`. -/
def IndexEnv.decode (env : IndexEnv) (start : Token) (body : List Token) :
    Option SitemapIndexURL × Option ParseError :=
  env.parseSitemapIndexURL (env.unmarshal start body)

/-- Decoding and parsing of one `url` element: the raw shape filled from the element, passed to
`parseSitemapURL`. -/
def PageEnv.decode (env : PageEnv) (start : Token) (body : List Token) :
    Option SitemapURL × Option ParseError :=
  env.parseSitemapURL (env.unmarshal start body)

/-! ## Sample inputs -/

/-- A start element without namespace and attributes. -/
def startTag (name : String) : Token := Token.StartElement { Space := "", Local := name } []

/-- An end element without namespace. -/
def endTag (name : String) : Token := Token.EndElement { Space := "", Local := name }

/-- The first character data among the tokens, empty when there is none. -/
def firstText : List Token → String
  | [] => ""
  | Token.CharData d :: _ => d
  | _ :: ts => firstText ts

/-- A sample environment of the index iterator: the location is the first text of the element;
the location `bad` is rejected, the location `soft` is accepted with a soft error. -/
def sampleIndexEnv : IndexEnv where
  unmarshal := fun _ body => { Location := firstText body, LastModified := "" }
  parseSitemapIndexURL := fun raw =>
    if raw.Location = "bad" then (none, some { text := "unparsable location", hard := true })
    else if raw.Location = "soft" then
      (some { location := some { text := raw.Location }, last_modified := Time.zero },
        some { text := "last-modified defaulted", hard := false })
    else (some { location := some { text := raw.Location }, last_modified := Time.zero }, none)

/-- A sample environment of the page iterator: the location is the first text of the element;
the location `bad` is rejected, the location `soft` is accepted with a soft error. -/
def samplePageEnv : PageEnv where
  unmarshal := fun _ body =>
    { Location := firstText body, LastModified := "", ChangeFrequency := "", Priority := "" }
  parseSitemapURL := fun raw =>
    if raw.Location = "bad" then (none, some { text := "unparsable location", hard := true })
    else if raw.Location = "soft" then
      (some { location := some { text := raw.Location }, last_modified := Time.zero,
              change_frequency := "", priority := 1 },
        some { text := "priority defaulted", hard := false })
    else
      (some { location := some { text := raw.Location }, last_modified := Time.zero,
              change_frequency := "", priority := 1 }, none)

/-- A sample line parser: every line is accepted but the empty one and `not a url`. -/
def sampleParseURL (line : String) : Option URL × Option Error :=
  if line = "" ∨ line = "not a url" then
    (none, some (Error.url { text := "unparsable location", hard := true }))
  else (some { text := line }, none)

/-- A reader at the start of its content whose seeks all succeed. -/
def readerOver {α : Type} (doc : α) : ReadSeeker α := { doc := doc, cur := doc, seeks := [] }

/-- A reader at the start of its content whose first seek fails. -/
def readerFailing {α : Type} (doc : α) : ReadSeeker α :=
  { doc := doc, cur := doc, seeks := [SeekOutcome.failed (Error.stream "seek failed") doc] }

/-- An element `name` holding one `loc` child with the given text. -/
def entry (name loc : String) : List Token :=
  [startTag name, startTag "loc", Token.CharData loc, endTag "loc", endTag name]

/-- A sitemap index with two entries. -/
def sampleIndexDoc : TokenStream :=
  { toks := [startTag "sitemapindex"] ++ entry "sitemap" "https://a.example/1.xml" ++
      [Token.CharData " "] ++ entry "sitemap" "https://a.example/2.xml" ++
      [endTag "sitemapindex"],
    fin := Error.EOF }

/-- A urlset with two entries. -/
def samplePageDoc : TokenStream :=
  { toks := [startTag "urlset"] ++ entry "url" "https://a.example/" ++
      [Token.Comment "next"] ++ entry "url" "https://b.example/" ++ [endTag "urlset"],
    fin := Error.EOF }

/-- A document with a `sitemap` element inside another `sitemap` element. -/
def nestedIndexDoc : TokenStream :=
  { toks := [startTag "sitemap", startTag "loc", Token.CharData "https://a.example/1.xml",
      endTag "loc"] ++ entry "sitemap" "https://a.example/2.xml" ++ [endTag "sitemap"],
    fin := Error.EOF }

/-- A stream that is not XML: the tokenizer stops with a syntax error. -/
def brokenDoc : TokenStream :=
  { toks := [Token.CharData "plain text"], fin := Error.xml "XML syntax error" }

/-- A document without elements of either matched name. -/
def emptyDoc : TokenStream :=
  { toks := [startTag "sitemapindex", Token.CharData " ", endTag "sitemapindex"],
    fin := Error.EOF }

/-- A sitemap index whose only entry has an unparsable location. -/
def badIndexDoc : TokenStream :=
  { toks := [startTag "sitemapindex"] ++ entry "sitemap" "bad" ++ [endTag "sitemapindex"],
    fin := Error.EOF }

/-- A urlset whose only entry has an unparsable location. -/
def badPageDoc : TokenStream :=
  { toks := [startTag "urlset"] ++ entry "url" "bad" ++ [endTag "urlset"],
    fin := Error.EOF }

/-- A plain-text list of three lines, the second of which is not a URL. -/
def sampleLines : LineStream :=
  { lines := ["https://a.example/", "not a url", "https://b.example/"], fin := none }

/-- A plain-text list of one line. -/
def oneLine : LineStream := { lines := ["https://a.example/"], fin := none }

/-- A sitemap index whose first entry has an unparsable location and whose second entry is
well formed. -/
def badThenGoodIndexDoc : TokenStream :=
  { toks := [startTag "sitemapindex"] ++ entry "sitemap" "bad" ++
      [Token.CharData " "] ++ entry "sitemap" "https://a.example/2.xml" ++
      [endTag "sitemapindex"],
    fin := Error.EOF }

/-- A urlset whose first entry has an unparsable location and whose second entry is well
formed. -/
def badThenGoodPageDoc : TokenStream :=
  { toks := [startTag "urlset"] ++ entry "url" "bad" ++
      [Token.CharData " "] ++ entry "url" "https://b.example/" ++ [endTag "urlset"],
    fin := Error.EOF }

/-- A sitemap index whose first entry is accepted with a soft error and whose second entry is
well formed. -/
def softThenGoodIndexDoc : TokenStream :=
  { toks := [startTag "sitemapindex"] ++ entry "sitemap" "soft" ++
      [Token.CharData " "] ++ entry "sitemap" "https://a.example/2.xml" ++
      [endTag "sitemapindex"],
    fin := Error.EOF }

/-- A urlset whose first entry is accepted with a soft error and whose second entry is well
formed. -/
def softThenGoodPageDoc : TokenStream :=
  { toks := [startTag "urlset"] ++ entry "url" "soft" ++
      [Token.CharData " "] ++ entry "url" "https://b.example/" ++ [endTag "urlset"],
    fin := Error.EOF }

/-- The sample environment of the index iterator with the soft error left out: the location
`soft` is accepted with no error. -/
def lenientIndexEnv : IndexEnv where
  unmarshal := sampleIndexEnv.unmarshal
  parseSitemapIndexURL := fun raw =>
    ((sampleIndexEnv.parseSitemapIndexURL raw).1,
      if raw.Location = "soft" then none else (sampleIndexEnv.parseSitemapIndexURL raw).2)

/-- The sample environment of the page iterator with the soft error left out: the location
`soft` is accepted with no error. -/
def lenientPageEnv : PageEnv where
  unmarshal := samplePageEnv.unmarshal
  parseSitemapURL := fun raw =>
    ((samplePageEnv.parseSitemapURL raw).1,
      if raw.Location = "soft" then none else (samplePageEnv.parseSitemapURL raw).2)

/-- A sitemap index cut off inside its first entry, after the location: the tokenizer stops
with a syntax error. -/
def truncatedIndexDoc : TokenStream :=
  { toks := [startTag "sitemapindex", startTag "sitemap", startTag "loc",
      Token.CharData "https://a.example/1.xml", endTag "loc"],
    fin := Error.xml "XML syntax error: unexpected EOF" }

/-- A urlset cut off inside its first entry, after the location: the tokenizer stops with a
syntax error. -/
def truncatedPageDoc : TokenStream :=
  { toks := [startTag "urlset", startTag "url", startTag "loc",
      Token.CharData "https://a.example/", endTag "loc"],
    fin := Error.xml "XML syntax error: unexpected EOF" }

/-- The sample environment of the index iterator with a parse routine that accepts every
entry with no error. -/
def acceptingIndexEnv : IndexEnv where
  unmarshal := sampleIndexEnv.unmarshal
  parseSitemapIndexURL := fun raw =>
    (some { location := some { text := raw.Location }, last_modified := Time.zero }, none)

/-- The sample environment of the page iterator with a parse routine that accepts every entry
with no error. -/
def acceptingPageEnv : PageEnv where
  unmarshal := samplePageEnv.unmarshal
  parseSitemapURL := fun raw =>
    (some { location := some { text := raw.Location }, last_modified := Time.zero,
            change_frequency := "", priority := 1 }, none)

/-! ## Correspondence between the two XML iterators -/

/-- The local name with `sitemap` and `url` exchanged. -/
def swapLocal (s : String) : String :=
  if s = "sitemap" then "url" else if s = "url" then "sitemap" else s

/-- The token with the local names `sitemap` and `url` exchanged in element names. -/
def swapToken : Token → Token
  | Token.StartElement n a => Token.StartElement { n with Local := swapLocal n.Local } a
  | Token.EndElement n => Token.EndElement { n with Local := swapLocal n.Local }
  | Token.CharData d => Token.CharData d
  | Token.Comment d => Token.Comment d
  | Token.ProcInst t i => Token.ProcInst t i
  | Token.Directive d => Token.Directive d

/-- The token stream with `sitemap` and `url` exchanged. -/
def swapStream (s : TokenStream) : TokenStream :=
  { toks := s.toks.map swapToken, fin := s.fin }

/-- The seek outcome with `sitemap` and `url` exchanged in the stream it resumes on. -/
def swapOutcome : SeekOutcome TokenStream → SeekOutcome TokenStream
  | SeekOutcome.ok => SeekOutcome.ok
  | SeekOutcome.failed e resume => SeekOutcome.failed e (swapStream resume)

/-- The reader over the content with `sitemap` and `url` exchanged. -/
def swapReader (r : ReadSeeker TokenStream) : ReadSeeker TokenStream :=
  { doc := swapStream r.doc, cur := swapStream r.cur, seeks := r.seeks.map swapOutcome }

/-- The page iterator that corresponds to an index iterator: the same fields over the stream
with `sitemap` and `url` exchanged, the item carried over by `g`. -/
def asPageIterator (g : SitemapIndexURL → SitemapURL) (it : xmlSitemapIndexIterator) :
    xmlSitemapPageIterator :=
  { sitemap_decoder :=
      { toks := it.sitemap_decoder.toks.map swapToken, fin := it.sitemap_decoder.fin },
    reader := swapReader it.reader,
    err := it.err,
    item := it.item.map g,
    check_empty_xml := it.check_empty_xml }

/-- A call made on an iterator. -/
inductive Call where
  | Next
  | Reset
deriving DecidableEq, Repr

/-- What a caller observes of a sequence of Next and Reset calls on the index iterator: for each
call its result (the boolean of Next or the error of Reset), then the flag, `Item()` and
`Err()` right after it. -/
def xmlSitemapIndexIterator.trace (env : IndexEnv) :
    List Call → xmlSitemapIndexIterator →
      List ((Bool ⊕ Option Error) × Bool × Option SitemapIndexURL × Option Error)
  | [], _ => []
  | Call.Next :: cs, it =>
    let r := xmlSitemapIndexIterator.Next env it
    (Sum.inl r.1, r.2.check_empty_xml, r.2.Item, r.2.Err) ::
      xmlSitemapIndexIterator.trace env cs r.2
  | Call.Reset :: cs, it =>
    let r := it.Reset
    (Sum.inr r.1, r.2.check_empty_xml, r.2.Item, r.2.Err) ::
      xmlSitemapIndexIterator.trace env cs r.2

/-- What a caller observes of a sequence of Next and Reset calls on the page iterator: for each
call its result (the boolean of Next or the error of Reset), then the flag, `Item()` and
`Err()` right after it. -/
def xmlSitemapPageIterator.trace (env : PageEnv) :
    List Call → xmlSitemapPageIterator →
      List ((Bool ⊕ Option Error) × Bool × Option SitemapURL × Option Error)
  | [], _ => []
  | Call.Next :: cs, it =>
    let r := xmlSitemapPageIterator.Next env it
    (Sum.inl r.1, r.2.check_empty_xml, r.2.Item, r.2.Err) ::
      xmlSitemapPageIterator.trace env cs r.2
  | Call.Reset :: cs, it =>
    let r := it.Reset
    (Sum.inr r.1, r.2.check_empty_xml, r.2.Item, r.2.Err) ::
      xmlSitemapPageIterator.trace env cs r.2

/-- The page entry with the fields of a sub-sitemap entry and default metadata. -/
def toPage (u : SitemapIndexURL) : SitemapURL :=
  { location := u.location, last_modified := u.last_modified, change_frequency := "",
    priority := 1 }

/-- A page environment that parses as the sample index environment does. -/
def mirrorPageEnv : PageEnv where
  unmarshal := fun _ body =>
    { Location := firstText body, LastModified := "", ChangeFrequency := "", Priority := "" }
  parseSitemapURL := fun raw =>
    ((sampleIndexEnv.parseSitemapIndexURL
        { Location := raw.Location, LastModified := raw.LastModified }).1.map toPage,
      (sampleIndexEnv.parseSitemapIndexURL
        { Location := raw.Location, LastModified := raw.LastModified }).2)

theorem Cursor.ext_fields {Item : Type} {a b : Cursor Item} (h1 : a.toks = b.toks)
    (h2 : a.fin = b.fin) (h3 : a.flag = b.flag) (h4 : a.item = b.item) (h5 : a.err = b.err) :
    a = b := by
  cases a; cases b; simp_all

theorem idx_NextLoop (env : IndexEnv) (it : xmlSitemapIndexIterator) (toks : List Token) :
    xmlSitemapIndexIterator.NextLoop env it toks =
      ((Cursor.step "sitemap" env.decode { it.cursor with toks := toks }).1,
        { it with
          sitemap_decoder :=
            { toks := (Cursor.step "sitemap" env.decode { it.cursor with toks := toks }).2.toks,
              fin := it.sitemap_decoder.fin },
          check_empty_xml :=
            (Cursor.step "sitemap" env.decode { it.cursor with toks := toks }).2.flag,
          item := (Cursor.step "sitemap" env.decode { it.cursor with toks := toks }).2.item,
          err := (Cursor.step "sitemap" env.decode { it.cursor with toks := toks }).2.err }) := by
  induction toks with
  | nil =>
    cases hf : it.sitemap_decoder.fin <;> cases hc : it.check_empty_xml <;>
      simp [xmlSitemapIndexIterator.NextLoop, Cursor.step, firstElement, endError,
        xmlSitemapIndexIterator.cursor, hf, hc]
  | cons t ts ih =>
    cases t with
    | StartElement n a =>
      by_cases hn : n.Local = "sitemap"
      · simp only [xmlSitemapIndexIterator.NextLoop, Cursor.step, firstElement, isStart, hn,
          Decoder.DecodeElement, IndexEnv.decode, xmlSitemapIndexIterator.cursor]
        cases hp : (env.parseSitemapIndexURL
            (env.unmarshal (Token.StartElement n a) (readSubtree 0 ts).1)).2 with
        | none => simp [isHard, hp]
        | some e => cases hh : e.UrlParseFailed <;> simp [isHard, hp, hh]
      · simp only [xmlSitemapIndexIterator.NextLoop, hn, if_false]
        rw [ih]
        simp [Cursor.step, firstElement, isStart, hn, xmlSitemapIndexIterator.cursor]
    | EndElement n =>
      simp only [xmlSitemapIndexIterator.NextLoop]
      rw [ih]
      simp [Cursor.step, firstElement, isStart, xmlSitemapIndexIterator.cursor]
    | CharData d =>
      simp only [xmlSitemapIndexIterator.NextLoop]
      rw [ih]
      simp [Cursor.step, firstElement, isStart, xmlSitemapIndexIterator.cursor]
    | Comment d =>
      simp only [xmlSitemapIndexIterator.NextLoop]
      rw [ih]
      simp [Cursor.step, firstElement, isStart, xmlSitemapIndexIterator.cursor]
    | ProcInst d i =>
      simp only [xmlSitemapIndexIterator.NextLoop]
      rw [ih]
      simp [Cursor.step, firstElement, isStart, xmlSitemapIndexIterator.cursor]
    | Directive d =>
      simp only [xmlSitemapIndexIterator.NextLoop]
      rw [ih]
      simp [Cursor.step, firstElement, isStart, xmlSitemapIndexIterator.cursor]

theorem page_NextLoop (env : PageEnv) (it : xmlSitemapPageIterator) (toks : List Token) :
    xmlSitemapPageIterator.NextLoop env it toks =
      ((Cursor.step "url" env.decode { it.cursor with toks := toks }).1,
        { it with
          sitemap_decoder :=
            { toks := (Cursor.step "url" env.decode { it.cursor with toks := toks }).2.toks,
              fin := it.sitemap_decoder.fin },
          check_empty_xml :=
            (Cursor.step "url" env.decode { it.cursor with toks := toks }).2.flag,
          item := (Cursor.step "url" env.decode { it.cursor with toks := toks }).2.item,
          err := (Cursor.step "url" env.decode { it.cursor with toks := toks }).2.err }) := by
  induction toks with
  | nil =>
    cases hf : it.sitemap_decoder.fin <;> cases hc : it.check_empty_xml <;>
      simp [xmlSitemapPageIterator.NextLoop, Cursor.step, firstElement, endError,
        xmlSitemapPageIterator.cursor, hf, hc]
  | cons t ts ih =>
    cases t with
    | StartElement n a =>
      by_cases hn : n.Local = "url"
      · simp only [xmlSitemapPageIterator.NextLoop, Cursor.step, firstElement, isStart, hn,
          Decoder.DecodeElement, PageEnv.decode, xmlSitemapPageIterator.cursor]
        cases hp : (env.parseSitemapURL
            (env.unmarshal (Token.StartElement n a) (readSubtree 0 ts).1)).2 with
        | none => simp [isHard, hp]
        | some e => cases hh : e.UrlParseFailed <;> simp [isHard, hp, hh]
      · simp only [xmlSitemapPageIterator.NextLoop, hn, if_false]
        rw [ih]
        simp [Cursor.step, firstElement, isStart, hn, xmlSitemapPageIterator.cursor]
    | EndElement n =>
      simp only [xmlSitemapPageIterator.NextLoop]
      rw [ih]
      simp [Cursor.step, firstElement, isStart, xmlSitemapPageIterator.cursor]
    | CharData d =>
      simp only [xmlSitemapPageIterator.NextLoop]
      rw [ih]
      simp [Cursor.step, firstElement, isStart, xmlSitemapPageIterator.cursor]
    | Comment d =>
      simp only [xmlSitemapPageIterator.NextLoop]
      rw [ih]
      simp [Cursor.step, firstElement, isStart, xmlSitemapPageIterator.cursor]
    | ProcInst d i =>
      simp only [xmlSitemapPageIterator.NextLoop]
      rw [ih]
      simp [Cursor.step, firstElement, isStart, xmlSitemapPageIterator.cursor]
    | Directive d =>
      simp only [xmlSitemapPageIterator.NextLoop]
      rw [ih]
      simp [Cursor.step, firstElement, isStart, xmlSitemapPageIterator.cursor]


theorem idx_Next (env : IndexEnv) (it : xmlSitemapIndexIterator) :
    (xmlSitemapIndexIterator.Next env it).1 = (Cursor.step "sitemap" env.decode it.cursor).1 ∧
    (xmlSitemapIndexIterator.Next env it).2.cursor =
      (Cursor.step "sitemap" env.decode it.cursor).2 ∧
    (xmlSitemapIndexIterator.Next env it).2.reader = it.reader := by
  have h := idx_NextLoop env it it.sitemap_decoder.toks
  have hc : ({ it.cursor with toks := it.sitemap_decoder.toks } : Cursor SitemapIndexURL)
      = it.cursor := rfl
  rw [hc] at h
  unfold xmlSitemapIndexIterator.Next
  rw [h]
  refine ⟨rfl, ?_, rfl⟩
  apply Cursor.ext_fields <;> try rfl
  simp only [xmlSitemapIndexIterator.cursor]
  unfold Cursor.step
  split
  · rfl
  · dsimp only
    split <;> rfl

theorem page_Next (env : PageEnv) (it : xmlSitemapPageIterator) :
    (xmlSitemapPageIterator.Next env it).1 = (Cursor.step "url" env.decode it.cursor).1 ∧
    (xmlSitemapPageIterator.Next env it).2.cursor =
      (Cursor.step "url" env.decode it.cursor).2 ∧
    (xmlSitemapPageIterator.Next env it).2.reader = it.reader := by
  have h := page_NextLoop env it it.sitemap_decoder.toks
  have hc : ({ it.cursor with toks := it.sitemap_decoder.toks } : Cursor SitemapURL)
      = it.cursor := rfl
  rw [hc] at h
  unfold xmlSitemapPageIterator.Next
  rw [h]
  refine ⟨rfl, ?_, rfl⟩
  apply Cursor.ext_fields <;> try rfl
  simp only [xmlSitemapPageIterator.cursor]
  unfold Cursor.step
  split
  · rfl
  · dsimp only
    split <;> rfl

theorem idx_observe (env : IndexEnv) (n : Nat) (it : xmlSitemapIndexIterator) :
    xmlSitemapIndexIterator.observe env n it =
      Cursor.observe "sitemap" env.decode n it.cursor := by
  induction n generalizing it with
  | zero => rfl
  | succ n ih =>
    obtain ⟨h1, h2, _⟩ := idx_Next env it
    simp only [xmlSitemapIndexIterator.observe, Cursor.observe]
    rw [ih, h1, h2]
    have hi : (xmlSitemapIndexIterator.Next env it).2.Item =
        (xmlSitemapIndexIterator.Next env it).2.cursor.item := rfl
    have he : (xmlSitemapIndexIterator.Next env it).2.Err =
        (xmlSitemapIndexIterator.Next env it).2.cursor.err := rfl
    rw [hi, he, h2]

theorem page_observe (env : PageEnv) (n : Nat) (it : xmlSitemapPageIterator) :
    xmlSitemapPageIterator.observe env n it =
      Cursor.observe "url" env.decode n it.cursor := by
  induction n generalizing it with
  | zero => rfl
  | succ n ih =>
    obtain ⟨h1, h2, _⟩ := page_Next env it
    simp only [xmlSitemapPageIterator.observe, Cursor.observe]
    rw [ih, h1, h2]
    have hi : (xmlSitemapPageIterator.Next env it).2.Item =
        (xmlSitemapPageIterator.Next env it).2.cursor.item := rfl
    have he : (xmlSitemapPageIterator.Next env it).2.Err =
        (xmlSitemapPageIterator.Next env it).2.cursor.err := rfl
    rw [hi, he, h2]

theorem firstElement_none_iff (name : String) (toks : List Token) :
    firstElement name toks = none ↔ ∀ t ∈ toks, isStart name t = false := by
  induction toks with
  | nil => simp [firstElement]
  | cons t ts ih =>
    cases h : isStart name t <;> simp [firstElement, h, ih]

theorem firstElement_append (name : String) (pre toks : List Token)
    (h : ∀ t ∈ pre, isStart name t = false) :
    firstElement name (pre ++ toks) = firstElement name toks := by
  induction pre with
  | nil => rfl
  | cons t ts ih =>
    have ht : isStart name t = false := h t (List.mem_cons_self _ _)
    simp only [List.cons_append, firstElement, ht]
    exact ih (fun u hu => h u (List.mem_cons_of_mem _ hu))

theorem readSubtree_length (d : Nat) (ts : List Token) :
    (readSubtree d ts).2.1.length ≤ ts.length := by
  induction ts generalizing d with
  | nil => simp [readSubtree]
  | cons t ts ih =>
    cases t with
    | EndElement n =>
      cases d with
      | zero => simp [readSubtree]
      | succ d =>
        simp only [readSubtree, List.length_cons]
        exact Nat.le_succ_of_le (ih d)
    | StartElement n a =>
      simp only [readSubtree, List.length_cons]
      exact Nat.le_succ_of_le (ih (d + 1))
    | CharData x =>
      simp only [readSubtree, List.length_cons]
      exact Nat.le_succ_of_le (ih d)
    | Comment x =>
      simp only [readSubtree, List.length_cons]
      exact Nat.le_succ_of_le (ih d)
    | ProcInst x y =>
      simp only [readSubtree, List.length_cons]
      exact Nat.le_succ_of_le (ih d)
    | Directive x =>
      simp only [readSubtree, List.length_cons]
      exact Nat.le_succ_of_le (ih d)

theorem firstElement_length (name : String) (toks : List Token)
    (e : Token × List Token × List Token) (h : firstElement name toks = some e) :
    e.2.2.length < toks.length := by
  induction toks with
  | nil => simp [firstElement] at h
  | cons t ts ih =>
    cases ht : isStart name t
    · simp only [firstElement, ht] at h
      exact Nat.lt_succ_of_lt (ih h)
    · simp only [firstElement, ht, if_true, Option.some.injEq] at h
      subst h
      exact Nat.lt_succ_of_le (readSubtree_length 0 ts)

theorem elementsUpTo_fuel (name : String) (fuel : Nat) (toks : List Token)
    (h : toks.length ≤ fuel) : elementsUpTo name fuel toks = elements name toks := by
  have key : ∀ (f g : Nat) (ts : List Token), ts.length ≤ f → ts.length ≤ g →
      elementsUpTo name f ts = elementsUpTo name g ts := by
    intro f
    induction f with
    | zero =>
      intro g ts hf _
      have hts : ts = [] := List.length_eq_zero.mp (Nat.le_zero.mp hf)
      subst hts
      cases g <;> simp [elementsUpTo, firstElement]
    | succ f ih =>
      intro g ts hf hg
      cases g with
      | zero =>
        have hts : ts = [] := List.length_eq_zero.mp (Nat.le_zero.mp hg)
        subst hts
        simp [elementsUpTo, firstElement]
      | succ g =>
        simp only [elementsUpTo]
        cases he : firstElement name ts with
        | none => rfl
        | some e =>
          have hl := firstElement_length name ts e he
          simp only
          rw [ih g e.2.2 (by omega) (by omega)]
  exact key fuel toks.length toks h (Nat.le_refl _)

theorem elements_unfold (name : String) (toks : List Token) :
    elements name toks =
      match firstElement name toks with
      | none => []
      | some e => (e.1, e.2.1) :: elements name e.2.2 := by
  cases toks with
  | nil => simp [elements, elementsUpTo, firstElement]
  | cons t ts =>
    simp only [elements, List.length_cons, elementsUpTo]
    cases he : firstElement name (t :: ts) with
    | none => rfl
    | some e =>
      have hl := firstElement_length name (t :: ts) e he
      simp only [List.length_cons] at hl
      simp only
      rw [elementsUpTo_fuel name ts.length e.2.2 (by omega)]
      rfl

theorem Cursor.observe_clean {Item : Type} (name : String)
    (decode : Token → List Token → Option Item × Option ParseError) (fuel : Nat) :
    ∀ c : Cursor Item, c.toks.length ≤ fuel → c.fin = Error.EOF →
      (∀ e ∈ elements name c.toks, (decode e.1 e.2).2 = none) →
      Cursor.observe name decode ((elements name c.toks).length + 1) c =
        (elements name c.toks).map (fun e => (true, (decode e.1 e.2).1, none)) ++
          [(false, none,
            if c.flag && (elements name c.toks).isEmpty then some emptyDocumentError
            else none)] := by
  induction fuel with
  | zero =>
    intro c hl hfin _
    have hts : c.toks = [] := List.length_eq_zero.mp (Nat.le_zero.mp hl)
    rw [elements_unfold, hts]
    cases hflag : c.flag <;>
      simp [firstElement, Cursor.observe, Cursor.step, hts, endError, hfin, hflag]
  | succ fuel ih =>
    intro c hl hfin hall
    rw [elements_unfold] at hall ⊢
    cases he : firstElement name c.toks with
    | none =>
      cases hflag : c.flag <;>
        simp [Cursor.observe, Cursor.step, he, endError, hfin, hflag]
    | some e =>
      rw [he] at hall
      simp only [List.mem_cons, forall_eq_or_imp] at hall
      obtain ⟨h0, hrest⟩ := hall
      have hlen := firstElement_length name c.toks e he
      have hstep : Cursor.step name decode c =
          (true, { c with toks := e.2.2, flag := false, item := (decode e.1 e.2.1).1,
                          err := none }) := by
        simp [Cursor.step, he, h0, isHard, asError]
      have hrec := ih { c with toks := e.2.2, flag := false, item := (decode e.1 e.2.1).1,
                               err := none } (by simp only; omega) hfin hrest
      simp only [List.length_cons, List.map_cons, List.cons_append]
      rw [Cursor.observe, hstep]
      simp only at hrec ⊢
      rw [hrec]
      simp

theorem ReadSeeker.Seek_doc {α : Type} (r : ReadSeeker α) : r.Seek.2.doc = r.doc := by
  unfold ReadSeeker.Seek
  split <;> rfl

theorem ReadSeeker.Seek_ok {α : Type} (r : ReadSeeker α) (h : r.Seek.1 = none) :
    r.Seek.2.cur = r.doc := by
  unfold ReadSeeker.Seek at h ⊢
  split at h <;> first | rfl | simp at h

theorem idx_Reset_ok (it : xmlSitemapIndexIterator) (h : it.Reset.1 = none) :
    it.Reset.2.cursor =
      { toks := it.reader.doc.toks, fin := it.reader.doc.fin, flag := true, item := none,
        err := none } := by
  have hk := ReadSeeker.Seek_ok it.reader h
  simp [xmlSitemapIndexIterator.Reset, xmlSitemapIndexIterator.cursor, NewDecoder, hk]

theorem page_Reset_ok (it : xmlSitemapPageIterator) (h : it.Reset.1 = none) :
    it.Reset.2.cursor =
      { toks := it.reader.doc.toks, fin := it.reader.doc.fin, flag := true, item := none,
        err := none } := by
  have hk := ReadSeeker.Seek_ok it.reader h
  simp [xmlSitemapPageIterator.Reset, xmlSitemapPageIterator.cursor, NewDecoder, hk]

theorem Cursor.step_none {Item : Type} (name : String)
    (decode : Token → List Token → Option Item × Option ParseError) (c : Cursor Item)
    (h : ∀ t ∈ c.toks, isStart name t = false) :
    Cursor.step name decode c =
      (false, { c with toks := [], item := none, err := endError c.flag c.fin }) := by
  have hf := (firstElement_none_iff name c.toks).mpr h
  simp [Cursor.step, hf]

theorem Cursor.step_fin {Item : Type} (name : String)
    (decode : Token → List Token → Option Item × Option ParseError) (c : Cursor Item) :
    (Cursor.step name decode c).2.fin = c.fin := by
  unfold Cursor.step
  split
  · rfl
  · dsimp only
    split <;> rfl

theorem validate_probe_failed {σ : Type} (I : ItemIterator σ) (it : σ) (e : Error)
    (h1 : (I.Next it).1 = false) (h2 : I.Err (I.Next it).2 = some e) :
    validateNewIterator I it = (some e, (I.Reset (I.Next it).2).2) := by
  simp [validateNewIterator, h1, h2]

theorem validate_probe_passed {σ : Type} (I : ItemIterator σ) (it : σ)
    (h : (I.Next it).1 = true ∨ I.Err (I.Next it).2 = none) :
    validateNewIterator I it = ((I.Reset (I.Next it).2).1, (I.Reset (I.Next it).2).2) := by
  have hc : (!(I.Next it).1 && (I.Err (I.Next it).2).isSome) = false := by
    rcases h with h | h <;> simp [h]
  unfold validateNewIterator
  simp only [hc]
  cases hr : (I.Reset (I.Next it).2).1 <;> simp

theorem idx_literal_cursor (r : ReadSeeker TokenStream) :
    (xmlSitemapIndexIterator.literal r).cursor =
      { toks := r.cur.toks, fin := r.cur.fin, flag := true, item := none, err := none } := rfl

theorem page_literal_cursor (r : ReadSeeker TokenStream) :
    (xmlSitemapPageIterator.literal r).cursor =
      { toks := r.cur.toks, fin := r.cur.fin, flag := true, item := none, err := none } := rfl

theorem endError_true (fin : Error) :
    endError true fin = some (if fin = Error.EOF then emptyDocumentError else fin) := by
  unfold endError
  split <;> rfl

theorem validate_ok {σ : Type} (I : ItemIterator σ) (it : σ)
    (h : (validateNewIterator I it).1 = none) :
    ((I.Next it).1 = true ∨ I.Err (I.Next it).2 = none) ∧
    (I.Reset (I.Next it).2).1 = none ∧
    (validateNewIterator I it).2 = (I.Reset (I.Next it).2).2 := by
  by_cases hp : (I.Next it).1 = true ∨ I.Err (I.Next it).2 = none
  · rw [validate_probe_passed I it hp] at h ⊢
    exact ⟨hp, h, rfl⟩
  · have h1 : (I.Next it).1 = false := by
      cases hb : (I.Next it).1
      · rfl
      · exact absurd (Or.inl hb) hp
    cases he : I.Err (I.Next it).2 with
    | none => exact absurd (Or.inr he) hp
    | some e =>
      rw [validate_probe_failed I it e h1 he] at h
      cases h

theorem idx_constructed (env : IndexEnv) (r : ReadSeeker TokenStream)
    (it0 : xmlSitemapIndexIterator)
    (h : newXmlSitemapIndexIterator env (some r) = (some it0, none)) :
    it0 = (xmlSitemapIndexIterator.Next env (xmlSitemapIndexIterator.literal r)).2.Reset.2 ∧
    (xmlSitemapIndexIterator.Next env (xmlSitemapIndexIterator.literal r)).2.Reset.1 = none := by
  simp only [newXmlSitemapIndexIterator] at h
  cases hv : (validateNewIterator (xmlSitemapIndexIterator.asItemIterator env)
      (xmlSitemapIndexIterator.literal r)).1 with
  | some e => simp [hv] at h
  | none =>
    obtain ⟨_, h2, h3⟩ := validate_ok _ _ hv
    simp only [hv, Option.isSome_none, Bool.false_eq_true, if_false, Prod.mk.injEq,
      Option.some.injEq, and_true] at h
    rw [← h, h3]
    exact ⟨rfl, h2⟩

theorem page_constructed (env : PageEnv) (r : ReadSeeker TokenStream)
    (it0 : xmlSitemapPageIterator)
    (h : newXmlSitemapPageIterator env (some r) = (some it0, none)) :
    it0 = (xmlSitemapPageIterator.Next env (xmlSitemapPageIterator.literal r)).2.Reset.2 ∧
    (xmlSitemapPageIterator.Next env (xmlSitemapPageIterator.literal r)).2.Reset.1 = none := by
  simp only [newXmlSitemapPageIterator] at h
  cases hv : (validateNewIterator (xmlSitemapPageIterator.asItemIterator env)
      (xmlSitemapPageIterator.literal r)).1 with
  | some e => simp [hv] at h
  | none =>
    obtain ⟨_, h2, h3⟩ := validate_ok _ _ hv
    simp only [hv, Option.isSome_none, Bool.false_eq_true, if_false, Prod.mk.injEq,
      Option.some.injEq, and_true] at h
    rw [← h, h3]
    exact ⟨rfl, h2⟩

theorem plain_constructed (parseURL : String → Option URL × Option Error)
    (r : ReadSeeker LineStream) (it0 : plainSitemapPageIterator)
    (h : newPlainSitemapPageIterator parseURL (some r) = (some it0, none)) :
    it0 = (plainSitemapPageIterator.Next parseURL
      (plainSitemapPageIterator.literal r)).2.Reset.2 ∧
    (plainSitemapPageIterator.Next parseURL
      (plainSitemapPageIterator.literal r)).2.Reset.1 = none := by
  simp only [newPlainSitemapPageIterator] at h
  cases hv : (validateNewIterator (plainSitemapPageIterator.asItemIterator parseURL)
      (plainSitemapPageIterator.literal r)).1 with
  | some e => simp [hv] at h
  | none =>
    obtain ⟨_, h2, h3⟩ := validate_ok _ _ hv
    simp only [hv, Option.isSome_none, Bool.false_eq_true, if_false, Prod.mk.injEq,
      Option.some.injEq, and_true] at h
    rw [← h, h3]
    exact ⟨rfl, h2⟩

theorem plain_Next_reader (parseURL : String → Option URL × Option Error)
    (it : plainSitemapPageIterator) :
    (plainSitemapPageIterator.Next parseURL it).2.reader = it.reader := by
  unfold plainSitemapPageIterator.Next
  dsimp only
  split
  · rfl
  · split <;> rfl

theorem plain_Next_congr (parseURL : String → Option URL × Option Error)
    (a b : plainSitemapPageIterator) (hs : a.sitemap_scanner = b.sitemap_scanner)
    (he : a.err = b.err) :
    (plainSitemapPageIterator.Next parseURL a).1 = (plainSitemapPageIterator.Next parseURL b).1 ∧
    (plainSitemapPageIterator.Next parseURL a).2.sitemap_scanner =
      (plainSitemapPageIterator.Next parseURL b).2.sitemap_scanner ∧
    (plainSitemapPageIterator.Next parseURL a).2.err =
      (plainSitemapPageIterator.Next parseURL b).2.err ∧
    (plainSitemapPageIterator.Next parseURL a).2.item =
      (plainSitemapPageIterator.Next parseURL b).2.item := by
  unfold plainSitemapPageIterator.Next
  dsimp only
  rw [hs]
  split
  · exact ⟨rfl, rfl, rfl, rfl⟩
  · split
    · exact ⟨rfl, rfl, rfl, rfl⟩
    · exact ⟨rfl, rfl, he, rfl⟩

theorem plain_observe_congr (parseURL : String → Option URL × Option Error) (n : Nat) :
    ∀ a b : plainSitemapPageIterator, a.sitemap_scanner = b.sitemap_scanner → a.err = b.err →
      plainSitemapPageIterator.observe parseURL n a =
        plainSitemapPageIterator.observe parseURL n b := by
  induction n with
  | zero => intro a b _ _; rfl
  | succ n ih =>
    intro a b hs he
    obtain ⟨h1, h2, h3, h4⟩ := plain_Next_congr parseURL a b hs he
    simp only [plainSitemapPageIterator.observe]
    rw [ih _ _ h2 h3, h1]
    have hi : ∀ x : plainSitemapPageIterator, x.Item = x.item := fun _ => rfl
    have hr : ∀ x : plainSitemapPageIterator, x.Err = x.err := fun _ => rfl
    rw [hi, hi, hr, hr, h3, h4]

theorem plain_Reset_ok (it : plainSitemapPageIterator) (h : it.Reset.1 = none) :
    it.Reset.2.sitemap_scanner =
      { lines := it.reader.doc.lines, fin := it.reader.doc.fin, text := "", err := none } ∧
    it.Reset.2.err = none ∧ it.Reset.2.item = none ∧ it.Reset.2.reader.cur = it.reader.doc := by
  have hk := ReadSeeker.Seek_ok it.reader h
  simp [plainSitemapPageIterator.Reset, NewScanner, hk]

theorem idx_observe_congr (env : IndexEnv) (n : Nat) (a b : xmlSitemapIndexIterator)
    (h : a.cursor = b.cursor) :
    xmlSitemapIndexIterator.observe env n a = xmlSitemapIndexIterator.observe env n b := by
  rw [idx_observe, idx_observe, h]

theorem page_observe_congr (env : PageEnv) (n : Nat) (a b : xmlSitemapPageIterator)
    (h : a.cursor = b.cursor) :
    xmlSitemapPageIterator.observe env n a = xmlSitemapPageIterator.observe env n b := by
  rw [page_observe, page_observe, h]

theorem firstElement_at (name : String) (pre : List Token) (st : Token) (rest : List Token)
    (hpre : ∀ t ∈ pre, isStart name t = false) (hst : isStart name st = true) :
    firstElement name (pre ++ st :: rest) =
      some (st, (readSubtree 0 rest).1, (readSubtree 0 rest).2.1) := by
  rw [firstElement_append name pre _ hpre]
  simp [firstElement, hst]

theorem Cursor.step_at {Item : Type} (name : String)
    (decode : Token → List Token → Option Item × Option ParseError) (c : Cursor Item)
    (pre : List Token) (st : Token) (rest : List Token)
    (htoks : c.toks = pre ++ st :: rest)
    (hpre : ∀ t ∈ pre, isStart name t = false) (hst : isStart name st = true) :
    Cursor.step name decode c =
      (!isHard (decode st (readSubtree 0 rest).1).2,
        { c with
          toks := (readSubtree 0 rest).2.1, flag := false,
          item := if isHard (decode st (readSubtree 0 rest).1).2 then none
                  else (decode st (readSubtree 0 rest).1).1,
          err := asError (decode st (readSubtree 0 rest).1).2 }) := by
  have hf := firstElement_at name pre st rest hpre hst
  rw [← htoks] at hf
  unfold Cursor.step
  rw [hf]
  dsimp only
  cases hh : isHard (decode st (readSubtree 0 rest).1).2 <;> simp

theorem Cursor.step_congr {Item : Type} (name : String)
    (decode : Token → List Token → Option Item × Option ParseError) (a b : Cursor Item)
    (h1 : a.toks = b.toks) (h2 : a.fin = b.fin) (h3 : a.flag = b.flag) :
    Cursor.step name decode a = Cursor.step name decode b := by
  unfold Cursor.step
  rw [h1]
  split
  · simp [h2, h3]
  · dsimp only
    split <;> simp [h2]

theorem idx_Next_at (env : IndexEnv) (it : xmlSitemapIndexIterator)
    (pre : List Token) (st : Token) (rest : List Token)
    (htoks : it.sitemap_decoder.toks = pre ++ st :: rest)
    (hpre : ∀ t ∈ pre, isStart "sitemap" t = false) (hst : isStart "sitemap" st = true) :
    xmlSitemapIndexIterator.Next env it =
      (!isHard (env.decode st (readSubtree 0 rest).1).2,
        { it with
          sitemap_decoder :=
            { toks := (readSubtree 0 rest).2.1, fin := it.sitemap_decoder.fin },
          check_empty_xml := false,
          item := if isHard (env.decode st (readSubtree 0 rest).1).2 then none
                  else (env.decode st (readSubtree 0 rest).1).1,
          err := asError (env.decode st (readSubtree 0 rest).1).2 }) := by
  unfold xmlSitemapIndexIterator.Next
  rw [idx_NextLoop]
  have hc : ({ it.cursor with toks := it.sitemap_decoder.toks } : Cursor SitemapIndexURL)
      = it.cursor := rfl
  rw [hc, Cursor.step_at "sitemap" env.decode it.cursor pre st rest htoks hpre hst]

theorem page_Next_at (env : PageEnv) (it : xmlSitemapPageIterator)
    (pre : List Token) (st : Token) (rest : List Token)
    (htoks : it.sitemap_decoder.toks = pre ++ st :: rest)
    (hpre : ∀ t ∈ pre, isStart "url" t = false) (hst : isStart "url" st = true) :
    xmlSitemapPageIterator.Next env it =
      (!isHard (env.decode st (readSubtree 0 rest).1).2,
        { it with
          sitemap_decoder :=
            { toks := (readSubtree 0 rest).2.1, fin := it.sitemap_decoder.fin },
          check_empty_xml := false,
          item := if isHard (env.decode st (readSubtree 0 rest).1).2 then none
                  else (env.decode st (readSubtree 0 rest).1).1,
          err := asError (env.decode st (readSubtree 0 rest).1).2 }) := by
  unfold xmlSitemapPageIterator.Next
  rw [page_NextLoop]
  have hc : ({ it.cursor with toks := it.sitemap_decoder.toks } : Cursor SitemapURL)
      = it.cursor := rfl
  rw [hc, Cursor.step_at "url" env.decode it.cursor pre st rest htoks hpre hst]

theorem idx_Next_forget (env : IndexEnv) (it : xmlSitemapIndexIterator)
    (x : Option Error) (y : Option SitemapIndexURL) :
    xmlSitemapIndexIterator.Next env { it with err := x, item := y } =
      xmlSitemapIndexIterator.Next env it := by
  unfold xmlSitemapIndexIterator.Next
  rw [idx_NextLoop, idx_NextLoop]
  have h := Cursor.step_congr "sitemap" env.decode
    { ({ it with err := x, item := y } : xmlSitemapIndexIterator).cursor with
      toks := it.sitemap_decoder.toks }
    { it.cursor with toks := it.sitemap_decoder.toks } rfl rfl rfl
  simp only at h ⊢
  rw [h]

theorem page_Next_forget (env : PageEnv) (it : xmlSitemapPageIterator)
    (x : Option Error) (y : Option SitemapURL) :
    xmlSitemapPageIterator.Next env { it with err := x, item := y } =
      xmlSitemapPageIterator.Next env it := by
  unfold xmlSitemapPageIterator.Next
  rw [page_NextLoop, page_NextLoop]
  have h := Cursor.step_congr "url" env.decode
    { ({ it with err := x, item := y } : xmlSitemapPageIterator).cursor with
      toks := it.sitemap_decoder.toks }
    { it.cursor with toks := it.sitemap_decoder.toks } rfl rfl rfl
  simp only at h ⊢
  rw [h]

theorem isHard_some (e : ParseError) : isHard (some e) = e.UrlParseFailed := rfl

theorem plain_Next_line (parseURL : String → Option URL × Option Error)
    (it : plainSitemapPageIterator) (l : String) (ls : List String)
    (h : it.sitemap_scanner.lines = l :: ls) :
    plainSitemapPageIterator.Next parseURL it =
      if (parseURL l).2.isSome then
        (false, { it with
          sitemap_scanner := { it.sitemap_scanner with lines := ls, text := l },
          err := (parseURL l).2, item := none })
      else
        (true, { it with
          sitemap_scanner := { it.sitemap_scanner with lines := ls, text := l },
          item := some { location := (parseURL l).1, last_modified := Time.zero,
                         change_frequency := "", priority := 1 } }) := by
  simp [plainSitemapPageIterator.Next, Scanner.Scan, h, Scanner.Text]

theorem decoder_eq_of_fields (d : Decoder) (toks : List Token) (fin : Error)
    (h1 : d.toks = toks) (h2 : d.fin = fin) : d = { toks := toks, fin := fin } := by
  cases d
  simp_all

theorem idx_pristine (env : IndexEnv) (r : ReadSeeker TokenStream)
    (it0 : xmlSitemapIndexIterator)
    (h : newXmlSitemapIndexIterator env (some r) = (some it0, none)) :
    it0.cursor =
      { toks := r.doc.toks, fin := r.doc.fin, flag := true, item := none, err := none } ∧
    it0.reader.cur = r.doc ∧ it0.reader.doc = r.doc := by
  obtain ⟨h0, h1⟩ := idx_constructed env r it0 h
  have hr : (xmlSitemapIndexIterator.Next env (xmlSitemapIndexIterator.literal r)).2.reader = r :=
    (idx_Next env _).2.2
  refine ⟨?_, ?_, ?_⟩
  · rw [h0, idx_Reset_ok _ h1, hr]
  · rw [h0]
    have := ReadSeeker.Seek_ok _ h1
    rw [hr] at this
    simpa [xmlSitemapIndexIterator.Reset, hr] using this
  · rw [h0]
    have := ReadSeeker.Seek_doc
      (xmlSitemapIndexIterator.Next env (xmlSitemapIndexIterator.literal r)).2.reader
    rw [hr] at this
    simpa [xmlSitemapIndexIterator.Reset, hr] using this

theorem page_pristine (env : PageEnv) (r : ReadSeeker TokenStream)
    (it0 : xmlSitemapPageIterator)
    (h : newXmlSitemapPageIterator env (some r) = (some it0, none)) :
    it0.cursor =
      { toks := r.doc.toks, fin := r.doc.fin, flag := true, item := none, err := none } ∧
    it0.reader.cur = r.doc ∧ it0.reader.doc = r.doc := by
  obtain ⟨h0, h1⟩ := page_constructed env r it0 h
  have hr : (xmlSitemapPageIterator.Next env (xmlSitemapPageIterator.literal r)).2.reader = r :=
    (page_Next env _).2.2
  refine ⟨?_, ?_, ?_⟩
  · rw [h0, page_Reset_ok _ h1, hr]
  · rw [h0]
    have := ReadSeeker.Seek_ok _ h1
    rw [hr] at this
    simpa [xmlSitemapPageIterator.Reset, hr] using this
  · rw [h0]
    have := ReadSeeker.Seek_doc
      (xmlSitemapPageIterator.Next env (xmlSitemapPageIterator.literal r)).2.reader
    rw [hr] at this
    simpa [xmlSitemapPageIterator.Reset, hr] using this

theorem plain_pristine (parseURL : String → Option URL × Option Error)
    (r : ReadSeeker LineStream) (it0 : plainSitemapPageIterator)
    (h : newPlainSitemapPageIterator parseURL (some r) = (some it0, none)) :
    it0.sitemap_scanner =
      { lines := r.doc.lines, fin := r.doc.fin, text := "", err := none } ∧
    it0.err = none ∧ it0.item = none ∧ it0.reader.cur = r.doc := by
  obtain ⟨h0, h1⟩ := plain_constructed parseURL r it0 h
  have hr : (plainSitemapPageIterator.Next parseURL
      (plainSitemapPageIterator.literal r)).2.reader = r := plain_Next_reader parseURL _
  have hk := plain_Reset_ok _ h1
  rw [hr] at hk
  rw [h0]
  exact hk

theorem idx_NextLoop_decoder (env : IndexEnv) (it : xmlSitemapIndexIterator) (d : Decoder)
    (toks : List Token) (h : d.fin = it.sitemap_decoder.fin) :
    xmlSitemapIndexIterator.NextLoop env { it with sitemap_decoder := d } toks =
      xmlSitemapIndexIterator.NextLoop env it toks := by
  rw [idx_NextLoop, idx_NextLoop]
  have hc : ({ ({ it with sitemap_decoder := d } : xmlSitemapIndexIterator).cursor with
      toks := toks } : Cursor SitemapIndexURL) = { it.cursor with toks := toks } := by
    simp [xmlSitemapIndexIterator.cursor, h]
  rw [hc]
  simp [h]

/-- One round of the loop of `xmlSitemapIndexIterator.Next`, in terms of the `Token()` call
that opens it: the exit on a nil token, the decoding of a matched start element with
`DecodeElement`, and the next round on any other token. -/
theorem idx_Next_round (env : IndexEnv) (it : xmlSitemapIndexIterator) :
    (∀ (err : Error) (d : Decoder), it.sitemap_decoder.Token = ((none, some err), d) →
      xmlSitemapIndexIterator.Next env it =
        (false, { it with
          sitemap_decoder := d, item := none,
          err := if it.check_empty_xml &&
                    (if some err = some Error.EOF then none else some err).isNone
                 then some emptyDocumentError
                 else (if some err = some Error.EOF then none else some err) })) ∧
    (∀ (t : Token) (d : Decoder), it.sitemap_decoder.Token = ((some t, none), d) →
      isStart "sitemap" t = true →
      xmlSitemapIndexIterator.Next env it =
        (!isHard (env.parseSitemapIndexURL (Decoder.DecodeElement env.unmarshal d t).1).2,
          { it with
            sitemap_decoder := (Decoder.DecodeElement env.unmarshal d t).2.2,
            check_empty_xml := false,
            item := if isHard (env.parseSitemapIndexURL (Decoder.DecodeElement env.unmarshal d t).1).2
                    then none
                    else (env.parseSitemapIndexURL (Decoder.DecodeElement env.unmarshal d t).1).1,
            err := asError (env.parseSitemapIndexURL (Decoder.DecodeElement env.unmarshal d t).1).2 })) ∧
    (∀ (t : Token) (d : Decoder), it.sitemap_decoder.Token = ((some t, none), d) →
      isStart "sitemap" t = false →
      xmlSitemapIndexIterator.Next env it =
        xmlSitemapIndexIterator.Next env { it with sitemap_decoder := d }) := by
  refine ⟨?_, ?_, ?_⟩
  · intro err d h
    cases ht : it.sitemap_decoder.toks with
    | nil =>
      simp only [Decoder.Token, ht, Prod.mk.injEq, Option.some.injEq, true_and] at h
      obtain ⟨h1, h2⟩ := h
      subst h1
      subst h2
      have hd : ({ it.sitemap_decoder with toks := [] } : Decoder) = it.sitemap_decoder := by
        cases hdd : it.sitemap_decoder
        rw [hdd] at ht
        simp only at ht
        simp [ht]
      simp only [xmlSitemapIndexIterator.Next, ht, xmlSitemapIndexIterator.NextLoop, hd]
    | cons t ts => simp [Decoder.Token, ht] at h
  · intro t d h hs
    cases ht : it.sitemap_decoder.toks with
    | nil => simp [Decoder.Token, ht] at h
    | cons u us =>
      simp only [Decoder.Token, ht, Prod.mk.injEq, Option.some.injEq, and_true] at h
      obtain ⟨h1, h2⟩ := h
      subst h1
      subst h2
      rw [idx_Next_at env it [] u us (by simpa using ht) (by simp) hs]
      rfl
  · intro t d h hs
    cases ht : it.sitemap_decoder.toks with
    | nil => simp [Decoder.Token, ht] at h
    | cons u us =>
      simp only [Decoder.Token, ht, Prod.mk.injEq, Option.some.injEq, and_true] at h
      obtain ⟨h1, h2⟩ := h
      subst h1
      subst h2
      have hstep : xmlSitemapIndexIterator.NextLoop env it (u :: us) =
          xmlSitemapIndexIterator.NextLoop env it us := by
        cases u with
        | StartElement n a =>
          have hn : ¬ n.Local = "sitemap" := by simpa [isStart] using hs
          simp [xmlSitemapIndexIterator.NextLoop, hn]
        | EndElement n => simp [xmlSitemapIndexIterator.NextLoop]
        | CharData x => simp [xmlSitemapIndexIterator.NextLoop]
        | Comment x => simp [xmlSitemapIndexIterator.NextLoop]
        | ProcInst x y => simp [xmlSitemapIndexIterator.NextLoop]
        | Directive x => simp [xmlSitemapIndexIterator.NextLoop]
      simp only [xmlSitemapIndexIterator.Next, ht]
      rw [hstep]
      exact (idx_NextLoop_decoder env it
        { toks := us, fin := it.sitemap_decoder.fin } us rfl).symm

theorem page_NextLoop_decoder (env : PageEnv) (it : xmlSitemapPageIterator) (d : Decoder)
    (toks : List Token) (h : d.fin = it.sitemap_decoder.fin) :
    xmlSitemapPageIterator.NextLoop env { it with sitemap_decoder := d } toks =
      xmlSitemapPageIterator.NextLoop env it toks := by
  rw [page_NextLoop, page_NextLoop]
  have hc : ({ ({ it with sitemap_decoder := d } : xmlSitemapPageIterator).cursor with
      toks := toks } : Cursor SitemapURL) = { it.cursor with toks := toks } := by
    simp [xmlSitemapPageIterator.cursor, h]
  rw [hc]
  simp [h]

/-- One round of the loop of `xmlSitemapPageIterator.Next`, in terms of the `Token()` call
that opens it: the exit on a nil token, the decoding of a matched start element with
`DecodeElement`, and the next round on any other token. -/
theorem page_Next_round (env : PageEnv) (it : xmlSitemapPageIterator) :
    (∀ (err : Error) (d : Decoder), it.sitemap_decoder.Token = ((none, some err), d) →
      xmlSitemapPageIterator.Next env it =
        (false, { it with
          sitemap_decoder := d, item := none,
          err := if it.check_empty_xml &&
                    (if some err = some Error.EOF then none else some err).isNone
                 then some emptyDocumentError
                 else (if some err = some Error.EOF then none else some err) })) ∧
    (∀ (t : Token) (d : Decoder), it.sitemap_decoder.Token = ((some t, none), d) →
      isStart "url" t = true →
      xmlSitemapPageIterator.Next env it =
        (!isHard (env.parseSitemapURL (Decoder.DecodeElement env.unmarshal d t).1).2,
          { it with
            sitemap_decoder := (Decoder.DecodeElement env.unmarshal d t).2.2,
            check_empty_xml := false,
            item := if isHard (env.parseSitemapURL (Decoder.DecodeElement env.unmarshal d t).1).2
                    then none
                    else (env.parseSitemapURL (Decoder.DecodeElement env.unmarshal d t).1).1,
            err := asError (env.parseSitemapURL (Decoder.DecodeElement env.unmarshal d t).1).2 })) ∧
    (∀ (t : Token) (d : Decoder), it.sitemap_decoder.Token = ((some t, none), d) →
      isStart "url" t = false →
      xmlSitemapPageIterator.Next env it =
        xmlSitemapPageIterator.Next env { it with sitemap_decoder := d }) := by
  refine ⟨?_, ?_, ?_⟩
  · intro err d h
    cases ht : it.sitemap_decoder.toks with
    | nil =>
      simp only [Decoder.Token, ht, Prod.mk.injEq, Option.some.injEq, true_and] at h
      obtain ⟨h1, h2⟩ := h
      subst h1
      subst h2
      have hd : ({ it.sitemap_decoder with toks := [] } : Decoder) = it.sitemap_decoder := by
        cases hdd : it.sitemap_decoder
        rw [hdd] at ht
        simp only at ht
        simp [ht]
      simp only [xmlSitemapPageIterator.Next, ht, xmlSitemapPageIterator.NextLoop, hd]
    | cons t ts => simp [Decoder.Token, ht] at h
  · intro t d h hs
    cases ht : it.sitemap_decoder.toks with
    | nil => simp [Decoder.Token, ht] at h
    | cons u us =>
      simp only [Decoder.Token, ht, Prod.mk.injEq, Option.some.injEq, and_true] at h
      obtain ⟨h1, h2⟩ := h
      subst h1
      subst h2
      rw [page_Next_at env it [] u us (by simpa using ht) (by simp) hs]
      rfl
  · intro t d h hs
    cases ht : it.sitemap_decoder.toks with
    | nil => simp [Decoder.Token, ht] at h
    | cons u us =>
      simp only [Decoder.Token, ht, Prod.mk.injEq, Option.some.injEq, and_true] at h
      obtain ⟨h1, h2⟩ := h
      subst h1
      subst h2
      have hstep : xmlSitemapPageIterator.NextLoop env it (u :: us) =
          xmlSitemapPageIterator.NextLoop env it us := by
        cases u with
        | StartElement n a =>
          have hn : ¬ n.Local = "url" := by simpa [isStart] using hs
          simp [xmlSitemapPageIterator.NextLoop, hn]
        | EndElement n => simp [xmlSitemapPageIterator.NextLoop]
        | CharData x => simp [xmlSitemapPageIterator.NextLoop]
        | Comment x => simp [xmlSitemapPageIterator.NextLoop]
        | ProcInst x y => simp [xmlSitemapPageIterator.NextLoop]
        | Directive x => simp [xmlSitemapPageIterator.NextLoop]
      simp only [xmlSitemapPageIterator.Next, ht]
      rw [hstep]
      exact (page_NextLoop_decoder env it
        { toks := us, fin := it.sitemap_decoder.fin } us rfl).symm

theorem Cursor.step_true_iff {Item : Type} (name : String)
    (decode : Token → List Token → Option Item × Option ParseError) (c : Cursor Item)
    (h : ∀ st body, isHard (decode st body).2 = false → (decode st body).1 ≠ none) :
    (Cursor.step name decode c).1 = true ↔ (Cursor.step name decode c).2.item ≠ none := by
  unfold Cursor.step
  split
  · simp
  · rename_i e _
    dsimp only
    cases hh : isHard (decode e.1 e.2.1).2
    · simpa using h e.1 e.2.1 hh
    · simp

theorem plain_Next_true_iff (parseURL : String → Option URL × Option Error)
    (it : plainSitemapPageIterator) :
    (plainSitemapPageIterator.Next parseURL it).1 = true ↔
      (plainSitemapPageIterator.Next parseURL it).2.Item ≠ none := by
  unfold plainSitemapPageIterator.Next
  dsimp only
  split
  · simp [plainSitemapPageIterator.Item]
  · split <;> simp [plainSitemapPageIterator.Item]

theorem plain_Next_done (parseURL : String → Option URL × Option Error)
    (it : plainSitemapPageIterator) (h : it.sitemap_scanner.lines = []) :
    plainSitemapPageIterator.Next parseURL it =
      (false, { it with
        sitemap_scanner := { it.sitemap_scanner with text := "", err := it.sitemap_scanner.fin },
        err := Scanner.Err
          { it.sitemap_scanner with text := "", err := it.sitemap_scanner.fin },
        item := none }) := by
  simp [plainSitemapPageIterator.Next, Scanner.Scan, h]

theorem plain_observe_lines (parseURL : String → Option URL × Option Error)
    (good tail : List String) :
    ∀ it : plainSitemapPageIterator, it.sitemap_scanner.lines = good ++ tail →
      it.sitemap_scanner.fin = none → it.err = none →
      (∀ l ∈ good, (parseURL l).2 = none) →
      (∀ l, tail.head? = some l → (parseURL l).2 ≠ none) →
      plainSitemapPageIterator.observe parseURL (good.length + 1) it =
        good.map (fun l => (true,
          some { location := (parseURL l).1, last_modified := Time.zero,
                 change_frequency := "", priority := 1 }, none)) ++
        [(false, none,
          match tail with
          | [] => none
          | l :: _ => (parseURL l).2)] := by
  induction good with
  | nil =>
    intro it hl hfin herr _ htail
    cases tail with
    | nil =>
      have h := plain_Next_done parseURL it (by simpa using hl)
      simp only [List.length_nil, Nat.zero_add, List.map_nil, List.nil_append,
        plainSitemapPageIterator.observe]
      rw [h]
      simp [plainSitemapPageIterator.Item, plainSitemapPageIterator.Err, Scanner.Err, hfin]
    | cons l rest =>
      have h := plain_Next_line parseURL it l rest (by simpa using hl)
      have hne : (parseURL l).2.isSome = true := by
        cases hp : (parseURL l).2 with
        | none => exact absurd hp (htail l rfl)
        | some e => rfl
      rw [hne] at h
      simp only [if_true] at h
      simp only [List.length_nil, Nat.zero_add, List.map_nil, List.nil_append,
        plainSitemapPageIterator.observe]
      rw [h]
      simp [plainSitemapPageIterator.Item, plainSitemapPageIterator.Err]
  | cons g gs ih =>
    intro it hl hfin herr hgood htail
    have hg : (parseURL g).2 = none := hgood g (List.mem_cons_self _ _)
    have h := plain_Next_line parseURL it g (gs ++ tail) (by simpa using hl)
    rw [hg] at h
    simp only [Option.isSome_none, Bool.false_eq_true, if_false] at h
    have hrec := ih (plainSitemapPageIterator.Next parseURL it).2
      (by rw [h]) (by rw [h]; exact hfin) (by rw [h]; exact herr)
      (fun l hl2 => hgood l (List.mem_cons_of_mem _ hl2)) htail
    simp only [List.length_cons, List.map_cons, List.cons_append]
    rw [plainSitemapPageIterator.observe, hrec, h]
    simp [plainSitemapPageIterator.Item, plainSitemapPageIterator.Err, herr]

theorem idx_Next_full (env : IndexEnv) (it : xmlSitemapIndexIterator) :
    xmlSitemapIndexIterator.Next env it =
      ((Cursor.step "sitemap" env.decode it.cursor).1,
        { it with
          sitemap_decoder :=
            { toks := (Cursor.step "sitemap" env.decode it.cursor).2.toks,
              fin := it.sitemap_decoder.fin },
          check_empty_xml := (Cursor.step "sitemap" env.decode it.cursor).2.flag,
          item := (Cursor.step "sitemap" env.decode it.cursor).2.item,
          err := (Cursor.step "sitemap" env.decode it.cursor).2.err }) :=
  idx_NextLoop env it it.sitemap_decoder.toks

theorem idx_Next_end (env : IndexEnv) (it : xmlSitemapIndexIterator)
    (h : ∀ t ∈ it.sitemap_decoder.toks, isStart "sitemap" t = false) :
    xmlSitemapIndexIterator.Next env it =
      (false, { it with
        sitemap_decoder := { toks := [], fin := it.sitemap_decoder.fin },
        item := none,
        err := endError it.check_empty_xml it.sitemap_decoder.fin }) := by
  rw [idx_Next_full, Cursor.step_none "sitemap" env.decode it.cursor h]
  rfl

theorem idx_Next_skip (env : IndexEnv) (it : xmlSitemapIndexIterator) (pre ts : List Token)
    (h : ∀ t ∈ pre, isStart "sitemap" t = false) :
    xmlSitemapIndexIterator.Next env
        { it with sitemap_decoder := { toks := pre ++ ts, fin := it.sitemap_decoder.fin } } =
      xmlSitemapIndexIterator.Next env
        { it with sitemap_decoder := { toks := ts, fin := it.sitemap_decoder.fin } } := by
  rw [idx_Next_full, idx_Next_full]
  have hs : Cursor.step "sitemap" env.decode
      ({ it with sitemap_decoder := { toks := pre ++ ts, fin := it.sitemap_decoder.fin } } :
        xmlSitemapIndexIterator).cursor =
      Cursor.step "sitemap" env.decode
      ({ it with sitemap_decoder := { toks := ts, fin := it.sitemap_decoder.fin } } :
        xmlSitemapIndexIterator).cursor := by
    unfold Cursor.step
    simp only [xmlSitemapIndexIterator.cursor]
    rw [firstElement_append "sitemap" pre ts h]
  rw [hs]

theorem idx_after_fixed (env : IndexEnv) (s : xmlSitemapIndexIterator)
    (h : xmlSitemapIndexIterator.Next env s = (false, s)) (k : Nat) : xmlSitemapIndexIterator.after env k s = s := by
  induction k with
  | zero => rfl
  | succ k ih =>
    simp only [xmlSitemapIndexIterator.after]
    rw [h]
    exact ih

theorem page_Next_full (env : PageEnv) (it : xmlSitemapPageIterator) :
    xmlSitemapPageIterator.Next env it =
      ((Cursor.step "url" env.decode it.cursor).1,
        { it with
          sitemap_decoder :=
            { toks := (Cursor.step "url" env.decode it.cursor).2.toks,
              fin := it.sitemap_decoder.fin },
          check_empty_xml := (Cursor.step "url" env.decode it.cursor).2.flag,
          item := (Cursor.step "url" env.decode it.cursor).2.item,
          err := (Cursor.step "url" env.decode it.cursor).2.err }) :=
  page_NextLoop env it it.sitemap_decoder.toks

theorem page_Next_end (env : PageEnv) (it : xmlSitemapPageIterator)
    (h : ∀ t ∈ it.sitemap_decoder.toks, isStart "url" t = false) :
    xmlSitemapPageIterator.Next env it =
      (false, { it with
        sitemap_decoder := { toks := [], fin := it.sitemap_decoder.fin },
        item := none,
        err := endError it.check_empty_xml it.sitemap_decoder.fin }) := by
  rw [page_Next_full, Cursor.step_none "url" env.decode it.cursor h]
  rfl

theorem page_Next_skip (env : PageEnv) (it : xmlSitemapPageIterator) (pre ts : List Token)
    (h : ∀ t ∈ pre, isStart "url" t = false) :
    xmlSitemapPageIterator.Next env
        { it with sitemap_decoder := { toks := pre ++ ts, fin := it.sitemap_decoder.fin } } =
      xmlSitemapPageIterator.Next env
        { it with sitemap_decoder := { toks := ts, fin := it.sitemap_decoder.fin } } := by
  rw [page_Next_full, page_Next_full]
  have hs : Cursor.step "url" env.decode
      ({ it with sitemap_decoder := { toks := pre ++ ts, fin := it.sitemap_decoder.fin } } :
        xmlSitemapPageIterator).cursor =
      Cursor.step "url" env.decode
      ({ it with sitemap_decoder := { toks := ts, fin := it.sitemap_decoder.fin } } :
        xmlSitemapPageIterator).cursor := by
    unfold Cursor.step
    simp only [xmlSitemapPageIterator.cursor]
    rw [firstElement_append "url" pre ts h]
  rw [hs]

theorem page_after_fixed (env : PageEnv) (s : xmlSitemapPageIterator)
    (h : xmlSitemapPageIterator.Next env s = (false, s)) (k : Nat) : xmlSitemapPageIterator.after env k s = s := by
  induction k with
  | zero => rfl
  | succ k ih =>
    simp only [xmlSitemapPageIterator.after]
    rw [h]
    exact ih

theorem swapLocal_swapLocal (s : String) : swapLocal (swapLocal s) = s := by
  unfold swapLocal
  by_cases h1 : s = "sitemap"
  · subst h1
    decide
  · by_cases h2 : s = "url"
    · subst h2
      decide
    · simp [h1, h2]

theorem swapToken_swapToken (t : Token) : swapToken (swapToken t) = t := by
  cases t <;> simp [swapToken, swapLocal_swapLocal]

theorem isStart_swap (t : Token) : isStart "url" (swapToken t) = isStart "sitemap" t := by
  cases t with
  | StartElement n a =>
    simp only [swapToken, isStart, swapLocal]
    by_cases h1 : n.Local = "sitemap"
    · simp [h1]
    · by_cases h2 : n.Local = "url"
      · simp [h2]
      · simp [h1, h2]
  | EndElement n => rfl
  | CharData d => rfl
  | Comment d => rfl
  | ProcInst x y => rfl
  | Directive d => rfl

theorem readSubtree_swap (d : Nat) (ts : List Token) :
    readSubtree d (ts.map swapToken) =
      ((readSubtree d ts).1.map swapToken, (readSubtree d ts).2.1.map swapToken,
        (readSubtree d ts).2.2) := by
  induction ts generalizing d with
  | nil => simp [readSubtree]
  | cons t ts ih =>
    cases t with
    | EndElement n =>
      cases d with
      | zero => simp [readSubtree, swapToken]
      | succ d => simp [readSubtree, swapToken, ih]
    | StartElement n a => simp [readSubtree, swapToken, ih]
    | CharData x => simp [readSubtree, swapToken, ih]
    | Comment x => simp [readSubtree, swapToken, ih]
    | ProcInst x y => simp [readSubtree, swapToken, ih]
    | Directive x => simp [readSubtree, swapToken, ih]

theorem firstElement_swap (ts : List Token) :
    firstElement "url" (ts.map swapToken) =
      (firstElement "sitemap" ts).map
        (fun e => (swapToken e.1, e.2.1.map swapToken, e.2.2.map swapToken)) := by
  induction ts with
  | nil => rfl
  | cons t ts ih =>
    simp only [List.map_cons, firstElement, isStart_swap]
    cases h : isStart "sitemap" t
    · simpa using ih
    · simp [readSubtree_swap]

theorem Cursor.step_swap (idec : Token → List Token → Option SitemapIndexURL × Option ParseError)
    (pdec : Token → List Token → Option SitemapURL × Option ParseError)
    (g : SitemapIndexURL → SitemapURL)
    (h : ∀ st body, pdec (swapToken st) (body.map swapToken) =
      ((idec st body).1.map g, (idec st body).2))
    (c : Cursor SitemapIndexURL) :
    Cursor.step "url" pdec
        { toks := c.toks.map swapToken, fin := c.fin, flag := c.flag, item := c.item.map g,
          err := c.err } =
      ((Cursor.step "sitemap" idec c).1,
        { toks := (Cursor.step "sitemap" idec c).2.toks.map swapToken,
          fin := (Cursor.step "sitemap" idec c).2.fin,
          flag := (Cursor.step "sitemap" idec c).2.flag,
          item := (Cursor.step "sitemap" idec c).2.item.map g,
          err := (Cursor.step "sitemap" idec c).2.err }) := by
  unfold Cursor.step
  simp only [firstElement_swap]
  cases he : firstElement "sitemap" c.toks with
  | none => simp
  | some e =>
    simp only [Option.map_some', h]
    cases hh : isHard (idec e.1 e.2.1).2 <;> simp

theorem ReadSeeker.Seek_swap (r : ReadSeeker TokenStream) :
    (swapReader r).Seek = (r.Seek.1, swapReader r.Seek.2) := by
  cases r with
  | mk doc cur seeks =>
    cases seeks with
    | nil => rfl
    | cons o os =>
      cases o with
      | ok => rfl
      | failed e resume => rfl

theorem asPageIterator_Next (ienv : IndexEnv) (penv : PageEnv)
    (g : SitemapIndexURL → SitemapURL)
    (h : ∀ st body,
      penv.parseSitemapURL (penv.unmarshal (swapToken st) (body.map swapToken)) =
        ((ienv.parseSitemapIndexURL (ienv.unmarshal st body)).1.map g,
          (ienv.parseSitemapIndexURL (ienv.unmarshal st body)).2))
    (it : xmlSitemapIndexIterator) :
    xmlSitemapPageIterator.Next penv (asPageIterator g it) =
      ((xmlSitemapIndexIterator.Next ienv it).1,
        asPageIterator g (xmlSitemapIndexIterator.Next ienv it).2) := by
  rw [page_Next_full, idx_Next_full]
  have hs := Cursor.step_swap ienv.decode penv.decode g h it.cursor
  have hc : (asPageIterator g it).cursor =
      { toks := it.cursor.toks.map swapToken, fin := it.cursor.fin, flag := it.cursor.flag,
        item := it.cursor.item.map g, err := it.cursor.err } := rfl
  rw [hc, hs]
  simp only [asPageIterator, Cursor.step_fin]

theorem asPageIterator_Reset (g : SitemapIndexURL → SitemapURL)
    (it : xmlSitemapIndexIterator) :
    (asPageIterator g it).Reset = (it.Reset.1, asPageIterator g it.Reset.2) := by
  simp only [xmlSitemapPageIterator.Reset, xmlSitemapIndexIterator.Reset, asPageIterator,
    ReadSeeker.Seek_swap, NewDecoder]
  rfl

theorem validate_map {σ τ : Type} (I : ItemIterator σ) (J : ItemIterator τ) (f : σ → τ)
    (hN : ∀ s, J.Next (f s) = ((I.Next s).1, f (I.Next s).2))
    (hE : ∀ s, J.Err (f s) = I.Err s)
    (hR : ∀ s, J.Reset (f s) = ((I.Reset s).1, f (I.Reset s).2)) (s : σ) :
    validateNewIterator J (f s) =
      ((validateNewIterator I s).1, f (validateNewIterator I s).2) := by
  unfold validateNewIterator
  simp only [hN, hE, hR]
  split
  · rfl
  · split <;> rfl

theorem firstText_swap (body : List Token) :
    firstText (body.map swapToken) = firstText body := by
  induction body with
  | nil => rfl
  | cons t ts ih =>
    cases t <;> simp [firstText, swapToken, ih]

/-! ## Theorems: the claims -/

/-- C1, as stated, fails: the document `nestedIndexDoc` holds two start elements with local name
`sitemap` (at positions 0 and 4), the parse routine accepts each of them with its subtree
without error, and yet of the Next calls of a freshly reset index iterator only the first
returns true; the second returns false, the inner element having been read as part of the
subtree of the outer one. -/
theorem nested_element_is_not_produced :
    countStart "sitemap" nestedIndexDoc.toks = 2 ∧
    nestedIndexDoc.fin = Error.EOF ∧
    (sampleIndexEnv.decode (startTag "sitemap")
      (readSubtree 0 (nestedIndexDoc.toks.drop 1)).1).2 = none ∧
    (sampleIndexEnv.decode (startTag "sitemap")
      (readSubtree 0 (nestedIndexDoc.toks.drop 5)).1).2 = none ∧
    (xmlSitemapIndexIterator.literal (readerOver nestedIndexDoc)).Reset.1 = none ∧
    xmlSitemapIndexIterator.observe sampleIndexEnv 2
        (xmlSitemapIndexIterator.literal (readerOver nestedIndexDoc)).Reset.2 =
      [(true, some { location := some { text := "https://a.example/1.xml" },
                     last_modified := Time.zero }, none),
       (false, none, none)] := by
  refine ⟨by decide, rfl, by decide, by decide, rfl, by decide⟩

/-- C1 (amended): for every XML document whose token stream ends without tokenizer error and
whose elements with the matched local name (`sitemap` for the index iterator, `url` for the
page iterator), taken outermost ones only and in document order, are n >= 1 elements each
accepted by the URL-parse routine with no error, the first n Next calls of a freshly reset
iterator return true with Item the parsed entity of the i-th such element and Err nil, and the
(n+1)-th Next returns false with Item nil and Err nil. -/
theorem clean_document_is_iterated_in_order :
    (∀ (env : IndexEnv) (it : xmlSitemapIndexIterator),
      it.Reset.1 = none → it.reader.doc.fin = Error.EOF →
      1 ≤ (elements "sitemap" it.reader.doc.toks).length →
      (∀ e ∈ elements "sitemap" it.reader.doc.toks,
        (env.parseSitemapIndexURL (env.unmarshal e.1 e.2)).2 = none) →
      xmlSitemapIndexIterator.observe env
          ((elements "sitemap" it.reader.doc.toks).length + 1) it.Reset.2 =
        (elements "sitemap" it.reader.doc.toks).map
            (fun e => (true, (env.parseSitemapIndexURL (env.unmarshal e.1 e.2)).1, none)) ++
          [(false, none, none)]) ∧
    (∀ (env : PageEnv) (it : xmlSitemapPageIterator),
      it.Reset.1 = none → it.reader.doc.fin = Error.EOF →
      1 ≤ (elements "url" it.reader.doc.toks).length →
      (∀ e ∈ elements "url" it.reader.doc.toks,
        (env.parseSitemapURL (env.unmarshal e.1 e.2)).2 = none) →
      xmlSitemapPageIterator.observe env
          ((elements "url" it.reader.doc.toks).length + 1) it.Reset.2 =
        (elements "url" it.reader.doc.toks).map
            (fun e => (true, (env.parseSitemapURL (env.unmarshal e.1 e.2)).1, none)) ++
          [(false, none, none)]) := by
  constructor
  · intro env it hr hfin hn hall
    rw [idx_observe, idx_Reset_ok it hr]
    have h := Cursor.observe_clean "sitemap" env.decode it.reader.doc.toks.length
      { toks := it.reader.doc.toks, fin := it.reader.doc.fin, flag := true, item := none,
        err := none } (Nat.le_refl _) hfin hall
    simp only at h
    rw [h]
    have hne : (elements "sitemap" it.reader.doc.toks).isEmpty = false := by
      cases hl : elements "sitemap" it.reader.doc.toks with
      | nil => rw [hl] at hn; simp at hn
      | cons a l => rfl
    simp [hne, IndexEnv.decode]
  · intro env it hr hfin hn hall
    rw [page_observe, page_Reset_ok it hr]
    have h := Cursor.observe_clean "url" env.decode it.reader.doc.toks.length
      { toks := it.reader.doc.toks, fin := it.reader.doc.fin, flag := true, item := none,
        err := none } (Nat.le_refl _) hfin hall
    simp only at h
    rw [h]
    have hne : (elements "url" it.reader.doc.toks).isEmpty = false := by
      cases hl : elements "url" it.reader.doc.toks with
      | nil => rw [hl] at hn; simp at hn
      | cons a l => rfl
    simp [hne, PageEnv.decode]

/-- C1 (amended), at the two-entry sample documents. -/
theorem clean_document_is_iterated_in_order_witness :
    xmlSitemapIndexIterator.observe sampleIndexEnv 3
        (xmlSitemapIndexIterator.literal (readerOver sampleIndexDoc)).Reset.2 =
      [(true, some { location := some { text := "https://a.example/1.xml" },
                     last_modified := Time.zero }, none),
       (true, some { location := some { text := "https://a.example/2.xml" },
                     last_modified := Time.zero }, none),
       (false, none, none)] ∧
    xmlSitemapPageIterator.observe samplePageEnv 3
        (xmlSitemapPageIterator.literal (readerOver samplePageDoc)).Reset.2 =
      [(true, some { location := some { text := "https://a.example/" },
                     last_modified := Time.zero, change_frequency := "", priority := 1 }, none),
       (true, some { location := some { text := "https://b.example/" },
                     last_modified := Time.zero, change_frequency := "", priority := 1 }, none),
       (false, none, none)] :=
  ⟨clean_document_is_iterated_in_order.1 sampleIndexEnv
      (xmlSitemapIndexIterator.literal (readerOver sampleIndexDoc))
      rfl rfl (by decide) (by decide),
   clean_document_is_iterated_in_order.2 samplePageEnv
      (xmlSitemapPageIterator.literal (readerOver samplePageDoc))
      rfl rfl (by decide) (by decide)⟩

/-- C2, as stated, fails: the stream `brokenDoc` holds no start element named `sitemap` or
`url`, and construction over it fails with the error of the tokenizer, which is not the
empty-document error. -/
theorem broken_stream_fails_with_tokenizer_error :
    countStart "sitemap" brokenDoc.toks = 0 ∧ countStart "url" brokenDoc.toks = 0 ∧
    newXmlSitemapIndexIterator sampleIndexEnv (some (readerOver brokenDoc)) =
      (none, some (Error.xml "XML syntax error")) ∧
    newXmlSitemapPageIterator samplePageEnv (some (readerOver brokenDoc)) =
      (none, some (Error.xml "XML syntax error")) ∧
    Error.xml "XML syntax error" ≠ emptyDocumentError := by
  refine ⟨by decide, by decide, by decide, by decide, by decide⟩

/-- C2 (amended): for any stream containing zero matchable elements (no start element named
`sitemap` for the index constructor, none named `url` for the page constructor), constructing
the XML iterator fails; the error returned is the empty-document error when the tokenizer
reaches the end of the input without error, and the error of the tokenizer otherwise. -/
theorem construction_fails_without_elements :
    (∀ (env : IndexEnv) (r : ReadSeeker TokenStream),
      (∀ t ∈ r.cur.toks, isStart "sitemap" t = false) →
      newXmlSitemapIndexIterator env (some r) =
        (none, some (if r.cur.fin = Error.EOF then emptyDocumentError else r.cur.fin))) ∧
    (∀ (env : PageEnv) (r : ReadSeeker TokenStream),
      (∀ t ∈ r.cur.toks, isStart "url" t = false) →
      newXmlSitemapPageIterator env (some r) =
        (none, some (if r.cur.fin = Error.EOF then emptyDocumentError else r.cur.fin))) := by
  constructor
  · intro env r h
    obtain ⟨h1, h2, _⟩ := idx_Next env (xmlSitemapIndexIterator.literal r)
    rw [idx_literal_cursor, Cursor.step_none "sitemap" env.decode _ h] at h1 h2
    have he : (xmlSitemapIndexIterator.asItemIterator env).Err
        ((xmlSitemapIndexIterator.asItemIterator env).Next (xmlSitemapIndexIterator.literal r)).2
        = some (if r.cur.fin = Error.EOF then emptyDocumentError else r.cur.fin) := by
      show (xmlSitemapIndexIterator.Next env (xmlSitemapIndexIterator.literal r)).2.cursor.err = _
      rw [h2]
      exact endError_true _
    have hv := validate_probe_failed (xmlSitemapIndexIterator.asItemIterator env)
      (xmlSitemapIndexIterator.literal r) _ h1 he
    simp [newXmlSitemapIndexIterator, hv]
  · intro env r h
    obtain ⟨h1, h2, _⟩ := page_Next env (xmlSitemapPageIterator.literal r)
    rw [page_literal_cursor, Cursor.step_none "url" env.decode _ h] at h1 h2
    have he : (xmlSitemapPageIterator.asItemIterator env).Err
        ((xmlSitemapPageIterator.asItemIterator env).Next (xmlSitemapPageIterator.literal r)).2
        = some (if r.cur.fin = Error.EOF then emptyDocumentError else r.cur.fin) := by
      show (xmlSitemapPageIterator.Next env (xmlSitemapPageIterator.literal r)).2.cursor.err = _
      rw [h2]
      exact endError_true _
    have hv := validate_probe_failed (xmlSitemapPageIterator.asItemIterator env)
      (xmlSitemapPageIterator.literal r) _ h1 he
    simp [newXmlSitemapPageIterator, hv]

/-- C2 (amended), at a document without matched elements and at a stream that is not XML. -/
theorem construction_fails_without_elements_witness :
    newXmlSitemapIndexIterator sampleIndexEnv (some (readerOver emptyDoc)) =
      (none, some (if (readerOver emptyDoc).cur.fin = Error.EOF then emptyDocumentError
                   else (readerOver emptyDoc).cur.fin)) ∧
    newXmlSitemapPageIterator samplePageEnv (some (readerFailing brokenDoc)) =
      (none, some (if (readerFailing brokenDoc).cur.fin = Error.EOF then emptyDocumentError
                   else (readerFailing brokenDoc).cur.fin)) :=
  ⟨construction_fails_without_elements.1 sampleIndexEnv (readerOver emptyDoc) (by decide),
   construction_fails_without_elements.2 samplePageEnv (readerFailing brokenDoc) (by decide)⟩

/-- C4: for each of the three iterators, every stream and every state `it` of an iterator over
that stream (in particular one that has consumed k items): if Reset succeeds, the (Next result,
Item, Err) triples observed over the following n Next calls, for every n and so for n = k+1, are
exactly those a freshly constructed iterator `it0` over the same stream produces over its first
n Next calls. -/
theorem reset_replays_fresh_iterator :
    (∀ (env : IndexEnv) (r0 : ReadSeeker TokenStream) (it0 it : xmlSitemapIndexIterator)
        (n : Nat),
      newXmlSitemapIndexIterator env (some r0) = (some it0, none) →
      it.reader.doc = r0.doc → it.Reset.1 = none →
      xmlSitemapIndexIterator.observe env n it.Reset.2 =
        xmlSitemapIndexIterator.observe env n it0) ∧
    (∀ (env : PageEnv) (r0 : ReadSeeker TokenStream) (it0 it : xmlSitemapPageIterator)
        (n : Nat),
      newXmlSitemapPageIterator env (some r0) = (some it0, none) →
      it.reader.doc = r0.doc → it.Reset.1 = none →
      xmlSitemapPageIterator.observe env n it.Reset.2 =
        xmlSitemapPageIterator.observe env n it0) ∧
    (∀ (parseURL : String → Option URL × Option Error) (r0 : ReadSeeker LineStream)
        (it0 it : plainSitemapPageIterator) (n : Nat),
      newPlainSitemapPageIterator parseURL (some r0) = (some it0, none) →
      it.reader.doc = r0.doc → it.Reset.1 = none →
      plainSitemapPageIterator.observe parseURL n it.Reset.2 =
        plainSitemapPageIterator.observe parseURL n it0) := by
  refine ⟨?_, ?_, ?_⟩
  · intro env r0 it0 it n hc hd hr
    obtain ⟨h0, h1⟩ := idx_constructed env r0 it0 hc
    apply idx_observe_congr
    rw [h0, idx_Reset_ok _ h1, idx_Reset_ok _ hr, (idx_Next env _).2.2, hd]
    rfl
  · intro env r0 it0 it n hc hd hr
    obtain ⟨h0, h1⟩ := page_constructed env r0 it0 hc
    apply page_observe_congr
    rw [h0, page_Reset_ok _ h1, page_Reset_ok _ hr, (page_Next env _).2.2, hd]
    rfl
  · intro parseURL r0 it0 it n hc hd hr
    obtain ⟨h0, h1⟩ := plain_constructed parseURL r0 it0 hc
    obtain ⟨a1, a2, _, _⟩ := plain_Reset_ok _ h1
    obtain ⟨b1, b2, _, _⟩ := plain_Reset_ok _ hr
    apply plain_observe_congr
    · rw [h0, a1, b1, plain_Next_reader, hd]
      rfl
    · rw [h0, a2, b2]

/-- C4, at the sample inputs: each iterator is constructed, advanced (twice, once, three times)
and reset, and then observed over as many calls plus one. -/
theorem reset_replays_fresh_iterator_witness :
    xmlSitemapIndexIterator.observe sampleIndexEnv 3
        (xmlSitemapIndexIterator.after sampleIndexEnv 2
          (xmlSitemapIndexIterator.literal (readerOver sampleIndexDoc)).Reset.2).Reset.2 =
      xmlSitemapIndexIterator.observe sampleIndexEnv 3
        (xmlSitemapIndexIterator.literal (readerOver sampleIndexDoc)).Reset.2 ∧
    xmlSitemapPageIterator.observe samplePageEnv 2
        (xmlSitemapPageIterator.after samplePageEnv 1
          (xmlSitemapPageIterator.literal (readerOver samplePageDoc)).Reset.2).Reset.2 =
      xmlSitemapPageIterator.observe samplePageEnv 2
        (xmlSitemapPageIterator.literal (readerOver samplePageDoc)).Reset.2 ∧
    plainSitemapPageIterator.observe sampleParseURL 4
        (plainSitemapPageIterator.after sampleParseURL 3
          (plainSitemapPageIterator.literal (readerOver sampleLines)).Reset.2).Reset.2 =
      plainSitemapPageIterator.observe sampleParseURL 4
        (plainSitemapPageIterator.literal (readerOver sampleLines)).Reset.2 :=
  ⟨reset_replays_fresh_iterator.1 sampleIndexEnv (readerOver sampleIndexDoc)
      (xmlSitemapIndexIterator.literal (readerOver sampleIndexDoc)).Reset.2
      (xmlSitemapIndexIterator.after sampleIndexEnv 2
        (xmlSitemapIndexIterator.literal (readerOver sampleIndexDoc)).Reset.2)
      3 (by decide) rfl rfl,
   reset_replays_fresh_iterator.2.1 samplePageEnv (readerOver samplePageDoc)
      (xmlSitemapPageIterator.literal (readerOver samplePageDoc)).Reset.2
      (xmlSitemapPageIterator.after samplePageEnv 1
        (xmlSitemapPageIterator.literal (readerOver samplePageDoc)).Reset.2)
      2 (by decide) rfl rfl,
   reset_replays_fresh_iterator.2.2 sampleParseURL (readerOver sampleLines)
      (plainSitemapPageIterator.literal (readerOver sampleLines)).Reset.2
      (plainSitemapPageIterator.after sampleParseURL 3
        (plainSitemapPageIterator.literal (readerOver sampleLines)).Reset.2)
      4 (by decide) rfl rfl⟩

/-- C5: for every XML iterator state in which the next matched element (after any number of
skipped tokens `pre`) is rejected by the URL-parse routine with a hard error `e`, Next returns
false, Item is nil and Err is that hard error, whatever tokens `rest` follow the start
element. -/
theorem hard_parse_failure_stops_next :
    (∀ (env : IndexEnv) (it : xmlSitemapIndexIterator) (pre : List Token) (st : Token)
        (rest : List Token) (e : ParseError),
      it.sitemap_decoder.toks = pre ++ st :: rest →
      (∀ t ∈ pre, isStart "sitemap" t = false) → isStart "sitemap" st = true →
      (env.parseSitemapIndexURL (env.unmarshal st (readSubtree 0 rest).1)).2 = some e →
      e.UrlParseFailed = true →
      (xmlSitemapIndexIterator.Next env it).1 = false ∧
      (xmlSitemapIndexIterator.Next env it).2.Item = none ∧
      (xmlSitemapIndexIterator.Next env it).2.Err = some (Error.url e)) ∧
    (∀ (env : PageEnv) (it : xmlSitemapPageIterator) (pre : List Token) (st : Token)
        (rest : List Token) (e : ParseError),
      it.sitemap_decoder.toks = pre ++ st :: rest →
      (∀ t ∈ pre, isStart "url" t = false) → isStart "url" st = true →
      (env.parseSitemapURL (env.unmarshal st (readSubtree 0 rest).1)).2 = some e →
      e.UrlParseFailed = true →
      (xmlSitemapPageIterator.Next env it).1 = false ∧
      (xmlSitemapPageIterator.Next env it).2.Item = none ∧
      (xmlSitemapPageIterator.Next env it).2.Err = some (Error.url e)) := by
  constructor
  · intro env it pre st rest e htoks hpre hst hp he
    have hd : (env.decode st (readSubtree 0 rest).1).2 = some e := hp
    rw [idx_Next_at env it pre st rest htoks hpre hst]
    simp [hd, isHard_some, he, asError, xmlSitemapIndexIterator.Item,
      xmlSitemapIndexIterator.Err]
  · intro env it pre st rest e htoks hpre hst hp he
    have hd : (env.decode st (readSubtree 0 rest).1).2 = some e := hp
    rw [page_Next_at env it pre st rest htoks hpre hst]
    simp [hd, isHard_some, he, asError, xmlSitemapPageIterator.Item,
      xmlSitemapPageIterator.Err]

/-- C5, at documents whose rejected first entry is followed by a well-formed one. -/
theorem hard_parse_failure_stops_next_witness :
    ((xmlSitemapIndexIterator.Next sampleIndexEnv
        (xmlSitemapIndexIterator.literal (readerOver badThenGoodIndexDoc))).1 = false ∧
      (xmlSitemapIndexIterator.Next sampleIndexEnv
        (xmlSitemapIndexIterator.literal (readerOver badThenGoodIndexDoc))).2.Item = none ∧
      (xmlSitemapIndexIterator.Next sampleIndexEnv
        (xmlSitemapIndexIterator.literal (readerOver badThenGoodIndexDoc))).2.Err =
        some (Error.url { text := "unparsable location", hard := true })) ∧
    ((xmlSitemapPageIterator.Next samplePageEnv
        (xmlSitemapPageIterator.literal (readerOver badThenGoodPageDoc))).1 = false ∧
      (xmlSitemapPageIterator.Next samplePageEnv
        (xmlSitemapPageIterator.literal (readerOver badThenGoodPageDoc))).2.Item = none ∧
      (xmlSitemapPageIterator.Next samplePageEnv
        (xmlSitemapPageIterator.literal (readerOver badThenGoodPageDoc))).2.Err =
        some (Error.url { text := "unparsable location", hard := true })) :=
  ⟨hard_parse_failure_stops_next.1 sampleIndexEnv
      (xmlSitemapIndexIterator.literal (readerOver badThenGoodIndexDoc))
      [startTag "sitemapindex"] (startTag "sitemap")
      (badThenGoodIndexDoc.toks.drop 2) { text := "unparsable location", hard := true }
      rfl (by decide) rfl (by decide) rfl,
   hard_parse_failure_stops_next.2 samplePageEnv
      (xmlSitemapPageIterator.literal (readerOver badThenGoodPageDoc))
      [startTag "urlset"] (startTag "url")
      (badThenGoodPageDoc.toks.drop 2) { text := "unparsable location", hard := true }
      rfl (by decide) rfl (by decide) rfl⟩

/-- C6, as stated, fails on each iterator: after the Next call that returns false with a
URL-parse error, the next Next call, with no Reset in between, returns true and produces the
entry that follows the rejected one (`https://b.example/` after the line `not a url` for the
plain-text iterator). -/
theorem next_resumes_after_hard_failure :
    plainSitemapPageIterator.observe sampleParseURL 3
        (plainSitemapPageIterator.literal (readerOver sampleLines)).Reset.2 =
      [(true, some { location := some { text := "https://a.example/" },
                     last_modified := Time.zero, change_frequency := "", priority := 1 }, none),
       (false, none, some (Error.url { text := "unparsable location", hard := true })),
       (true, some { location := some { text := "https://b.example/" },
                     last_modified := Time.zero, change_frequency := "", priority := 1 },
          some (Error.url { text := "unparsable location", hard := true }))] ∧
    xmlSitemapIndexIterator.observe sampleIndexEnv 2
        (xmlSitemapIndexIterator.literal (readerOver badThenGoodIndexDoc)).Reset.2 =
      [(false, none, some (Error.url { text := "unparsable location", hard := true })),
       (true, some { location := some { text := "https://a.example/2.xml" },
                     last_modified := Time.zero }, none)] ∧
    xmlSitemapPageIterator.observe samplePageEnv 2
        (xmlSitemapPageIterator.literal (readerOver badThenGoodPageDoc)).Reset.2 =
      [(false, none, some (Error.url { text := "unparsable location", hard := true })),
       (true, some { location := some { text := "https://b.example/" },
                     last_modified := Time.zero, change_frequency := "", priority := 1 },
          none)] := by
  refine ⟨by decide, by decide, by decide⟩

/-- C6 (amended): a hard URL-parse failure ends the Next call that meets it and does not stop
the iterator: for each iterator (XML index, XML page, plain-text) and every stream, the Next
call that meets a rejected entry returns false with Item nil and the URL-parse error as Err, and
leaves the iterator positioned right after that entry (after the subtree of the element, after
the line), where the next Next call without Reset resumes; when the entry that follows there is
accepted (for the XML iterators with no error or a soft one), that call returns true with the
entry as Item. -/
theorem hard_failure_ends_one_call_only :
    (∀ (env : IndexEnv) (it : xmlSitemapIndexIterator) (pre : List Token) (st : Token)
        (rest : List Token) (e : ParseError),
      it.sitemap_decoder.toks = pre ++ st :: rest →
      (∀ t ∈ pre, isStart "sitemap" t = false) → isStart "sitemap" st = true →
      (env.parseSitemapIndexURL (env.unmarshal st (readSubtree 0 rest).1)).2 = some e →
      e.UrlParseFailed = true →
      (xmlSitemapIndexIterator.Next env it).1 = false ∧
      (xmlSitemapIndexIterator.Next env it).2.Item = none ∧
      (xmlSitemapIndexIterator.Next env it).2.Err = some (Error.url e) ∧
      (xmlSitemapIndexIterator.Next env it).2.sitemap_decoder.toks = (readSubtree 0 rest).2.1 ∧
      (∀ (pre2 : List Token) (st2 : Token) (rest2 : List Token),
        (readSubtree 0 rest).2.1 = pre2 ++ st2 :: rest2 →
        (∀ t ∈ pre2, isStart "sitemap" t = false) → isStart "sitemap" st2 = true →
        isHard (env.parseSitemapIndexURL (env.unmarshal st2 (readSubtree 0 rest2).1)).2 = false →
        (xmlSitemapIndexIterator.Next env (xmlSitemapIndexIterator.Next env it).2).1 = true ∧
        (xmlSitemapIndexIterator.Next env (xmlSitemapIndexIterator.Next env it).2).2.Item =
          (env.parseSitemapIndexURL (env.unmarshal st2 (readSubtree 0 rest2).1)).1)) ∧
    (∀ (env : PageEnv) (it : xmlSitemapPageIterator) (pre : List Token) (st : Token)
        (rest : List Token) (e : ParseError),
      it.sitemap_decoder.toks = pre ++ st :: rest →
      (∀ t ∈ pre, isStart "url" t = false) → isStart "url" st = true →
      (env.parseSitemapURL (env.unmarshal st (readSubtree 0 rest).1)).2 = some e →
      e.UrlParseFailed = true →
      (xmlSitemapPageIterator.Next env it).1 = false ∧
      (xmlSitemapPageIterator.Next env it).2.Item = none ∧
      (xmlSitemapPageIterator.Next env it).2.Err = some (Error.url e) ∧
      (xmlSitemapPageIterator.Next env it).2.sitemap_decoder.toks = (readSubtree 0 rest).2.1 ∧
      (∀ (pre2 : List Token) (st2 : Token) (rest2 : List Token),
        (readSubtree 0 rest).2.1 = pre2 ++ st2 :: rest2 →
        (∀ t ∈ pre2, isStart "url" t = false) → isStart "url" st2 = true →
        isHard (env.parseSitemapURL (env.unmarshal st2 (readSubtree 0 rest2).1)).2 = false →
        (xmlSitemapPageIterator.Next env (xmlSitemapPageIterator.Next env it).2).1 = true ∧
        (xmlSitemapPageIterator.Next env (xmlSitemapPageIterator.Next env it).2).2.Item =
          (env.parseSitemapURL (env.unmarshal st2 (readSubtree 0 rest2).1)).1)) ∧
    (∀ (parseURL : String → Option URL × Option Error) (it : plainSitemapPageIterator)
        (l1 : String) (ls : List String) (e : Error),
      it.sitemap_scanner.lines = l1 :: ls → (parseURL l1).2 = some e →
      (plainSitemapPageIterator.Next parseURL it).1 = false ∧
      (plainSitemapPageIterator.Next parseURL it).2.Item = none ∧
      (plainSitemapPageIterator.Next parseURL it).2.Err = some e ∧
      (plainSitemapPageIterator.Next parseURL it).2.sitemap_scanner.lines = ls ∧
      (∀ (l2 : String) (ls2 : List String), ls = l2 :: ls2 → (parseURL l2).2 = none →
        (plainSitemapPageIterator.Next parseURL
          (plainSitemapPageIterator.Next parseURL it).2).1 = true ∧
        (plainSitemapPageIterator.Next parseURL
          (plainSitemapPageIterator.Next parseURL it).2).2.Item =
          some { location := (parseURL l2).1, last_modified := Time.zero,
                 change_frequency := "", priority := 1 })) := by
  refine ⟨?_, ?_, ?_⟩
  · intro env it pre st rest e htoks hpre hst hp he
    have hd : (env.decode st (readSubtree 0 rest).1).2 = some e := hp
    have h1 := idx_Next_at env it pre st rest htoks hpre hst
    refine ⟨?_, ?_, ?_, ?_, ?_⟩
    · rw [h1]; simp [hd, isHard_some, he]
    · rw [h1]; simp [hd, isHard_some, he, xmlSitemapIndexIterator.Item]
    · rw [h1]; simp [hd, asError, xmlSitemapIndexIterator.Err]
    · rw [h1]
    · intro pre2 st2 rest2 h2 hpre2 hst2 hok
      have hn := idx_Next_at env (xmlSitemapIndexIterator.Next env it).2 pre2 st2 rest2
        (by rw [h1]; exact h2) hpre2 hst2
      have hok2 : isHard (env.decode st2 (readSubtree 0 rest2).1).2 = false := hok
      refine ⟨?_, ?_⟩
      · rw [hn]; simp [hok2]
      · rw [hn]; simp only [xmlSitemapIndexIterator.Item, hok2]; rfl
  · intro env it pre st rest e htoks hpre hst hp he
    have hd : (env.decode st (readSubtree 0 rest).1).2 = some e := hp
    have h1 := page_Next_at env it pre st rest htoks hpre hst
    refine ⟨?_, ?_, ?_, ?_, ?_⟩
    · rw [h1]; simp [hd, isHard_some, he]
    · rw [h1]; simp [hd, isHard_some, he, xmlSitemapPageIterator.Item]
    · rw [h1]; simp [hd, asError, xmlSitemapPageIterator.Err]
    · rw [h1]
    · intro pre2 st2 rest2 h2 hpre2 hst2 hok
      have hn := page_Next_at env (xmlSitemapPageIterator.Next env it).2 pre2 st2 rest2
        (by rw [h1]; exact h2) hpre2 hst2
      have hok2 : isHard (env.decode st2 (readSubtree 0 rest2).1).2 = false := hok
      refine ⟨?_, ?_⟩
      · rw [hn]; simp [hok2]
      · rw [hn]; simp only [xmlSitemapPageIterator.Item, hok2]; rfl
  · intro parseURL it l1 ls e hl h1
    have a := plain_Next_line parseURL it l1 ls hl
    rw [h1] at a
    simp only [Option.isSome_some, if_true] at a
    refine ⟨?_, ?_, ?_, ?_, ?_⟩
    · rw [a]
    · rw [a]; rfl
    · rw [a]; rfl
    · rw [a]
    · intro l2 ls2 hls h2
      have b := plain_Next_line parseURL (plainSitemapPageIterator.Next parseURL it).2 l2 ls2
        (by rw [a]; exact hls)
      rw [h2] at b
      simp only [Option.isSome_none, Bool.false_eq_true, if_false] at b
      refine ⟨?_, ?_⟩
      · rw [b]
      · rw [b]; rfl

/-- C6 (amended), at the documents whose rejected first entry is followed by a well-formed one
(the call after the failing one returns true), at the urlset whose rejected entry is the last
one (the failing call alone) and at the three-line list whose second line is not a URL. -/
theorem hard_failure_ends_one_call_only_witness :
    (xmlSitemapIndexIterator.Next sampleIndexEnv (xmlSitemapIndexIterator.Next sampleIndexEnv
      (xmlSitemapIndexIterator.literal (readerOver badThenGoodIndexDoc))).2).1 = true ∧
    ((xmlSitemapPageIterator.Next samplePageEnv
        (xmlSitemapPageIterator.literal (readerOver badPageDoc))).1 = false ∧
      (xmlSitemapPageIterator.Next samplePageEnv
        (xmlSitemapPageIterator.literal (readerOver badPageDoc))).2.Err =
        some (Error.url { text := "unparsable location", hard := true }) ∧
      (xmlSitemapPageIterator.Next samplePageEnv
        (xmlSitemapPageIterator.literal (readerOver badPageDoc))).2.sitemap_decoder.toks =
        [endTag "urlset"]) ∧
    (xmlSitemapPageIterator.Next samplePageEnv (xmlSitemapPageIterator.Next samplePageEnv
      (xmlSitemapPageIterator.literal (readerOver badThenGoodPageDoc))).2).1 = true ∧
    (plainSitemapPageIterator.Next sampleParseURL (plainSitemapPageIterator.Next sampleParseURL
      (plainSitemapPageIterator.after sampleParseURL 1
        (plainSitemapPageIterator.literal (readerOver sampleLines)))).2).2.Item =
      some { location := (sampleParseURL "https://b.example/").1, last_modified := Time.zero,
             change_frequency := "", priority := 1 } :=
  have p := hard_failure_ends_one_call_only.2.1 samplePageEnv
    (xmlSitemapPageIterator.literal (readerOver badPageDoc))
    [startTag "urlset"] (startTag "url") (badPageDoc.toks.drop 2)
    { text := "unparsable location", hard := true }
    rfl (by decide) rfl (by decide) rfl
  ⟨((hard_failure_ends_one_call_only.1 sampleIndexEnv
      (xmlSitemapIndexIterator.literal (readerOver badThenGoodIndexDoc))
      [startTag "sitemapindex"] (startTag "sitemap") (badThenGoodIndexDoc.toks.drop 2)
      { text := "unparsable location", hard := true }
      rfl (by decide) rfl (by decide) rfl).2.2.2.2
      [Token.CharData " "] (startTag "sitemap") (badThenGoodIndexDoc.toks.drop 8)
      (by decide) (by decide) rfl (by decide)).1,
   ⟨p.1, p.2.2.1, p.2.2.2.1⟩,
   ((hard_failure_ends_one_call_only.2.1 samplePageEnv
      (xmlSitemapPageIterator.literal (readerOver badThenGoodPageDoc))
      [startTag "urlset"] (startTag "url") (badThenGoodPageDoc.toks.drop 2)
      { text := "unparsable location", hard := true }
      rfl (by decide) rfl (by decide) rfl).2.2.2.2
      [Token.CharData " "] (startTag "url") (badThenGoodPageDoc.toks.drop 8)
      (by decide) (by decide) rfl (by decide)).1,
   ((hard_failure_ends_one_call_only.2.2 sampleParseURL
      (plainSitemapPageIterator.after sampleParseURL 1
        (plainSitemapPageIterator.literal (readerOver sampleLines)))
      "not a url" ["https://b.example/"]
      (Error.url { text := "unparsable location", hard := true })
      (by decide) (by decide)).2.2.2.2
      "https://b.example/" [] rfl (by decide)).2⟩

/-- C7: for every XML iterator state in which the next matched element is accepted by the
URL-parse routine with a soft error `e` (non-nil, `UrlParseFailed()` false), Next returns true,
Item is the entity the parse produced and Err is that soft error; and the following Next call
returns the same result and leaves the same iterator (so the same Item and Err) as it does
after a Next call in which the parse routine (`env2`, otherwise arbitrary) produced the same
entity for that element with no error. -/
theorem soft_error_keeps_item_and_scanning :
    (∀ (env env2 : IndexEnv) (it : xmlSitemapIndexIterator) (pre : List Token) (st : Token)
        (rest : List Token) (e : ParseError),
      it.sitemap_decoder.toks = pre ++ st :: rest →
      (∀ t ∈ pre, isStart "sitemap" t = false) → isStart "sitemap" st = true →
      (env.parseSitemapIndexURL (env.unmarshal st (readSubtree 0 rest).1)).2 = some e →
      e.UrlParseFailed = false →
      env2.unmarshal = env.unmarshal →
      env2.parseSitemapIndexURL (env.unmarshal st (readSubtree 0 rest).1) =
        ((env.parseSitemapIndexURL (env.unmarshal st (readSubtree 0 rest).1)).1, none) →
      (xmlSitemapIndexIterator.Next env it).1 = true ∧
      (xmlSitemapIndexIterator.Next env it).2.Item =
        (env.parseSitemapIndexURL (env.unmarshal st (readSubtree 0 rest).1)).1 ∧
      (xmlSitemapIndexIterator.Next env it).2.Err = some (Error.url e) ∧
      (xmlSitemapIndexIterator.Next env2 it).1 = true ∧
      (xmlSitemapIndexIterator.Next env2 it).2.Item =
        (env.parseSitemapIndexURL (env.unmarshal st (readSubtree 0 rest).1)).1 ∧
      (xmlSitemapIndexIterator.Next env2 it).2.Err = none ∧
      xmlSitemapIndexIterator.Next env (xmlSitemapIndexIterator.Next env it).2 =
        xmlSitemapIndexIterator.Next env (xmlSitemapIndexIterator.Next env2 it).2) ∧
    (∀ (env env2 : PageEnv) (it : xmlSitemapPageIterator) (pre : List Token) (st : Token)
        (rest : List Token) (e : ParseError),
      it.sitemap_decoder.toks = pre ++ st :: rest →
      (∀ t ∈ pre, isStart "url" t = false) → isStart "url" st = true →
      (env.parseSitemapURL (env.unmarshal st (readSubtree 0 rest).1)).2 = some e →
      e.UrlParseFailed = false →
      env2.unmarshal = env.unmarshal →
      env2.parseSitemapURL (env.unmarshal st (readSubtree 0 rest).1) =
        ((env.parseSitemapURL (env.unmarshal st (readSubtree 0 rest).1)).1, none) →
      (xmlSitemapPageIterator.Next env it).1 = true ∧
      (xmlSitemapPageIterator.Next env it).2.Item =
        (env.parseSitemapURL (env.unmarshal st (readSubtree 0 rest).1)).1 ∧
      (xmlSitemapPageIterator.Next env it).2.Err = some (Error.url e) ∧
      (xmlSitemapPageIterator.Next env2 it).1 = true ∧
      (xmlSitemapPageIterator.Next env2 it).2.Item =
        (env.parseSitemapURL (env.unmarshal st (readSubtree 0 rest).1)).1 ∧
      (xmlSitemapPageIterator.Next env2 it).2.Err = none ∧
      xmlSitemapPageIterator.Next env (xmlSitemapPageIterator.Next env it).2 =
        xmlSitemapPageIterator.Next env (xmlSitemapPageIterator.Next env2 it).2) := by
  constructor
  · intro env env2 it pre st rest e htoks hpre hst hp he hu hp2
    have hd : (env.decode st (readSubtree 0 rest).1).2 = some e := hp
    have hd2 : env2.decode st (readSubtree 0 rest).1 =
        ((env.parseSitemapIndexURL (env.unmarshal st (readSubtree 0 rest).1)).1, none) := by
      unfold IndexEnv.decode
      rw [hu]
      exact hp2
    have e1 : xmlSitemapIndexIterator.Next env it =
        (true, { it with
          sitemap_decoder :=
            { toks := (readSubtree 0 rest).2.1, fin := it.sitemap_decoder.fin },
          check_empty_xml := false,
          item := (env.parseSitemapIndexURL (env.unmarshal st (readSubtree 0 rest).1)).1,
          err := some (Error.url e) }) := by
      rw [idx_Next_at env it pre st rest htoks hpre hst]
      simp only [hd, isHard_some, he, asError]
      rfl
    have e2 : xmlSitemapIndexIterator.Next env2 it =
        (true, { it with
          sitemap_decoder :=
            { toks := (readSubtree 0 rest).2.1, fin := it.sitemap_decoder.fin },
          check_empty_xml := false,
          item := (env.parseSitemapIndexURL (env.unmarshal st (readSubtree 0 rest).1)).1,
          err := none }) := by
      rw [idx_Next_at env2 it pre st rest htoks hpre hst]
      simp only [hd2, isHard, asError]
      rfl
    refine ⟨?_, ?_, ?_, ?_, ?_, ?_, ?_⟩
    · rw [e1]
    · rw [e1]; rfl
    · rw [e1]; rfl
    · rw [e2]
    · rw [e2]; rfl
    · rw [e2]; rfl
    · rw [e1, e2]
      exact idx_Next_forget env
        { it with
          sitemap_decoder :=
            { toks := (readSubtree 0 rest).2.1, fin := it.sitemap_decoder.fin },
          check_empty_xml := false,
          item := (env.parseSitemapIndexURL (env.unmarshal st (readSubtree 0 rest).1)).1,
          err := none }
        (some (Error.url e)) (env.parseSitemapIndexURL (env.unmarshal st (readSubtree 0 rest).1)).1
  · intro env env2 it pre st rest e htoks hpre hst hp he hu hp2
    have hd : (env.decode st (readSubtree 0 rest).1).2 = some e := hp
    have hd2 : env2.decode st (readSubtree 0 rest).1 =
        ((env.parseSitemapURL (env.unmarshal st (readSubtree 0 rest).1)).1, none) := by
      unfold PageEnv.decode
      rw [hu]
      exact hp2
    have e1 : xmlSitemapPageIterator.Next env it =
        (true, { it with
          sitemap_decoder :=
            { toks := (readSubtree 0 rest).2.1, fin := it.sitemap_decoder.fin },
          check_empty_xml := false,
          item := (env.parseSitemapURL (env.unmarshal st (readSubtree 0 rest).1)).1,
          err := some (Error.url e) }) := by
      rw [page_Next_at env it pre st rest htoks hpre hst]
      simp only [hd, isHard_some, he, asError]
      rfl
    have e2 : xmlSitemapPageIterator.Next env2 it =
        (true, { it with
          sitemap_decoder :=
            { toks := (readSubtree 0 rest).2.1, fin := it.sitemap_decoder.fin },
          check_empty_xml := false,
          item := (env.parseSitemapURL (env.unmarshal st (readSubtree 0 rest).1)).1,
          err := none }) := by
      rw [page_Next_at env2 it pre st rest htoks hpre hst]
      simp only [hd2, isHard, asError]
      rfl
    refine ⟨?_, ?_, ?_, ?_, ?_, ?_, ?_⟩
    · rw [e1]
    · rw [e1]; rfl
    · rw [e1]; rfl
    · rw [e2]
    · rw [e2]; rfl
    · rw [e2]; rfl
    · rw [e1, e2]
      exact page_Next_forget env
        { it with
          sitemap_decoder :=
            { toks := (readSubtree 0 rest).2.1, fin := it.sitemap_decoder.fin },
          check_empty_xml := false,
          item := (env.parseSitemapURL (env.unmarshal st (readSubtree 0 rest).1)).1,
          err := none }
        (some (Error.url e)) (env.parseSitemapURL (env.unmarshal st (readSubtree 0 rest).1)).1

/-- C7, at documents whose first entry is accepted with a soft error and followed by a
well-formed one. -/
theorem soft_error_keeps_item_and_scanning_witness :
    ((xmlSitemapIndexIterator.Next sampleIndexEnv
        (xmlSitemapIndexIterator.literal (readerOver softThenGoodIndexDoc))).1 = true ∧
      (xmlSitemapIndexIterator.Next sampleIndexEnv
        (xmlSitemapIndexIterator.literal (readerOver softThenGoodIndexDoc))).2.Err =
        some (Error.url { text := "last-modified defaulted", hard := false }) ∧
      xmlSitemapIndexIterator.Next sampleIndexEnv (xmlSitemapIndexIterator.Next sampleIndexEnv
          (xmlSitemapIndexIterator.literal (readerOver softThenGoodIndexDoc))).2 =
        xmlSitemapIndexIterator.Next sampleIndexEnv (xmlSitemapIndexIterator.Next lenientIndexEnv
          (xmlSitemapIndexIterator.literal (readerOver softThenGoodIndexDoc))).2) ∧
    ((xmlSitemapPageIterator.Next samplePageEnv
        (xmlSitemapPageIterator.literal (readerOver softThenGoodPageDoc))).1 = true ∧
      (xmlSitemapPageIterator.Next samplePageEnv
        (xmlSitemapPageIterator.literal (readerOver softThenGoodPageDoc))).2.Err =
        some (Error.url { text := "priority defaulted", hard := false }) ∧
      xmlSitemapPageIterator.Next samplePageEnv (xmlSitemapPageIterator.Next samplePageEnv
          (xmlSitemapPageIterator.literal (readerOver softThenGoodPageDoc))).2 =
        xmlSitemapPageIterator.Next samplePageEnv (xmlSitemapPageIterator.Next lenientPageEnv
          (xmlSitemapPageIterator.literal (readerOver softThenGoodPageDoc))).2) :=
  have a := soft_error_keeps_item_and_scanning.1 sampleIndexEnv lenientIndexEnv
    (xmlSitemapIndexIterator.literal (readerOver softThenGoodIndexDoc))
    [startTag "sitemapindex"] (startTag "sitemap") (softThenGoodIndexDoc.toks.drop 2)
    { text := "last-modified defaulted", hard := false }
    rfl (by decide) rfl (by decide) rfl rfl (by decide)
  have b := soft_error_keeps_item_and_scanning.2 samplePageEnv lenientPageEnv
    (xmlSitemapPageIterator.literal (readerOver softThenGoodPageDoc))
    [startTag "urlset"] (startTag "url") (softThenGoodPageDoc.toks.drop 2)
    { text := "priority defaulted", hard := false }
    rfl (by decide) rfl (by decide) rfl rfl (by decide)
  ⟨⟨a.1, a.2.2.1, a.2.2.2.2.2.2⟩, ⟨b.1, b.2.2.1, b.2.2.2.2.2.2⟩⟩

/-- C8: for every iterator passed to `validateNewIterator`: if the probe Next returns false and
Err is non-nil, the validator returns exactly that probe error, and each constructor returns no
iterator and that error; if the probe Next returns true (with nil or soft Err) or returns false
with nil Err, and Reset succeeds, the validator returns nil and each constructor returns the
iterator, as Reset left it. -/
theorem validator_reports_probe_outcome :
    (∀ (σ : Type) (I : ItemIterator σ) (it : σ) (e : Error),
      (I.Next it).1 = false → I.Err (I.Next it).2 = some e →
      (validateNewIterator I it).1 = some e) ∧
    (∀ (σ : Type) (I : ItemIterator σ) (it : σ),
      ((I.Next it).1 = true ∨ I.Err (I.Next it).2 = none) →
      (I.Reset (I.Next it).2).1 = none →
      (validateNewIterator I it).1 = none) ∧
    (∀ (env : IndexEnv) (r : ReadSeeker TokenStream) (e : Error),
      (xmlSitemapIndexIterator.Next env (xmlSitemapIndexIterator.literal r)).1 = false →
      (xmlSitemapIndexIterator.Next env (xmlSitemapIndexIterator.literal r)).2.Err = some e →
      newXmlSitemapIndexIterator env (some r) = (none, some e)) ∧
    (∀ (env : IndexEnv) (r : ReadSeeker TokenStream),
      ((xmlSitemapIndexIterator.Next env (xmlSitemapIndexIterator.literal r)).1 = true ∨
        (xmlSitemapIndexIterator.Next env (xmlSitemapIndexIterator.literal r)).2.Err = none) →
      (xmlSitemapIndexIterator.Next env (xmlSitemapIndexIterator.literal r)).2.Reset.1 = none →
      newXmlSitemapIndexIterator env (some r) =
        (some (xmlSitemapIndexIterator.Next env
          (xmlSitemapIndexIterator.literal r)).2.Reset.2, none)) ∧
    (∀ (env : PageEnv) (r : ReadSeeker TokenStream) (e : Error),
      (xmlSitemapPageIterator.Next env (xmlSitemapPageIterator.literal r)).1 = false →
      (xmlSitemapPageIterator.Next env (xmlSitemapPageIterator.literal r)).2.Err = some e →
      newXmlSitemapPageIterator env (some r) = (none, some e)) ∧
    (∀ (env : PageEnv) (r : ReadSeeker TokenStream),
      ((xmlSitemapPageIterator.Next env (xmlSitemapPageIterator.literal r)).1 = true ∨
        (xmlSitemapPageIterator.Next env (xmlSitemapPageIterator.literal r)).2.Err = none) →
      (xmlSitemapPageIterator.Next env (xmlSitemapPageIterator.literal r)).2.Reset.1 = none →
      newXmlSitemapPageIterator env (some r) =
        (some (xmlSitemapPageIterator.Next env
          (xmlSitemapPageIterator.literal r)).2.Reset.2, none)) ∧
    (∀ (parseURL : String → Option URL × Option Error) (r : ReadSeeker LineStream) (e : Error),
      (plainSitemapPageIterator.Next parseURL (plainSitemapPageIterator.literal r)).1 = false →
      (plainSitemapPageIterator.Next parseURL (plainSitemapPageIterator.literal r)).2.Err
        = some e →
      newPlainSitemapPageIterator parseURL (some r) = (none, some e)) ∧
    (∀ (parseURL : String → Option URL × Option Error) (r : ReadSeeker LineStream),
      ((plainSitemapPageIterator.Next parseURL (plainSitemapPageIterator.literal r)).1 = true ∨
        (plainSitemapPageIterator.Next parseURL (plainSitemapPageIterator.literal r)).2.Err
          = none) →
      (plainSitemapPageIterator.Next parseURL
        (plainSitemapPageIterator.literal r)).2.Reset.1 = none →
      newPlainSitemapPageIterator parseURL (some r) =
        (some (plainSitemapPageIterator.Next parseURL
          (plainSitemapPageIterator.literal r)).2.Reset.2, none)) := by
  refine ⟨?_, ?_, ?_, ?_, ?_, ?_, ?_, ?_⟩
  · intro σ I it e h1 h2
    rw [validate_probe_failed I it e h1 h2]
  · intro σ I it h hr
    rw [validate_probe_passed I it h]
    exact hr
  · intro env r e h1 h2
    have hv := validate_probe_failed (xmlSitemapIndexIterator.asItemIterator env)
      (xmlSitemapIndexIterator.literal r) e h1 h2
    simp [newXmlSitemapIndexIterator, hv]
  · intro env r h hr
    have hv := validate_probe_passed (xmlSitemapIndexIterator.asItemIterator env)
      (xmlSitemapIndexIterator.literal r) h
    have hr2 : ((xmlSitemapIndexIterator.asItemIterator env).Reset
        ((xmlSitemapIndexIterator.asItemIterator env).Next
          (xmlSitemapIndexIterator.literal r)).2).1 = none := hr
    simp only [newXmlSitemapIndexIterator, hv, hr2]
    rfl
  · intro env r e h1 h2
    have hv := validate_probe_failed (xmlSitemapPageIterator.asItemIterator env)
      (xmlSitemapPageIterator.literal r) e h1 h2
    simp [newXmlSitemapPageIterator, hv]
  · intro env r h hr
    have hv := validate_probe_passed (xmlSitemapPageIterator.asItemIterator env)
      (xmlSitemapPageIterator.literal r) h
    have hr2 : ((xmlSitemapPageIterator.asItemIterator env).Reset
        ((xmlSitemapPageIterator.asItemIterator env).Next
          (xmlSitemapPageIterator.literal r)).2).1 = none := hr
    simp only [newXmlSitemapPageIterator, hv, hr2]
    rfl
  · intro parseURL r e h1 h2
    have hv := validate_probe_failed (plainSitemapPageIterator.asItemIterator parseURL)
      (plainSitemapPageIterator.literal r) e h1 h2
    simp [newPlainSitemapPageIterator, hv]
  · intro parseURL r h hr
    have hv := validate_probe_passed (plainSitemapPageIterator.asItemIterator parseURL)
      (plainSitemapPageIterator.literal r) h
    have hr2 : ((plainSitemapPageIterator.asItemIterator parseURL).Reset
        ((plainSitemapPageIterator.asItemIterator parseURL).Next
          (plainSitemapPageIterator.literal r)).2).1 = none := hr
    simp only [newPlainSitemapPageIterator, hv, hr2]
    rfl

/-- C8, at the sample inputs: a rejected first entry (probe error returned), a document with
entries, a soft first entry, a plain list and a plain list without lines (nil returned). -/
theorem validator_reports_probe_outcome_witness :
    (validateNewIterator (xmlSitemapIndexIterator.asItemIterator sampleIndexEnv)
      (xmlSitemapIndexIterator.literal (readerOver badThenGoodIndexDoc))).1 =
      some (Error.url { text := "unparsable location", hard := true }) ∧
    (validateNewIterator (xmlSitemapPageIterator.asItemIterator samplePageEnv)
      (xmlSitemapPageIterator.literal (readerOver softThenGoodPageDoc))).1 = none ∧
    newXmlSitemapIndexIterator sampleIndexEnv (some (readerFailing badThenGoodIndexDoc)) =
      (none, some (Error.url { text := "unparsable location", hard := true })) ∧
    newXmlSitemapIndexIterator sampleIndexEnv (some (readerOver sampleIndexDoc)) =
      (some (xmlSitemapIndexIterator.Next sampleIndexEnv
        (xmlSitemapIndexIterator.literal (readerOver sampleIndexDoc))).2.Reset.2, none) ∧
    newXmlSitemapPageIterator samplePageEnv (some (readerOver badPageDoc)) =
      (none, some (Error.url { text := "unparsable location", hard := true })) ∧
    newXmlSitemapPageIterator samplePageEnv (some (readerOver softThenGoodPageDoc)) =
      (some (xmlSitemapPageIterator.Next samplePageEnv
        (xmlSitemapPageIterator.literal (readerOver softThenGoodPageDoc))).2.Reset.2, none) ∧
    newPlainSitemapPageIterator sampleParseURL
        (some (readerOver { lines := ["not a url"], fin := none })) =
      (none, some (Error.url { text := "unparsable location", hard := true })) ∧
    newPlainSitemapPageIterator sampleParseURL
        (some (readerOver { lines := [], fin := none })) =
      (some (plainSitemapPageIterator.Next sampleParseURL
        (plainSitemapPageIterator.literal (readerOver { lines := [], fin := none }))).2.Reset.2,
        none) :=
  ⟨validator_reports_probe_outcome.1 _
      (xmlSitemapIndexIterator.asItemIterator sampleIndexEnv)
      (xmlSitemapIndexIterator.literal (readerOver badThenGoodIndexDoc)) _
      (by decide) (by decide),
   validator_reports_probe_outcome.2.1 _
      (xmlSitemapPageIterator.asItemIterator samplePageEnv)
      (xmlSitemapPageIterator.literal (readerOver softThenGoodPageDoc))
      (Or.inl (by decide)) (by decide),
   validator_reports_probe_outcome.2.2.1 sampleIndexEnv (readerFailing badThenGoodIndexDoc) _
      (by decide) (by decide),
   validator_reports_probe_outcome.2.2.2.1 sampleIndexEnv (readerOver sampleIndexDoc)
      (Or.inl (by decide)) (by decide),
   validator_reports_probe_outcome.2.2.2.2.1 samplePageEnv (readerOver badPageDoc) _
      (by decide) (by decide),
   validator_reports_probe_outcome.2.2.2.2.2.1 samplePageEnv (readerOver softThenGoodPageDoc)
      (Or.inl (by decide)) (by decide),
   validator_reports_probe_outcome.2.2.2.2.2.2.1 sampleParseURL
      (readerOver { lines := ["not a url"], fin := none }) _ (by decide) (by decide),
   validator_reports_probe_outcome.2.2.2.2.2.2.2 sampleParseURL
      (readerOver { lines := [], fin := none }) (Or.inr (by decide)) (by decide)⟩

/-- C9: for every stream on which a constructor (XML index, XML page or plain-text) succeeds,
the returned iterator is pristine: `Item()` and `Err()` are nil, the stream is at its start
(the tokenizer or scanner holds the whole content and the reader is at offset 0), the
empty-document flag is true, and the (Next result, Item, Err) triples it then produces are, for
every number of calls, those of the struct literal of the constructor over the same stream at
its start, on which the probe Next was never called. -/
theorem constructed_iterator_is_pristine :
    (∀ (env : IndexEnv) (r : ReadSeeker TokenStream) (it0 : xmlSitemapIndexIterator),
      newXmlSitemapIndexIterator env (some r) = (some it0, none) →
      it0.Item = none ∧ it0.Err = none ∧ it0.check_empty_xml = true ∧
      it0.sitemap_decoder = { toks := r.doc.toks, fin := r.doc.fin } ∧
      it0.reader.cur = r.doc ∧
      ∀ n, xmlSitemapIndexIterator.observe env n it0 =
        xmlSitemapIndexIterator.observe env n
          (xmlSitemapIndexIterator.literal { r with cur := r.doc })) ∧
    (∀ (env : PageEnv) (r : ReadSeeker TokenStream) (it0 : xmlSitemapPageIterator),
      newXmlSitemapPageIterator env (some r) = (some it0, none) →
      it0.Item = none ∧ it0.Err = none ∧ it0.check_empty_xml = true ∧
      it0.sitemap_decoder = { toks := r.doc.toks, fin := r.doc.fin } ∧
      it0.reader.cur = r.doc ∧
      ∀ n, xmlSitemapPageIterator.observe env n it0 =
        xmlSitemapPageIterator.observe env n
          (xmlSitemapPageIterator.literal { r with cur := r.doc })) ∧
    (∀ (parseURL : String → Option URL × Option Error) (r : ReadSeeker LineStream)
        (it0 : plainSitemapPageIterator),
      newPlainSitemapPageIterator parseURL (some r) = (some it0, none) →
      it0.Item = none ∧ it0.Err = none ∧
      it0.sitemap_scanner =
        { lines := r.doc.lines, fin := r.doc.fin, text := "", err := none } ∧
      it0.reader.cur = r.doc ∧
      ∀ n, plainSitemapPageIterator.observe parseURL n it0 =
        plainSitemapPageIterator.observe parseURL n
          (plainSitemapPageIterator.literal { r with cur := r.doc })) := by
  refine ⟨?_, ?_, ?_⟩
  · intro env r it0 h
    obtain ⟨hc, hcur, _⟩ := idx_pristine env r it0 h
    refine ⟨?_, ?_, ?_, ?_, hcur, ?_⟩
    · exact congrArg Cursor.item hc
    · exact congrArg Cursor.err hc
    · exact congrArg Cursor.flag hc
    · exact decoder_eq_of_fields _ _ _ (congrArg Cursor.toks hc) (congrArg Cursor.fin hc)
    · intro n
      apply idx_observe_congr
      rw [hc]
      rfl
  · intro env r it0 h
    obtain ⟨hc, hcur, _⟩ := page_pristine env r it0 h
    refine ⟨?_, ?_, ?_, ?_, hcur, ?_⟩
    · exact congrArg Cursor.item hc
    · exact congrArg Cursor.err hc
    · exact congrArg Cursor.flag hc
    · exact decoder_eq_of_fields _ _ _ (congrArg Cursor.toks hc) (congrArg Cursor.fin hc)
    · intro n
      apply page_observe_congr
      rw [hc]
      rfl
  · intro parseURL r it0 h
    obtain ⟨hs, he, hi, hcur⟩ := plain_pristine parseURL r it0 h
    refine ⟨hi, he, hs, hcur, ?_⟩
    intro n
    apply plain_observe_congr
    · rw [hs]
      rfl
    · rw [he]
      rfl

/-- C9, at the sample inputs; the readers are handed over at their start, so that the
reference iterator is the struct literal over the reader itself. -/
theorem constructed_iterator_is_pristine_witness :
    (∀ n, xmlSitemapIndexIterator.observe sampleIndexEnv n
        (xmlSitemapIndexIterator.Next sampleIndexEnv
          (xmlSitemapIndexIterator.literal (readerOver sampleIndexDoc))).2.Reset.2 =
      xmlSitemapIndexIterator.observe sampleIndexEnv n
        (xmlSitemapIndexIterator.literal (readerOver sampleIndexDoc))) ∧
    (xmlSitemapPageIterator.Next samplePageEnv
      (xmlSitemapPageIterator.literal (readerOver softThenGoodPageDoc))).2.Reset.2.Err = none ∧
    (plainSitemapPageIterator.Next sampleParseURL
      (plainSitemapPageIterator.literal (readerOver sampleLines))).2.Reset.2.Item = none :=
  ⟨(constructed_iterator_is_pristine.1 sampleIndexEnv (readerOver sampleIndexDoc)
      (xmlSitemapIndexIterator.Next sampleIndexEnv
        (xmlSitemapIndexIterator.literal (readerOver sampleIndexDoc))).2.Reset.2
      (by decide)).2.2.2.2.2,
   (constructed_iterator_is_pristine.2.1 samplePageEnv (readerOver softThenGoodPageDoc)
      (xmlSitemapPageIterator.Next samplePageEnv
        (xmlSitemapPageIterator.literal (readerOver softThenGoodPageDoc))).2.Reset.2
      (by decide)).2.1,
   (constructed_iterator_is_pristine.2.2 sampleParseURL (readerOver sampleLines)
      (plainSitemapPageIterator.Next sampleParseURL
        (plainSitemapPageIterator.literal (readerOver sampleLines))).2.Reset.2
      (by decide)).1⟩

/-- C10, as stated, fails: over a document without matched elements whose reader cannot be
rewound, the probe fails with the empty-document error, the Reset performed by the validator
fails with the seek error, and the validator and the constructor return the empty-document
error, not the Reset failure. -/
theorem probe_error_masks_reset_failure :
    ((xmlSitemapIndexIterator.asItemIterator sampleIndexEnv).Reset
      ((xmlSitemapIndexIterator.asItemIterator sampleIndexEnv).Next
        (xmlSitemapIndexIterator.literal (readerFailing emptyDoc))).2).1 =
      some (Error.stream "seek failed") ∧
    (validateNewIterator (xmlSitemapIndexIterator.asItemIterator sampleIndexEnv)
      (xmlSitemapIndexIterator.literal (readerFailing emptyDoc))).1 =
      some emptyDocumentError ∧
    newXmlSitemapIndexIterator sampleIndexEnv (some (readerFailing emptyDoc)) =
      (none, some emptyDocumentError) ∧
    emptyDocumentError ≠ Error.stream "seek failed" := by
  refine ⟨by decide, by decide, by decide, by decide⟩

/-- C10 (amended): for every iterator whose probe did not fail with an error (Next returned
true, or false with nil Err), if the Reset performed inside `validateNewIterator` fails, then
the error `validateNewIterator` returns, and hence each constructor returns with no iterator,
is that Reset failure; when the probe failed with an error, the probe error is returned
whatever the Reset returns. -/
theorem reset_failure_reported_after_passed_probe :
    (∀ (σ : Type) (I : ItemIterator σ) (it : σ) (e : Error),
      ((I.Next it).1 = true ∨ I.Err (I.Next it).2 = none) →
      (I.Reset (I.Next it).2).1 = some e →
      (validateNewIterator I it).1 = some e) ∧
    (∀ (σ : Type) (I : ItemIterator σ) (it : σ) (e : Error),
      (I.Next it).1 = false → I.Err (I.Next it).2 = some e →
      (validateNewIterator I it).1 = some e) ∧
    (∀ (env : IndexEnv) (r : ReadSeeker TokenStream) (e : Error),
      ((xmlSitemapIndexIterator.Next env (xmlSitemapIndexIterator.literal r)).1 = true ∨
        (xmlSitemapIndexIterator.Next env (xmlSitemapIndexIterator.literal r)).2.Err = none) →
      (xmlSitemapIndexIterator.Next env (xmlSitemapIndexIterator.literal r)).2.Reset.1
        = some e →
      newXmlSitemapIndexIterator env (some r) = (none, some e)) ∧
    (∀ (env : PageEnv) (r : ReadSeeker TokenStream) (e : Error),
      ((xmlSitemapPageIterator.Next env (xmlSitemapPageIterator.literal r)).1 = true ∨
        (xmlSitemapPageIterator.Next env (xmlSitemapPageIterator.literal r)).2.Err = none) →
      (xmlSitemapPageIterator.Next env (xmlSitemapPageIterator.literal r)).2.Reset.1
        = some e →
      newXmlSitemapPageIterator env (some r) = (none, some e)) ∧
    (∀ (parseURL : String → Option URL × Option Error) (r : ReadSeeker LineStream) (e : Error),
      ((plainSitemapPageIterator.Next parseURL (plainSitemapPageIterator.literal r)).1 = true ∨
        (plainSitemapPageIterator.Next parseURL (plainSitemapPageIterator.literal r)).2.Err
          = none) →
      (plainSitemapPageIterator.Next parseURL
        (plainSitemapPageIterator.literal r)).2.Reset.1 = some e →
      newPlainSitemapPageIterator parseURL (some r) = (none, some e)) := by
  refine ⟨?_, ?_, ?_, ?_, ?_⟩
  · intro σ I it e h hr
    rw [validate_probe_passed I it h]
    exact hr
  · intro σ I it e h1 h2
    rw [validate_probe_failed I it e h1 h2]
  · intro env r e h hr
    have hv := validate_probe_passed (xmlSitemapIndexIterator.asItemIterator env)
      (xmlSitemapIndexIterator.literal r) h
    have hr2 : ((xmlSitemapIndexIterator.asItemIterator env).Reset
        ((xmlSitemapIndexIterator.asItemIterator env).Next
          (xmlSitemapIndexIterator.literal r)).2).1 = some e := hr
    simp [newXmlSitemapIndexIterator, hv, hr2]
  · intro env r e h hr
    have hv := validate_probe_passed (xmlSitemapPageIterator.asItemIterator env)
      (xmlSitemapPageIterator.literal r) h
    have hr2 : ((xmlSitemapPageIterator.asItemIterator env).Reset
        ((xmlSitemapPageIterator.asItemIterator env).Next
          (xmlSitemapPageIterator.literal r)).2).1 = some e := hr
    simp [newXmlSitemapPageIterator, hv, hr2]
  · intro parseURL r e h hr
    have hv := validate_probe_passed (plainSitemapPageIterator.asItemIterator parseURL)
      (plainSitemapPageIterator.literal r) h
    have hr2 : ((plainSitemapPageIterator.asItemIterator parseURL).Reset
        ((plainSitemapPageIterator.asItemIterator parseURL).Next
          (plainSitemapPageIterator.literal r)).2).1 = some e := hr
    simp [newPlainSitemapPageIterator, hv, hr2]

/-- C10 (amended), at readers that cannot be rewound: over documents with entries and a list
with lines the seek error is returned; over a rejected first entry the parse error is. -/
theorem reset_failure_reported_after_passed_probe_witness :
    (validateNewIterator (xmlSitemapIndexIterator.asItemIterator sampleIndexEnv)
      (xmlSitemapIndexIterator.literal (readerFailing sampleIndexDoc))).1 =
      some (Error.stream "seek failed") ∧
    (validateNewIterator (xmlSitemapIndexIterator.asItemIterator sampleIndexEnv)
      (xmlSitemapIndexIterator.literal (readerFailing badIndexDoc))).1 =
      some (Error.url { text := "unparsable location", hard := true }) ∧
    newXmlSitemapIndexIterator sampleIndexEnv (some (readerFailing sampleIndexDoc)) =
      (none, some (Error.stream "seek failed")) ∧
    newXmlSitemapPageIterator samplePageEnv (some (readerFailing samplePageDoc)) =
      (none, some (Error.stream "seek failed")) ∧
    newPlainSitemapPageIterator sampleParseURL (some (readerFailing oneLine)) =
      (none, some (Error.stream "seek failed")) :=
  ⟨reset_failure_reported_after_passed_probe.1 _
      (xmlSitemapIndexIterator.asItemIterator sampleIndexEnv)
      (xmlSitemapIndexIterator.literal (readerFailing sampleIndexDoc)) _
      (Or.inl (by decide)) (by decide),
   reset_failure_reported_after_passed_probe.2.1 _
      (xmlSitemapIndexIterator.asItemIterator sampleIndexEnv)
      (xmlSitemapIndexIterator.literal (readerFailing badIndexDoc)) _
      (by decide) (by decide),
   reset_failure_reported_after_passed_probe.2.2.1 sampleIndexEnv
      (readerFailing sampleIndexDoc) _ (Or.inl (by decide)) (by decide),
   reset_failure_reported_after_passed_probe.2.2.2.1 samplePageEnv
      (readerFailing samplePageDoc) _ (Or.inl (by decide)) (by decide),
   reset_failure_reported_after_passed_probe.2.2.2.2 sampleParseURL
      (readerFailing oneLine) _ (Or.inl (by decide)) (by decide)⟩

/-- C11: for each of the three iterators and every state, after Reset returns, `Item()` and
`Err()` are both nil, the scanning state is reinitialised (a new tokenizer or scanner over the
reader as the seek left it and, for the XML iterators, the empty-document flag true again), and
the error Reset returns is the one `Seek` returned: non-nil if and only if the seek to offset 0
failed, and then the seek error. -/
theorem reset_reinitialises_and_reports_seek :
    (∀ it : xmlSitemapIndexIterator,
      it.Reset.2.Item = none ∧ it.Reset.2.Err = none ∧ it.Reset.2.check_empty_xml = true ∧
      it.Reset.2.reader = it.reader.Seek.2 ∧
      it.Reset.2.sitemap_decoder = NewDecoder it.reader.Seek.2 ∧
      it.Reset.1 = it.reader.Seek.1) ∧
    (∀ it : xmlSitemapPageIterator,
      it.Reset.2.Item = none ∧ it.Reset.2.Err = none ∧ it.Reset.2.check_empty_xml = true ∧
      it.Reset.2.reader = it.reader.Seek.2 ∧
      it.Reset.2.sitemap_decoder = NewDecoder it.reader.Seek.2 ∧
      it.Reset.1 = it.reader.Seek.1) ∧
    (∀ it : plainSitemapPageIterator,
      it.Reset.2.Item = none ∧ it.Reset.2.Err = none ∧
      it.Reset.2.reader = it.reader.Seek.2 ∧
      it.Reset.2.sitemap_scanner = NewScanner it.reader.Seek.2 ∧
      it.Reset.1 = it.reader.Seek.1) ∧
    (∀ (α : Type) (r : ReadSeeker α), r.Seek.1 = none → r.Seek.2.cur = r.doc) := by
  refine ⟨?_, ?_, ?_, ?_⟩
  · intro it
    exact ⟨rfl, rfl, rfl, rfl, rfl, rfl⟩
  · intro it
    exact ⟨rfl, rfl, rfl, rfl, rfl, rfl⟩
  · intro it
    exact ⟨rfl, rfl, rfl, rfl, rfl⟩
  · intro α r h
    exact ReadSeeker.Seek_ok r h

/-- C11, at a reader whose seek succeeds. -/
theorem reset_reinitialises_and_reports_seek_witness :
    (readerOver sampleIndexDoc).Seek.2.cur = (readerOver sampleIndexDoc).doc :=
  reset_reinitialises_and_reports_seek.2.2.2 _ (readerOver sampleIndexDoc) rfl

/-- C12: for each of the three iterators, every state and every stream, a Next call returns
true if and only if `Item()` is non-nil immediately afterwards, assuming for the XML iterators
that the URL-parse routine returns a non-nil entity whenever it does not report a hard failure;
in particular `Item()` is nil after every Next that returns false, and it is nil before the
first Next, in the struct literal of the constructor and after every Reset. -/
theorem next_true_iff_item_available :
    (∀ (env : IndexEnv) (it : xmlSitemapIndexIterator),
      (∀ raw, isHard (env.parseSitemapIndexURL raw).2 = false → (env.parseSitemapIndexURL raw).1 ≠ none) →
      ((xmlSitemapIndexIterator.Next env it).1 = true ↔ (xmlSitemapIndexIterator.Next env it).2.Item ≠ none)) ∧
    (∀ r : ReadSeeker TokenStream, (xmlSitemapIndexIterator.literal r).Item = none) ∧
    (∀ it : xmlSitemapIndexIterator, it.Reset.2.Item = none) ∧
    (∀ (env : PageEnv) (it : xmlSitemapPageIterator),
      (∀ raw, isHard (env.parseSitemapURL raw).2 = false → (env.parseSitemapURL raw).1 ≠ none) →
      ((xmlSitemapPageIterator.Next env it).1 = true ↔ (xmlSitemapPageIterator.Next env it).2.Item ≠ none)) ∧
    (∀ r : ReadSeeker TokenStream, (xmlSitemapPageIterator.literal r).Item = none) ∧
    (∀ it : xmlSitemapPageIterator, it.Reset.2.Item = none) ∧
    (∀ (parseURL : String → Option URL × Option Error) (it : plainSitemapPageIterator),
      ((plainSitemapPageIterator.Next parseURL it).1 = true ↔
        (plainSitemapPageIterator.Next parseURL it).2.Item ≠ none)) ∧
    (∀ r : ReadSeeker LineStream, (plainSitemapPageIterator.literal r).Item = none) ∧
    (∀ it : plainSitemapPageIterator, it.Reset.2.Item = none) := by
  refine ⟨?_, ?_, ?_, ?_, ?_, ?_, ?_, ?_, ?_⟩
  · intro env it h
    obtain ⟨h1, h2, _⟩ := idx_Next env it
    have hI : (xmlSitemapIndexIterator.Next env it).2.Item = (xmlSitemapIndexIterator.Next env it).2.cursor.item := rfl
    rw [hI, h1, h2]
    exact Cursor.step_true_iff _ env.decode it.cursor (fun st body => h _)
  · intro r
    rfl
  · intro it
    rfl
  · intro env it h
    obtain ⟨h1, h2, _⟩ := page_Next env it
    have hI : (xmlSitemapPageIterator.Next env it).2.Item = (xmlSitemapPageIterator.Next env it).2.cursor.item := rfl
    rw [hI, h1, h2]
    exact Cursor.step_true_iff _ env.decode it.cursor (fun st body => h _)
  · intro r
    rfl
  · intro it
    rfl
  · intro parseURL it
    exact plain_Next_true_iff parseURL it
  · intro r
    rfl
  · intro it
    rfl

/-- C12, at the sample environments, whose parse routines return an entity whenever they
report no hard failure. -/
theorem next_true_iff_item_available_witness :
    ((xmlSitemapIndexIterator.Next sampleIndexEnv
        (xmlSitemapIndexIterator.literal (readerOver softThenGoodIndexDoc))).1 = true ↔
      (xmlSitemapIndexIterator.Next sampleIndexEnv
        (xmlSitemapIndexIterator.literal (readerOver softThenGoodIndexDoc))).2.Item ≠ none) ∧
    ((xmlSitemapPageIterator.Next samplePageEnv
        (xmlSitemapPageIterator.literal (readerOver badPageDoc))).1 = true ↔
      (xmlSitemapPageIterator.Next samplePageEnv
        (xmlSitemapPageIterator.literal (readerOver badPageDoc))).2.Item ≠ none) :=
  ⟨next_true_iff_item_available.1 sampleIndexEnv
      (xmlSitemapIndexIterator.literal (readerOver softThenGoodIndexDoc))
      (fun raw => by
        simp only [sampleIndexEnv]
        split_ifs <;> simp [isHard, ParseError.UrlParseFailed]),
   next_true_iff_item_available.2.2.2.1 samplePageEnv
      (xmlSitemapPageIterator.literal (readerOver badPageDoc))
      (fun raw => by
        simp only [samplePageEnv]
        split_ifs <;> simp [isHard, ParseError.UrlParseFailed])⟩

/-- C15: each of the three constructors, given a nil reader, returns a nil iterator together
with a non-nil configuration error, whatever the parse routines are: the result is fixed before
any iterator exists on which Next, Reset or the validator could be called. -/
theorem nil_reader_is_rejected :
    (∀ env : IndexEnv, newXmlSitemapIndexIterator env none =
      (none, some (Error.New "sitemapiterator: reader cannot be nil"))) ∧
    (∀ env : PageEnv, newXmlSitemapPageIterator env none =
      (none, some (Error.New "sitemapiterator: reader cannot be nil"))) ∧
    (∀ parseURL : String → Option URL × Option Error,
      newPlainSitemapPageIterator parseURL none =
        (none, some (Error.New "sitemap: reader cannot be nil"))) :=
  ⟨fun _ => rfl, fun _ => rfl, fun _ => rfl⟩

/-- C13: for every plain-text stream read without scanner failure whose lines are `good ++ tail`,
where the k lines of `good` are accepted by the URL-parse routine and `tail` is empty (k = n)
or starts with a rejected line: the first k Next calls of a freshly reset plain-text iterator
return true with Item the page entry of the line (its parsed location, zero last-modified, empty
change-frequency, priority 1.0) and Err nil, and the (k+1)-th Next returns false with Item nil
and Err the parse error of the rejected line, or nil when no line is left. -/
theorem plain_lines_are_iterated_until_rejected :
    ∀ (parseURL : String → Option URL × Option Error) (it : plainSitemapPageIterator)
      (good tail : List String),
      it.Reset.1 = none → it.reader.doc.lines = good ++ tail → it.reader.doc.fin = none →
      (∀ l ∈ good, (parseURL l).2 = none) →
      (∀ l, tail.head? = some l → (parseURL l).2 ≠ none) →
      plainSitemapPageIterator.observe parseURL (good.length + 1) it.Reset.2 =
        good.map (fun l => (true,
          some { location := (parseURL l).1, last_modified := Time.zero,
                 change_frequency := "", priority := 1 }, none)) ++
        [(false, none,
          match tail with
          | [] => none
          | l :: _ => (parseURL l).2)] := by
  intro parseURL it good tail hr hl hfin hgood htail
  obtain ⟨h1, h2, _, _⟩ := plain_Reset_ok it hr
  exact plain_observe_lines parseURL good tail it.Reset.2
    (by rw [h1]; exact hl) (by rw [h1]; exact hfin) h2 hgood htail

/-- C13, at the one-line list (k = n = 1) and at the three-line list whose second line is not a
URL (k = 1 < n = 3). -/
theorem plain_lines_are_iterated_until_rejected_witness :
    plainSitemapPageIterator.observe sampleParseURL 2
        (plainSitemapPageIterator.literal (readerOver oneLine)).Reset.2 =
      [(true, some { location := some { text := "https://a.example/" },
                     last_modified := Time.zero, change_frequency := "", priority := 1 }, none),
       (false, none, none)] ∧
    plainSitemapPageIterator.observe sampleParseURL 2
        (plainSitemapPageIterator.literal (readerOver sampleLines)).Reset.2 =
      [(true, some { location := some { text := "https://a.example/" },
                     last_modified := Time.zero, change_frequency := "", priority := 1 }, none),
       (false, none, some (Error.url { text := "unparsable location", hard := true }))] :=
  ⟨plain_lines_are_iterated_until_rejected sampleParseURL
      (plainSitemapPageIterator.literal (readerOver oneLine))
      ["https://a.example/"] [] rfl rfl rfl (by decide) (by decide),
   plain_lines_are_iterated_until_rejected sampleParseURL
      (plainSitemapPageIterator.literal (readerOver sampleLines))
      ["https://a.example/"] ["not a url", "https://b.example/"] rfl rfl rfl
      (by decide) (by decide)⟩

/-- C14, the code at the failing input: over the three-line list whose second line is not a URL,
the iterator after two Next calls has the accepted line `https://b.example/` next; the third
Next returns true and sets Item, and `Err()` still holds the parse error of the second line,
which the second call stored and the third call did not touch. -/
theorem plain_success_keeps_error_of_earlier_call :
    (plainSitemapPageIterator.after sampleParseURL 2
      (plainSitemapPageIterator.literal (readerOver sampleLines))).sitemap_scanner.lines =
      ["https://b.example/"] ∧
    (sampleParseURL "https://b.example/").2 = none ∧
    (plainSitemapPageIterator.Next sampleParseURL
      (plainSitemapPageIterator.after sampleParseURL 2
        (plainSitemapPageIterator.literal (readerOver sampleLines)))).1 = true ∧
    (plainSitemapPageIterator.Next sampleParseURL
      (plainSitemapPageIterator.after sampleParseURL 2
        (plainSitemapPageIterator.literal (readerOver sampleLines)))).2.Item =
      some { location := some { text := "https://b.example/" }, last_modified := Time.zero,
             change_frequency := "", priority := 1 } ∧
    (plainSitemapPageIterator.Next sampleParseURL
      (plainSitemapPageIterator.after sampleParseURL 2
        (plainSitemapPageIterator.literal (readerOver sampleLines)))).2.Err =
      some (Error.url { text := "unparsable location", hard := true }) := by
  refine ⟨by decide, by decide, by decide, by decide, by decide⟩

/-- C16: for every XML iterator state and remaining token stream `ts`, and every finite sequence
`pre` of tokens none of which is a start element whose local name is the matched name
(`sitemap` / `url`), Next on `pre ++ ts` returns the same result and leaves the same iterator,
so the same Item, Err and flag, as Next on `ts`; and a start element with the matched local
name is matched whatever its namespace and attributes: the flag is cleared, the subtree is read
and Err is what the parse of the element returned. -/
theorem unmatched_tokens_are_skipped :
    (∀ (env : IndexEnv) (it : xmlSitemapIndexIterator) (pre ts : List Token),
      (∀ t ∈ pre, isStart "sitemap" t = false) →
      xmlSitemapIndexIterator.Next env
          { it with sitemap_decoder := { toks := pre ++ ts, fin := it.sitemap_decoder.fin } } =
        xmlSitemapIndexIterator.Next env
          { it with sitemap_decoder := { toks := ts, fin := it.sitemap_decoder.fin } }) ∧
    (∀ (env : IndexEnv) (it : xmlSitemapIndexIterator) (space : String) (attr : List Attr) (rest : List Token),
      it.sitemap_decoder.toks =
        Token.StartElement { Space := space, Local := "sitemap" } attr :: rest →
      (xmlSitemapIndexIterator.Next env it).2.check_empty_xml = false ∧
      (xmlSitemapIndexIterator.Next env it).2.sitemap_decoder.toks = (readSubtree 0 rest).2.1 ∧
      (xmlSitemapIndexIterator.Next env it).2.Err =
        asError (env.parseSitemapIndexURL (env.unmarshal
          (Token.StartElement { Space := space, Local := "sitemap" } attr)
          (readSubtree 0 rest).1)).2) ∧
    (∀ (env : PageEnv) (it : xmlSitemapPageIterator) (pre ts : List Token),
      (∀ t ∈ pre, isStart "url" t = false) →
      xmlSitemapPageIterator.Next env
          { it with sitemap_decoder := { toks := pre ++ ts, fin := it.sitemap_decoder.fin } } =
        xmlSitemapPageIterator.Next env
          { it with sitemap_decoder := { toks := ts, fin := it.sitemap_decoder.fin } }) ∧
    (∀ (env : PageEnv) (it : xmlSitemapPageIterator) (space : String) (attr : List Attr) (rest : List Token),
      it.sitemap_decoder.toks =
        Token.StartElement { Space := space, Local := "url" } attr :: rest →
      (xmlSitemapPageIterator.Next env it).2.check_empty_xml = false ∧
      (xmlSitemapPageIterator.Next env it).2.sitemap_decoder.toks = (readSubtree 0 rest).2.1 ∧
      (xmlSitemapPageIterator.Next env it).2.Err =
        asError (env.parseSitemapURL (env.unmarshal
          (Token.StartElement { Space := space, Local := "url" } attr)
          (readSubtree 0 rest).1)).2) := by
  refine ⟨?_, ?_, ?_, ?_⟩
  · intro env it pre ts h
    exact idx_Next_skip env it pre ts h
  · intro env it space attr rest h
    rw [idx_Next_at env it [] _ rest (by simpa using h) (by simp) (by simp [isStart])]
    exact ⟨rfl, rfl, rfl⟩
  · intro env it pre ts h
    exact page_Next_skip env it pre ts h
  · intro env it space attr rest h
    rw [page_Next_at env it [] _ rest (by simpa using h) (by simp) (by simp [isStart])]
    exact ⟨rfl, rfl, rfl⟩

/-- C16, at the sample documents: the tokens before the first entry are skipped, and an entry
in a namespace is matched. -/
theorem unmatched_tokens_are_skipped_witness :
    xmlSitemapIndexIterator.Next sampleIndexEnv
        { xmlSitemapIndexIterator.literal (readerOver sampleIndexDoc) with
          sitemap_decoder :=
            { toks := [startTag "sitemapindex", Token.Comment "c"] ++
                sampleIndexDoc.toks.drop 1,
              fin := Error.EOF } } =
      xmlSitemapIndexIterator.Next sampleIndexEnv
        { xmlSitemapIndexIterator.literal (readerOver sampleIndexDoc) with
          sitemap_decoder := { toks := sampleIndexDoc.toks.drop 1, fin := Error.EOF } } ∧
    (xmlSitemapPageIterator.Next samplePageEnv
      { xmlSitemapPageIterator.literal (readerOver samplePageDoc) with
        sitemap_decoder :=
          { toks := Token.StartElement
              { Space := "http://www.sitemaps.org/schemas/sitemap/0.9", Local := "url" } [] ::
              samplePageDoc.toks.drop 2,
            fin := Error.EOF } }).2.check_empty_xml = false :=
  ⟨unmatched_tokens_are_skipped.1 sampleIndexEnv
      (xmlSitemapIndexIterator.literal (readerOver sampleIndexDoc))
      [startTag "sitemapindex", Token.Comment "c"] (sampleIndexDoc.toks.drop 1) (by decide),
   (unmatched_tokens_are_skipped.2.2.2 samplePageEnv
      { xmlSitemapPageIterator.literal (readerOver samplePageDoc) with
        sitemap_decoder :=
          { toks := Token.StartElement
              { Space := "http://www.sitemaps.org/schemas/sitemap/0.9", Local := "url" } [] ::
              samplePageDoc.toks.drop 2,
            fin := Error.EOF } }
      "http://www.sitemaps.org/schemas/sitemap/0.9" [] (samplePageDoc.toks.drop 2) rfl).1⟩

/-- C19: exhaustion is stable: for every XML iterator whose tokenizer ends with `io.EOF`, once a
Next call has returned false because no matched start element was left before the end of the
input (with Item nil and Err the empty-document error while the flag is set, nil once it is
cleared), every further Next call without Reset returns false and leaves the iterator as that
call left it, so with Item nil and the same Err. -/
theorem exhaustion_is_stable :
    (∀ (env : IndexEnv) (s : xmlSitemapIndexIterator) (k : Nat),
      s.sitemap_decoder.fin = Error.EOF →
      (∀ t ∈ s.sitemap_decoder.toks, isStart "sitemap" t = false) →
      (xmlSitemapIndexIterator.Next env s).1 = false ∧
      (xmlSitemapIndexIterator.Next env s).2.Item = none ∧
      (xmlSitemapIndexIterator.Next env s).2.Err =
        (if s.check_empty_xml then some emptyDocumentError else none) ∧
      xmlSitemapIndexIterator.Next env (xmlSitemapIndexIterator.after env k (xmlSitemapIndexIterator.Next env s).2) = (false, (xmlSitemapIndexIterator.Next env s).2)) ∧
    (∀ (env : PageEnv) (s : xmlSitemapPageIterator) (k : Nat),
      s.sitemap_decoder.fin = Error.EOF →
      (∀ t ∈ s.sitemap_decoder.toks, isStart "url" t = false) →
      (xmlSitemapPageIterator.Next env s).1 = false ∧
      (xmlSitemapPageIterator.Next env s).2.Item = none ∧
      (xmlSitemapPageIterator.Next env s).2.Err =
        (if s.check_empty_xml then some emptyDocumentError else none) ∧
      xmlSitemapPageIterator.Next env (xmlSitemapPageIterator.after env k (xmlSitemapPageIterator.Next env s).2) = (false, (xmlSitemapPageIterator.Next env s).2)) := by
  refine ⟨?_, ?_⟩
  · intro env s k hfin h
    have h1 := idx_Next_end env s h
    have hfix : xmlSitemapIndexIterator.Next env (xmlSitemapIndexIterator.Next env s).2 = (false, (xmlSitemapIndexIterator.Next env s).2) := by
      rw [h1]
      exact idx_Next_end env _ (by simp)
    refine ⟨?_, ?_, ?_, ?_⟩
    · rw [h1]
    · rw [h1]; rfl
    · rw [h1]
      simp [xmlSitemapIndexIterator.Err, endError, hfin]
    · rw [idx_after_fixed env _ hfix k]
      exact hfix
  · intro env s k hfin h
    have h1 := page_Next_end env s h
    have hfix : xmlSitemapPageIterator.Next env (xmlSitemapPageIterator.Next env s).2 = (false, (xmlSitemapPageIterator.Next env s).2) := by
      rw [h1]
      exact page_Next_end env _ (by simp)
    refine ⟨?_, ?_, ?_, ?_⟩
    · rw [h1]
    · rw [h1]; rfl
    · rw [h1]
      simp [xmlSitemapPageIterator.Err, endError, hfin]
    · rw [page_after_fixed env _ hfix k]
      exact hfix

/-- C19, four calls after the end of a document without matched elements and two calls after
the end of a document whose entries were produced. -/
theorem exhaustion_is_stable_witness :
    xmlSitemapIndexIterator.Next sampleIndexEnv
        (xmlSitemapIndexIterator.after sampleIndexEnv 3
          (xmlSitemapIndexIterator.Next sampleIndexEnv
            (xmlSitemapIndexIterator.literal (readerOver emptyDoc))).2) =
      (false, (xmlSitemapIndexIterator.Next sampleIndexEnv
        (xmlSitemapIndexIterator.literal (readerOver emptyDoc))).2) ∧
    (xmlSitemapPageIterator.Next samplePageEnv
      (xmlSitemapPageIterator.after samplePageEnv 2
        (xmlSitemapPageIterator.literal (readerOver samplePageDoc)))).2.Err = none :=
  ⟨(exhaustion_is_stable.1 sampleIndexEnv
      (xmlSitemapIndexIterator.literal (readerOver emptyDoc)) 3 rfl (by decide)).2.2.2,
   (exhaustion_is_stable.2 samplePageEnv
      (xmlSitemapPageIterator.after samplePageEnv 2
        (xmlSitemapPageIterator.literal (readerOver samplePageDoc))) 0 rfl
      (by decide)).2.2.1⟩

/-- C18, the code at the failing input: over a sitemap index (and a urlset) cut off inside its
first entry, `DecodeElement` reports the syntax error of the tokenizer for the matched element,
and the Next call that decodes the element returns true with an Item built from the part that
was read and Err nil; the error shows only in the call after it. -/
theorem decode_error_of_element_is_dropped :
    (Decoder.DecodeElement sampleIndexEnv.unmarshal
      { toks := truncatedIndexDoc.toks.drop 2, fin := truncatedIndexDoc.fin }
      (startTag "sitemap")).2.1 = some (Error.xml "XML syntax error: unexpected EOF") ∧
    xmlSitemapIndexIterator.observe sampleIndexEnv 2
        (xmlSitemapIndexIterator.literal (readerOver truncatedIndexDoc)).Reset.2 =
      [(true, some { location := some { text := "https://a.example/1.xml" },
                     last_modified := Time.zero }, none),
       (false, none, some (Error.xml "XML syntax error: unexpected EOF"))] ∧
    (Decoder.DecodeElement samplePageEnv.unmarshal
      { toks := truncatedPageDoc.toks.drop 2, fin := truncatedPageDoc.fin }
      (startTag "url")).2.1 = some (Error.xml "XML syntax error: unexpected EOF") ∧
    xmlSitemapPageIterator.observe samplePageEnv 2
        (xmlSitemapPageIterator.literal (readerOver truncatedPageDoc)).Reset.2 =
      [(true, some { location := some { text := "https://a.example/" },
                     last_modified := Time.zero, change_frequency := "", priority := 1 }, none),
       (false, none, some (Error.xml "XML syntax error: unexpected EOF"))] := by
  refine ⟨by decide, by decide, by decide, by decide⟩

/-- C20: a Next call on an XML iterator that ends in a hard URL-parse failure leaves the
scanning state exactly as a successful production of the same element (by a parse routine
`env2` that accepts it) would: the empty-document flag is cleared and the tokenizer is
positioned just past the subtree of the failed element; so the following Next resumes scanning
there and, if only non-matching tokens remain before a clean end of input, returns false with
Item nil and nil Err rather than the empty-document error. -/
theorem hard_failure_leaves_scanning_state_of_success :
    (∀ (env env2 : IndexEnv) (it : xmlSitemapIndexIterator) (pre : List Token) (st : Token)
        (rest : List Token) (e : ParseError),
      it.sitemap_decoder.toks = pre ++ st :: rest →
      (∀ t ∈ pre, isStart "sitemap" t = false) → isStart "sitemap" st = true →
      (env.parseSitemapIndexURL (env.unmarshal st (readSubtree 0 rest).1)).2 = some e →
      e.UrlParseFailed = true →
      env2.unmarshal = env.unmarshal →
      isHard (env2.parseSitemapIndexURL (env.unmarshal st (readSubtree 0 rest).1)).2 = false →
      (xmlSitemapIndexIterator.Next env it).1 = false ∧
      (xmlSitemapIndexIterator.Next env it).2.check_empty_xml = false ∧
      (xmlSitemapIndexIterator.Next env it).2.sitemap_decoder =
        { toks := (readSubtree 0 rest).2.1, fin := it.sitemap_decoder.fin } ∧
      (xmlSitemapIndexIterator.Next env2 it).1 = true ∧
      (xmlSitemapIndexIterator.Next env2 it).2.check_empty_xml = (xmlSitemapIndexIterator.Next env it).2.check_empty_xml ∧
      (xmlSitemapIndexIterator.Next env2 it).2.sitemap_decoder = (xmlSitemapIndexIterator.Next env it).2.sitemap_decoder ∧
      (xmlSitemapIndexIterator.Next env2 it).2.reader = (xmlSitemapIndexIterator.Next env it).2.reader ∧
      (it.sitemap_decoder.fin = Error.EOF →
        (∀ t ∈ (readSubtree 0 rest).2.1, isStart "sitemap" t = false) →
        (xmlSitemapIndexIterator.Next env (xmlSitemapIndexIterator.Next env it).2).1 = false ∧
        (xmlSitemapIndexIterator.Next env (xmlSitemapIndexIterator.Next env it).2).2.Item = none ∧
        (xmlSitemapIndexIterator.Next env (xmlSitemapIndexIterator.Next env it).2).2.Err = none)) ∧
    (∀ (env env2 : PageEnv) (it : xmlSitemapPageIterator) (pre : List Token) (st : Token)
        (rest : List Token) (e : ParseError),
      it.sitemap_decoder.toks = pre ++ st :: rest →
      (∀ t ∈ pre, isStart "url" t = false) → isStart "url" st = true →
      (env.parseSitemapURL (env.unmarshal st (readSubtree 0 rest).1)).2 = some e →
      e.UrlParseFailed = true →
      env2.unmarshal = env.unmarshal →
      isHard (env2.parseSitemapURL (env.unmarshal st (readSubtree 0 rest).1)).2 = false →
      (xmlSitemapPageIterator.Next env it).1 = false ∧
      (xmlSitemapPageIterator.Next env it).2.check_empty_xml = false ∧
      (xmlSitemapPageIterator.Next env it).2.sitemap_decoder =
        { toks := (readSubtree 0 rest).2.1, fin := it.sitemap_decoder.fin } ∧
      (xmlSitemapPageIterator.Next env2 it).1 = true ∧
      (xmlSitemapPageIterator.Next env2 it).2.check_empty_xml = (xmlSitemapPageIterator.Next env it).2.check_empty_xml ∧
      (xmlSitemapPageIterator.Next env2 it).2.sitemap_decoder = (xmlSitemapPageIterator.Next env it).2.sitemap_decoder ∧
      (xmlSitemapPageIterator.Next env2 it).2.reader = (xmlSitemapPageIterator.Next env it).2.reader ∧
      (it.sitemap_decoder.fin = Error.EOF →
        (∀ t ∈ (readSubtree 0 rest).2.1, isStart "url" t = false) →
        (xmlSitemapPageIterator.Next env (xmlSitemapPageIterator.Next env it).2).1 = false ∧
        (xmlSitemapPageIterator.Next env (xmlSitemapPageIterator.Next env it).2).2.Item = none ∧
        (xmlSitemapPageIterator.Next env (xmlSitemapPageIterator.Next env it).2).2.Err = none)) := by
  refine ⟨?_, ?_⟩
  · intro env env2 it pre st rest e htoks hpre hst hp he hu hok
    have hd : (env.decode st (readSubtree 0 rest).1).2 = some e := hp
    have hh : isHard (env.decode st (readSubtree 0 rest).1).2 = true := by
      rw [hd]
      exact he
    have hd2 : isHard (env2.decode st (readSubtree 0 rest).1).2 = false := by
      unfold IndexEnv.decode
      rw [hu]
      exact hok
    have h1 := idx_Next_at env it pre st rest htoks hpre hst
    have h2 := idx_Next_at env2 it pre st rest htoks hpre hst
    rw [hh] at h1
    rw [hd2] at h2
    refine ⟨?_, ?_, ?_, ?_, ?_, ?_, ?_, ?_⟩
    · rw [h1]; rfl
    · rw [h1]
    · rw [h1]
    · rw [h2]; rfl
    · rw [h1, h2]
    · rw [h1, h2]
    · rw [h1, h2]
    · intro hfin hend
      have hn := idx_Next_end env (xmlSitemapIndexIterator.Next env it).2 (by rw [h1]; exact hend)
      refine ⟨?_, ?_, ?_⟩
      · rw [hn]
      · rw [hn]; rfl
      · rw [hn, h1]
        simp [xmlSitemapIndexIterator.Err, endError, hfin]
  · intro env env2 it pre st rest e htoks hpre hst hp he hu hok
    have hd : (env.decode st (readSubtree 0 rest).1).2 = some e := hp
    have hh : isHard (env.decode st (readSubtree 0 rest).1).2 = true := by
      rw [hd]
      exact he
    have hd2 : isHard (env2.decode st (readSubtree 0 rest).1).2 = false := by
      unfold PageEnv.decode
      rw [hu]
      exact hok
    have h1 := page_Next_at env it pre st rest htoks hpre hst
    have h2 := page_Next_at env2 it pre st rest htoks hpre hst
    rw [hh] at h1
    rw [hd2] at h2
    refine ⟨?_, ?_, ?_, ?_, ?_, ?_, ?_, ?_⟩
    · rw [h1]; rfl
    · rw [h1]
    · rw [h1]
    · rw [h2]; rfl
    · rw [h1, h2]
    · rw [h1, h2]
    · rw [h1, h2]
    · intro hfin hend
      have hn := page_Next_end env (xmlSitemapPageIterator.Next env it).2 (by rw [h1]; exact hend)
      refine ⟨?_, ?_, ?_⟩
      · rw [hn]
      · rw [hn]; rfl
      · rw [hn, h1]
        simp [xmlSitemapPageIterator.Err, endError, hfin]

/-- C20, at the documents whose only entry has an unparsable location, against a parse routine
that accepts every entry. -/
theorem hard_failure_leaves_scanning_state_of_success_witness :
    ((xmlSitemapIndexIterator.Next sampleIndexEnv (xmlSitemapIndexIterator.Next sampleIndexEnv
        (xmlSitemapIndexIterator.literal (readerOver badIndexDoc))).2).1 = false ∧
      (xmlSitemapIndexIterator.Next sampleIndexEnv (xmlSitemapIndexIterator.Next sampleIndexEnv
        (xmlSitemapIndexIterator.literal (readerOver badIndexDoc))).2).2.Item = none ∧
      (xmlSitemapIndexIterator.Next sampleIndexEnv (xmlSitemapIndexIterator.Next sampleIndexEnv
        (xmlSitemapIndexIterator.literal (readerOver badIndexDoc))).2).2.Err = none) ∧
    (xmlSitemapPageIterator.Next acceptingPageEnv
      (xmlSitemapPageIterator.literal (readerOver badPageDoc))).2.sitemap_decoder =
    (xmlSitemapPageIterator.Next samplePageEnv
      (xmlSitemapPageIterator.literal (readerOver badPageDoc))).2.sitemap_decoder :=
  ⟨(hard_failure_leaves_scanning_state_of_success.1 sampleIndexEnv acceptingIndexEnv
      (xmlSitemapIndexIterator.literal (readerOver badIndexDoc))
      [startTag "sitemapindex"] (startTag "sitemap") (badIndexDoc.toks.drop 2)
      { text := "unparsable location", hard := true }
      rfl (by decide) rfl (by decide) rfl rfl (by decide)).2.2.2.2.2.2.2 rfl (by decide),
   (hard_failure_leaves_scanning_state_of_success.2 samplePageEnv acceptingPageEnv
      (xmlSitemapPageIterator.literal (readerOver badPageDoc))
      [startTag "urlset"] (startTag "url") (badPageDoc.toks.drop 2)
      { text := "unparsable location", hard := true }
      rfl (by decide) rfl (by decide) rfl rfl (by decide)).2.2.2.2.2.1⟩

/-- C17: the XML page iterator is the same state machine as the XML index iterator with the
matched local name `url` in place of `sitemap` and the page parse routine in place of the index
parse routine. Let the page parse of an element, over the tokens with the two names exchanged,
return the entity of the index parse carried over by `g` and the same error. Then the page
iterator over the exchanged stream corresponds to the index iterator from the struct literal
on: every Next returns the same result and every Reset the same error, and they lead to
corresponding iterators; so for every sequence of Next and Reset calls the two produce the same
results and the same flag, Items that correspond under `g` and the same Errs; and the
constructors return corresponding iterators and the same error. Exchanging the names twice
gives back the token, so every stream of either iterator is covered. -/
theorem page_iterator_mirrors_index_iterator :
    ∀ (ienv : IndexEnv) (penv : PageEnv) (g : SitemapIndexURL → SitemapURL),
      (∀ st body,
        penv.parseSitemapURL (penv.unmarshal (swapToken st) (body.map swapToken)) =
          ((ienv.parseSitemapIndexURL (ienv.unmarshal st body)).1.map g,
            (ienv.parseSitemapIndexURL (ienv.unmarshal st body)).2)) →
      (∀ t, swapToken (swapToken t) = t) ∧
      (∀ t, isStart "url" (swapToken t) = isStart "sitemap" t) ∧
      (∀ r, asPageIterator g (xmlSitemapIndexIterator.literal r) =
        xmlSitemapPageIterator.literal (swapReader r)) ∧
      (∀ it, xmlSitemapPageIterator.Next penv (asPageIterator g it) =
        ((xmlSitemapIndexIterator.Next ienv it).1,
          asPageIterator g (xmlSitemapIndexIterator.Next ienv it).2)) ∧
      (∀ it, (asPageIterator g it).Reset = (it.Reset.1, asPageIterator g it.Reset.2)) ∧
      (∀ calls it,
        xmlSitemapPageIterator.trace penv calls (asPageIterator g it) =
          (xmlSitemapIndexIterator.trace ienv calls it).map
            (fun o => (o.1, o.2.1, o.2.2.1.map g, o.2.2.2))) ∧
      (∀ r, newXmlSitemapPageIterator penv (some (swapReader r)) =
        ((newXmlSitemapIndexIterator ienv (some r)).1.map (asPageIterator g),
          (newXmlSitemapIndexIterator ienv (some r)).2)) := by
  intro ienv penv g h
  refine ⟨swapToken_swapToken, isStart_swap, fun r => rfl, asPageIterator_Next ienv penv g h,
    asPageIterator_Reset g, ?_, ?_⟩
  · intro calls
    induction calls with
    | nil => intro it; rfl
    | cons c cs ih =>
      intro it
      cases c with
      | Next =>
        simp only [xmlSitemapPageIterator.trace, xmlSitemapIndexIterator.trace, List.map_cons]
        rw [asPageIterator_Next ienv penv g h it, ih]
        rfl
      | Reset =>
        simp only [xmlSitemapPageIterator.trace, xmlSitemapIndexIterator.trace, List.map_cons]
        rw [asPageIterator_Reset g it, ih]
        rfl
  · intro r
    have hv := validate_map (xmlSitemapIndexIterator.asItemIterator ienv)
      (xmlSitemapPageIterator.asItemIterator penv) (asPageIterator g)
      (asPageIterator_Next ienv penv g h) (fun s => rfl) (asPageIterator_Reset g)
      (xmlSitemapIndexIterator.literal r)
    have hl : xmlSitemapPageIterator.literal (swapReader r) =
        asPageIterator g (xmlSitemapIndexIterator.literal r) := rfl
    simp only [newXmlSitemapPageIterator, newXmlSitemapIndexIterator, hl, hv]
    split <;> rfl

/-- C17, at the sample index environment and the page environment that parses as it does:
a run of Next and Reset calls over the document whose first entry is rejected, and the
constructors over the two-entry document. -/
theorem page_iterator_mirrors_index_iterator_witness :
    xmlSitemapPageIterator.trace mirrorPageEnv
        [Call.Next, Call.Next, Call.Reset, Call.Next, Call.Next, Call.Next]
        (asPageIterator toPage
          (xmlSitemapIndexIterator.literal (readerOver badThenGoodIndexDoc))) =
      (xmlSitemapIndexIterator.trace sampleIndexEnv
        [Call.Next, Call.Next, Call.Reset, Call.Next, Call.Next, Call.Next]
        (xmlSitemapIndexIterator.literal (readerOver badThenGoodIndexDoc))).map
          (fun o => (o.1, o.2.1, o.2.2.1.map toPage, o.2.2.2)) ∧
    newXmlSitemapPageIterator mirrorPageEnv (some (swapReader (readerFailing sampleIndexDoc))) =
      ((newXmlSitemapIndexIterator sampleIndexEnv
          (some (readerFailing sampleIndexDoc))).1.map (asPageIterator toPage),
        (newXmlSitemapIndexIterator sampleIndexEnv (some (readerFailing sampleIndexDoc))).2) ∧
    (xmlSitemapPageIterator.trace mirrorPageEnv
        [Call.Next, Call.Next, Call.Reset, Call.Next, Call.Next, Call.Next]
        (asPageIterator toPage
          (xmlSitemapIndexIterator.literal (readerOver badThenGoodIndexDoc)))).map
        (fun o => (o.1, o.2.1)) =
      [(Sum.inl false, false), (Sum.inl true, false), (Sum.inr none, true),
       (Sum.inl false, false), (Sum.inl true, false), (Sum.inl false, false)] :=
  have h := page_iterator_mirrors_index_iterator sampleIndexEnv mirrorPageEnv toPage
    (fun st body => by
      simp only [mirrorPageEnv, sampleIndexEnv, firstText_swap])
  ⟨h.2.2.2.2.2.1 _ _, h.2.2.2.2.2.2 _, by decide⟩

end Sitemap
